import Mathlib

/-! Profanity: the XMPP session controller (`src/jabber.c`), the room table
(`src/room_chat.c`) and the string helpers (`src/common.c`)

A shallow embedding of the connection controller and the stanza handlers of `jabber.c`, of
the table of joined rooms of `room_chat.c`, and of `str_replace` and `encode_xml` of
`common.c`.

* The file-level statics of `jabber.c` (`jabber_conn`, `saved_user`, `sub_requests`,
  `reconnect_timer`) and the chat-session table form the record `Globals`.
* Every call that leaves the controller (transport calls of libstrophe, UI notifications
  `prof_handle_*`, GLib timer calls, the log lines of the modelled functions) is appended to
  a history, together with the value of the globals at the moment of the call.  The history
  is a ghost variable: the code never reads it.
* C strings are `String`, nullable pointers are `Option`.  Calls pass values, with one
  exception: the reconnect call of `jabber_process_events` passes the pointers kept in
  `saved_user`, which the callee frees before it reads them; that call is embedded with its
  aliasing.
* `assert` stops the process, and so does a read of a freed block; a function that can reach
  one of them returns `Except Fault _`, the fault carrying the state in which the process
  stopped.
* A read through a null pointer stops the process as well; a function that can reach one
  returns `Except Trap _`, the trap naming the call that read.
* `jabber_conn.ctx` and `jabber_conn.conn` are created together (`jabber_connect`) and
  released together (`jabber_free_resources`); the field `conn` of the embedding stands for
  both, and is `none` while the controller has no context and no connection object.  The
  senders without a state guard (`jabber_send`, `jabber_send_composing` and its siblings,
  `jabber_subscription`, `jabber_join`, `jabber_change_room_nick`) then read through the
  null context; the functions guarded by the state Connected and the handlers that
  libstrophe calls run only while both exist.
* `room_chat.c` keeps its rooms in a file-level hash table of its own; its functions are
  embedded over that table (`room_table`), passed explicitly.
* Modules whose source is not available (`chat_session.c`, `stanza.c`, `muc.c`, `jid.c`,
  `contact_list.c`, `contact.c`, `parser.c`) are modelled from the specification and from
  the tests in `src/tests`; each such definition says so in its comment.
-/

namespace Profanity

/-! ## Types declared in headers (`jabber.h`, `strophe.h`, `glib.h`) -/

/-- Connection states, `jabber_conn_status_t`. -/
inductive jabber_conn_status_t where
  | JABBER_UNDEFINED
  | JABBER_STARTED
  | JABBER_CONNECTING
  | JABBER_CONNECTED
  | JABBER_DISCONNECTING
  | JABBER_DISCONNECTED
  deriving DecidableEq

/-- Presence values, `jabber_presence_t`. -/
inductive jabber_presence_t where
  | PRESENCE_OFFLINE
  | PRESENCE_ONLINE
  | PRESENCE_AWAY
  | PRESENCE_DND
  | PRESENCE_CHAT
  | PRESENCE_XA
  deriving DecidableEq

/-- Connection events that libstrophe hands to the connection handler. -/
inductive xmpp_conn_event_t where
  | XMPP_CONN_CONNECT
  | XMPP_CONN_DISCONNECT
  | XMPP_CONN_FAIL
  deriving DecidableEq

open jabber_conn_status_t jabber_presence_t xmpp_conn_event_t

/-- A libstrophe stanza: a text node, or a tag with attributes (the namespace is the
attribute `xmlns`) and children in document order. -/
inductive xmpp_stanza_t where
  | text (t : String)
  | tag (name : String) (attrs : List (String × String)) (children : List xmpp_stanza_t)

/-- Name of a tag stanza, null for a text node. -/
def xmpp_stanza_get_name : xmpp_stanza_t → Option String
  | .text _ => none
  | .tag n _ _ => some n

/-- Value of an attribute, null when absent. -/
def xmpp_stanza_get_attribute (st : xmpp_stanza_t) (key : String) : Option String :=
  match st with
  | .text _ => none
  | .tag _ attrs _ => (attrs.find? (fun kv => kv.1 == key)).map (fun kv => kv.2)

/-- Set an attribute, replacing an earlier value of the same key. -/
def xmpp_stanza_set_attribute (st : xmpp_stanza_t) (key value : String) : xmpp_stanza_t :=
  match st with
  | .text t => .text t
  | .tag n attrs cs => .tag n (attrs.filter (fun kv => !(kv.1 == key)) ++ [(key, value)]) cs

/-- Append a child. -/
def xmpp_stanza_add_child (st child : xmpp_stanza_t) : xmpp_stanza_t :=
  match st with
  | .text t => .text t
  | .tag n attrs cs => .tag n attrs (cs ++ [child])

/-- Children of a stanza. -/
def xmpp_stanza_children : xmpp_stanza_t → List xmpp_stanza_t
  | .text _ => []
  | .tag _ _ cs => cs

/-- First child with the given tag name. -/
def xmpp_stanza_get_child_by_name (st : xmpp_stanza_t) (name : String) : Option xmpp_stanza_t :=
  (xmpp_stanza_children st).find? (fun c => xmpp_stanza_get_name c == some name)

/-- The connection object of libstrophe, as far as the controller configures it; the
handlers registered on it are read off the history of outward calls. -/
structure xmpp_conn_t where
  jid : Option String
  pass : Option String
  tls_disabled : Bool
  deriving DecidableEq

/-- A GLib timer: the clock reading (microseconds) at which it was last started. -/
structure GTimer where
  start : Nat
  deriving DecidableEq

/-- Microseconds elapsed on a timer at clock reading `now`; `g_timer_elapsed` reports this
amount in seconds. -/
def g_timer_elapsed (t : GTimer) (now : Nat) : Int :=
  (now : Int) - (t.start : Int)

/-! ## Preferences (read-only queries `prefs_get_*`) -/

/-- Values of the preference queries the controller makes. -/
structure Prefs where
  reconnect : Int
  autoping : Int
  states : Bool
  priority : Int
  notify_typing : Bool := false
  intype : Bool := false
  deriving DecidableEq

/-! ## Chat sessions (`chat_session.c` is not among the available sources) -/

/-- Modelled from the spec: a chat session, "keyed by bare JID; tracks whether the peer is
known to support chat-state notifications, the last state sent by us"; `chat_session.c` is
missing. -/
structure ChatSession where
  recipient : String
  recipient_supports : Bool
  state : String
  sent : Bool
  deriving DecidableEq

/-- Modelled from the spec: `chat_sessions_init` of the missing `chat_session.c`; the table
starts empty. -/
def chat_sessions_init (_sessions : List ChatSession) : List ChatSession := []

/-- Modelled from the spec: `chat_sessions_clear` of the missing `chat_session.c`;
"cleared on disconnect". -/
def chat_sessions_clear (_sessions : List ChatSession) : List ChatSession := []

/-- Modelled from the spec: `chat_session_exists` of the missing `chat_session.c`. -/
def chat_session_exists (sessions : List ChatSession) (recipient : String) : Bool :=
  sessions.any (fun c => c.recipient == recipient)

/-- Modelled from the spec: `chat_session_start` of the missing `chat_session.c`; "starting a
session sets capability unknown by default unless the inbound stanza already signals
chat-state support, in which case capability is recorded immediately". -/
def chat_session_start (sessions : List ChatSession) (recipient : String)
    (recipient_supports : Bool) : List ChatSession :=
  sessions.filter (fun c => !(c.recipient == recipient)) ++
    [{ recipient := recipient, recipient_supports := recipient_supports,
       state := "active", sent := false }]

/-- Modelled from the spec: `chat_session_get_recipient_supports` of the missing
`chat_session.c`; false when there is no session. -/
def chat_session_get_recipient_supports (sessions : List ChatSession)
    (recipient : String) : Bool :=
  match sessions.find? (fun c => c.recipient == recipient) with
  | some c => c.recipient_supports
  | none => false

/-- Modelled from the spec: `chat_session_set_active` of the missing `chat_session.c`;
"setting active on outbound send resets any paused/inactive local state".  No session is
created. -/
def chat_session_set_active (sessions : List ChatSession) (recipient : String) :
    List ChatSession :=
  sessions.map (fun c =>
    if c.recipient == recipient then { c with state := "active" } else c)

/-- Modelled from the spec: `chat_session_set_sent` of the missing `chat_session.c`; records
that the current state was sent.  No session is created. -/
def chat_session_set_sent (sessions : List ChatSession) (recipient : String) :
    List ChatSession :=
  sessions.map (fun c => if c.recipient == recipient then { c with sent := true } else c)

/-! ## The statics of `jabber.c` -/

/-- The static `jabber_conn`.  The handle `log` carries no data.  The handles `ctx` and
`conn` are assigned together (jabber.c 143-144) and released together (496-497): `conn` is
`none` while the controller has neither of them, before the first `jabber_connect` and after
`jabber_free_resources`. -/
structure jabber_conn_t where
  conn : Option xmpp_conn_t
  conn_status : jabber_conn_status_t
  presence : jabber_presence_t
  status : Option String
  tls_disabled : Bool
  priority : Int
  deriving DecidableEq

/-- The static `saved_user`, kept for auto reconnect. -/
structure saved_user_t where
  account : Option String
  jid : Option String
  passwd : Option String
  altdomain : Option String
  deriving DecidableEq

/-- Modelled from the spec: a room of the MUC registry (`muc.c` is missing; `muc.h` declares
its functions), "keyed by full room JID; holds our nick, activation state, roster received
flag, pending-nick-change flag/target, and a per-room RoomRoster, mapping of nick to (show,
status)".  A room is active while it is in the registry. -/
structure MucRoom where
  room : String
  nick : String
  roster : List (String × String × Option String)
  roster_received : Bool
  pending_nick_change : Bool
  roster_pending_nick_changes : List (String × String)
  deriving DecidableEq

/-- All controller state: the statics of `jabber.c`, the chat-session table and the MUC
registry. -/
structure Globals where
  jabber_conn : jabber_conn_t
  sub_requests : Option (List String)
  saved_user : saved_user_t
  reconnect_timer : Option GTimer
  chat_sessions : List ChatSession
  muc_rooms : List MucRoom := []
  deriving DecidableEq

/-- Calls that leave the controller; `invoke` is a call, by name and string arguments, of
a notification `prof_handle_*` or of another module (`contact_list_*`). -/
inductive Effect where
  | log_info (msg : String) (arg : Option String)
  | log_debug (msg : String) (arg : Option String)
  | xmpp_initialize
  | xmpp_ctx_new
  | xmpp_conn_new
  | xmpp_conn_set_jid (jid : String)
  | xmpp_conn_set_pass (pass : String)
  | xmpp_conn_disable_tls
  | xmpp_connect_client (altdomain : Option String) (result : Int)
  | xmpp_disconnect
  | xmpp_run_once (timeout : Nat)
  | xmpp_send (stanza : xmpp_stanza_t)
  | xmpp_handler_add (name : String)
  | xmpp_timed_handler_add (period : Nat)
  | xmpp_timed_handler_delete
  | xmpp_conn_release
  | xmpp_ctx_free
  | xmpp_shutdown
  | g_timer_new
  | g_timer_start
  | g_timer_destroy
  | prof_handle_login_account_success (account : String)
  | prof_handle_login_success (jid : Option String) (altdomain : Option String)
  | prof_handle_lost_connection
  | prof_handle_failed_login
  | invoke (name : String) (args : List (Option String))

/-- The controller state together with the history of outward calls; each call is recorded
with the globals as they were when it was made. -/
structure Session where
  mem : Globals
  trace : List (Globals × Effect)

/-- Record an outward call. -/
def emit (e : Effect) (s : Session) : Session :=
  { s with trace := s.trace ++ [(s.mem, e)] }

/-- Ways the process can stop short: a failed `assert`, a wait loop that is still waiting
when the supplied transport schedule is used up, or a read of a block that was freed. -/
inductive Fault where
  | assertion (stopped : Session)
  | starved (stopped : Session)
  | freed_read (stopped : Session)

/-- A read through a null pointer (`strlen(NULL)`, `strcmp(NULL, _)`, a field of a null
stanza, the hash of a null key, an allocation from a null `jabber_conn.ctx`): the process
does not survive it. -/
inductive Trap where
  | null_read (site : String)
  deriving DecidableEq

/-- Modelled from the spec: the macro `FREE_SET_NULL` is used by `jabber.c` but declared in
none of the available headers; it frees the string and leaves the variable null. -/
def FREE_SET_NULL (_resource : Option String) : Option String := none

/-! ## `jabber.c` -/

/-- The statics before `jabber_init`: null pointers; `jabber_init` assigns the connection
state and the presence, so the values given to them here are never read. -/
def statics : Session :=
  { mem :=
      { jabber_conn :=
          { conn := none, conn_status := JABBER_UNDEFINED, presence := PRESENCE_OFFLINE,
            status := none, tls_disabled := false, priority := 0 }
        sub_requests := none
        saved_user := { account := none, jid := none, passwd := none, altdomain := none }
        reconnect_timer := none
        chat_sessions := [] }
    trace := [] }

/-- Embedding of `jabber_init` (jabber.c 91-100). -/
def jabber_init (disable_tls : Bool) (s : Session) : Session :=
  let s := emit (.log_info "Initialising XMPP" none) s
  { s with mem := { s.mem with
      jabber_conn := { s.mem.jabber_conn with
        conn_status := JABBER_STARTED, presence := PRESENCE_OFFLINE, status := none,
        tls_disabled := disable_tls }
      sub_requests := some [] } }

/-- Embedding of `jabber_get_connection_status` (jabber.c 453-457). -/
def jabber_get_connection_status (s : Session) : jabber_conn_status_t :=
  s.mem.jabber_conn.conn_status

/-- Embedding of `jabber_connect` (jabber.c 123-161).  `connect_status` is what the
transport-level `xmpp_connect_client` returns. -/
def jabber_connect (connect_status : Int) (jid passwd altdomain : Option String)
    (s : Session) : jabber_conn_status_t × Session :=
  let s : Session := { s with mem := { s.mem with saved_user := { s.mem.saved_user with
    jid := FREE_SET_NULL s.mem.saved_user.jid
    passwd := FREE_SET_NULL s.mem.saved_user.passwd
    altdomain := FREE_SET_NULL s.mem.saved_user.altdomain } } }
  match jid, passwd with
  | some j, some p =>
    let s : Session := { s with mem := { s.mem with saved_user := { s.mem.saved_user with
      jid := some j, passwd := some p } } }
    let s : Session :=
      match altdomain with
      | some a => { s with mem := { s.mem with saved_user := { s.mem.saved_user with
          altdomain := some a } } }
      | none => s
    let s := emit (.log_info "Connecting as %s" (some j)) s
    let s := emit Effect.xmpp_initialize s
    let s := emit .xmpp_ctx_new s
    let s := emit .xmpp_conn_new s
    let s : Session := { s with mem := { s.mem with jabber_conn := { s.mem.jabber_conn with
      conn := some { jid := none, pass := none, tls_disabled := false } } } }
    let s := emit (.xmpp_conn_set_jid j) s
    let s := emit (.xmpp_conn_set_pass p) s
    let s : Session := { s with mem := { s.mem with jabber_conn := { s.mem.jabber_conn with
      conn := s.mem.jabber_conn.conn.map (fun c => { c with jid := some j, pass := some p }) } } }
    let s : Session :=
      if s.mem.jabber_conn.tls_disabled then
        let s := emit .xmpp_conn_disable_tls s
        { s with mem := { s.mem with jabber_conn := { s.mem.jabber_conn with
            conn := s.mem.jabber_conn.conn.map (fun c => { c with tls_disabled := true }) } } }
      else s
    let s := emit (.xmpp_connect_client altdomain connect_status) s
    let s : Session :=
      if connect_status = 0 then
        { s with mem := { s.mem with jabber_conn := { s.mem.jabber_conn with
            conn_status := JABBER_CONNECTING } } }
      else
        { s with mem := { s.mem with jabber_conn := { s.mem.jabber_conn with
            conn_status := JABBER_DISCONNECTED } } }
    (s.mem.jabber_conn.conn_status, s)
  | _, _ => (JABBER_UNDEFINED, s)

/-- Embedding of `jabber_free_resources` (jabber.c 486-499). -/
def jabber_free_resources (s : Session) : Session :=
  let s : Session := { s with mem := { s.mem with saved_user :=
    { jid := FREE_SET_NULL s.mem.saved_user.jid
      passwd := FREE_SET_NULL s.mem.saved_user.passwd
      account := FREE_SET_NULL s.mem.saved_user.account
      altdomain := FREE_SET_NULL s.mem.saved_user.altdomain } } }
  let s : Session := { s with mem := { s.mem with
    chat_sessions := chat_sessions_clear s.mem.chat_sessions } }
  let s : Session :=
    match s.mem.sub_requests with
    | some _ => { s with mem := { s.mem with sub_requests := some [] } }
    | none => s
  let s := emit .xmpp_conn_release s
  let s : Session := { s with mem := { s.mem with jabber_conn := { s.mem.jabber_conn with
    conn := none } } }
  let s := emit .xmpp_ctx_free s
  emit .xmpp_shutdown s

/-- Modelled from the spec: `stanza_create_roster_iq` of the missing `stanza.c`, the request
with the "dedicated roster id" that "triggers initial roster population". -/
def stanza_create_roster_iq : xmpp_stanza_t :=
  .tag "iq" [("type", "get"), ("id", "roster")] [.tag "query" [("xmlns", "jabber:iq:roster")] []]

/-- Embedding of `_jabber_roster_request` (jabber.c 501-507). -/
def _jabber_roster_request (s : Session) : Session :=
  emit (.xmpp_send stanza_create_roster_iq) s

/-- The product of two `int` values, wrapped to 32 bits (an overflowing `int` product is
undefined in C; the wrap is what the two's complement multiplication yields). -/
def int_mul (a b : Int) : Int :=
  (a * b + 2147483648) % 4294967296 - 2147483648

/-- Conversion of an `int` argument to a parameter of type `unsigned long` (64 bits): the
value modulo 2^64. -/
def unsigned_long (v : Int) : Nat :=
  (v % 18446744073709551616).toNat

/-- Embedding of `_connection_handler` (jabber.c 712-780).  `now` is the clock reading when
the event is handled.  The autoping interval `int millis = prefs_get_autoping() * 1000`
(735) is handed to the parameter `unsigned long period` of `xmpp_timed_handler_add`. -/
def _connection_handler (prefs : Prefs) (now : Nat) (status : xmpp_conn_event_t)
    (s : Session) : Except Fault Session :=
  match status with
  | XMPP_CONN_CONNECT =>
    let s : Session :=
      match s.mem.saved_user.account with
      | some account => emit (.prof_handle_login_account_success account) s
      | none =>
        let jid := s.mem.jabber_conn.conn.bind (fun c => c.jid)
        emit (.prof_handle_login_success jid s.mem.saved_user.altdomain) s
    let s : Session := { s with mem := { s.mem with
      chat_sessions := chat_sessions_init s.mem.chat_sessions } }
    let s := emit (.xmpp_handler_add "message") s
    let s := emit (.xmpp_handler_add "presence") s
    let s := emit (.xmpp_handler_add "iq") s
    let s : Session :=
      if prefs.autoping ≠ 0 then
        let millis := int_mul prefs.autoping 1000
        emit (.xmpp_timed_handler_add (unsigned_long millis)) s
      else s
    let s := _jabber_roster_request s
    let s : Session := { s with mem := { s.mem with jabber_conn := { s.mem.jabber_conn with
      conn_status := JABBER_CONNECTED, presence := PRESENCE_ONLINE } } }
    let s : Session :=
      if prefs.reconnect ≠ 0 then
        match s.mem.reconnect_timer with
        | some _ =>
          let s := emit .g_timer_destroy s
          { s with mem := { s.mem with reconnect_timer := none } }
        | none => s
      else s
    .ok s
  | XMPP_CONN_DISCONNECT =>
    let r : Except Fault Session :=
      if s.mem.jabber_conn.conn_status = JABBER_CONNECTED then
        let s := emit .prof_handle_lost_connection s
        if prefs.reconnect ≠ 0 then
          match s.mem.reconnect_timer with
          | some _ => .error (.assertion s)
          | none =>
            let s := emit .g_timer_new s
            .ok { s with mem := { s.mem with reconnect_timer := some { start := now } } }
        else
          .ok (jabber_free_resources s)
      else if s.mem.jabber_conn.conn_status ≠ JABBER_DISCONNECTING then
        match s.mem.reconnect_timer with
        | none =>
          let s := emit .prof_handle_failed_login s
          .ok (jabber_free_resources s)
        | some _ =>
          if prefs.reconnect ≠ 0 then
            let s := emit .g_timer_start s
            .ok { s with mem := { s.mem with reconnect_timer := some { start := now } } }
          else .ok s
      else .ok s
    match r with
    | .ok s =>
      .ok { s with mem := { s.mem with jabber_conn := { s.mem.jabber_conn with
        conn_status := JABBER_DISCONNECTED, presence := PRESENCE_OFFLINE } } }
    | .error f => .error f
  | XMPP_CONN_FAIL => .ok s

/-- What reaches the controller from outside during one call of `jabber_process_events`:
the clock reading, the connection events libstrophe delivers inside `xmpp_run_once`, and
the value `xmpp_connect_client` would return to a reconnection attempt (the attempt stops
before that call, see `jabber_process_events`).  Inbound
stanzas are dispatched by the stanza handlers, which touch neither `conn_status`,
`saved_user` nor `reconnect_timer`. -/
structure Tick where
  now : Nat
  events : List xmpp_conn_event_t
  connect_status : Int

/-- The connection events of one `xmpp_run_once`, handled in order; a failed assertion ends
the process. -/
def deliver (prefs : Prefs) (now : Nat) :
    List xmpp_conn_event_t → Session → Except Fault Session
  | [], s => .ok s
  | e :: es, s =>
    match _connection_handler prefs now e s with
    | .ok s' => deliver prefs now es s'
    | .error f => .error f

/-- Embedding of `jabber_process_events` (jabber.c 179-199).  The test
`g_timer_elapsed(reconnect_timer, NULL) > prefs_get_reconnect()` compares seconds; here
both sides are in microseconds.  The reconnect call (194) is
`jabber_connect(saved_user.jid, saved_user.passwd, saved_user.altdomain)`: the parameters
`jid`, `passwd` and `altdomain` of the callee are the pointers kept in `saved_user`.  The
callee first frees the saved strings (127-129), which are the strings its parameters point
to; its null test (131) looks at the parameters, which are what they were; `strdup(jid)`
(134) then reads the block freed at 127, and the process stops there.  With a null saved
jid or password the callee returns at 132. -/
def jabber_process_events (prefs : Prefs) (t : Tick) (s : Session) : Except Fault Session :=
  if s.mem.jabber_conn.conn_status = JABBER_CONNECTED
      ∨ s.mem.jabber_conn.conn_status = JABBER_CONNECTING
      ∨ s.mem.jabber_conn.conn_status = JABBER_DISCONNECTING then
    deliver prefs t.now t.events (emit (.xmpp_run_once 10) s)
  else if prefs.reconnect ≠ 0 then
    if s.mem.jabber_conn.conn_status = JABBER_DISCONNECTED then
      match s.mem.reconnect_timer with
      | some timer =>
        if g_timer_elapsed timer t.now > prefs.reconnect * 1000000 then
          let s := emit (.log_debug "Attempting reconnect as %s" s.mem.saved_user.jid) s
          let jid := s.mem.saved_user.jid
          let passwd := s.mem.saved_user.passwd
          let s : Session := { s with mem := { s.mem with saved_user := { s.mem.saved_user with
            jid := FREE_SET_NULL s.mem.saved_user.jid
            passwd := FREE_SET_NULL s.mem.saved_user.passwd
            altdomain := FREE_SET_NULL s.mem.saved_user.altdomain } } }
          match jid, passwd with
          | some _, some _ => .error (.freed_read s)
          | _, _ => .ok s
        else .ok s
      | none => .ok s
    else .ok s
  else .ok s

/-- The wait loop of `jabber_disconnect` (jabber.c 172-174): one `jabber_process_events` per
tick of the schedule while the state is Disconnecting. -/
def disconnect_wait (prefs : Prefs) : List Tick → Session → Except Fault Session
  | [], s =>
    if jabber_get_connection_status s = JABBER_DISCONNECTING then .error (.starved s)
    else .ok s
  | t :: ts, s =>
    if jabber_get_connection_status s = JABBER_DISCONNECTING then
      match jabber_process_events prefs t s with
      | .ok s' => disconnect_wait prefs ts s'
      | .error f => .error f
    else .ok s

/-- Embedding of `jabber_disconnect` (jabber.c 163-177); `ticks` is what the transport
delivers in the successive rounds of the wait loop. -/
def jabber_disconnect (prefs : Prefs) (ticks : List Tick) (s : Session) :
    Except Fault Session :=
  if s.mem.jabber_conn.conn_status = JABBER_CONNECTED then
    let s := emit (.log_info "Closing connection" none) s
    let s : Session := { s with mem := { s.mem with jabber_conn := { s.mem.jabber_conn with
      conn_status := JABBER_DISCONNECTING } } }
    let s := emit .xmpp_disconnect s
    match disconnect_wait prefs ticks s with
    | .ok s' => .ok (jabber_free_resources s')
    | .error f => .error f
  else .ok s

/-! ## Sending (jabber.c 201-276) -/

/-- Namespace of chat-state elements, `STANZA_NS_CHATSTATES` (stanza.h). -/
def STANZA_NS_CHATSTATES : String := "http://jabber.org/protocol/chatstates"

/-- Modelled from the spec: `stanza_create_message` of the missing `stanza.c`; "given
recipient, body, and optional chat-state tag, emits a message stanza of type chat or
groupchat with an optional chat-state child in the chat-states namespace". -/
def stanza_create_message (recipient type message : String) (state : Option String) :
    xmpp_stanza_t :=
  .tag "message" [("type", type), ("to", recipient)]
    (.tag "body" [] [.text message] ::
      match state with
      | some st => [.tag st [("xmlns", STANZA_NS_CHATSTATES)] []]
      | none => [])

/-- Modelled from the spec: `stanza_create_chat_state` of the missing `stanza.c`; a chat
message to the recipient whose only child is the chat-state element. -/
def stanza_create_chat_state (recipient state : String) : xmpp_stanza_t :=
  .tag "message" [("type", "chat"), ("to", recipient)]
    [.tag state [("xmlns", STANZA_NS_CHATSTATES)] []]

/-- Modelled from the spec: `stanza_contains_chat_state` of the missing `stanza.c`; "detect
whether a stanza carries any recognized chat-state child" (active, composing, paused,
inactive, gone). -/
def stanza_contains_chat_state (st : xmpp_stanza_t) : Bool :=
  (xmpp_stanza_children st).any (fun c =>
    match xmpp_stanza_get_name c with
    | some n => n == "active" || n == "composing" || n == "paused" || n == "inactive"
        || n == "gone"
    | none => false)

/-- Embedding of `jabber_send` (jabber.c 201-222).  The message builder allocates from
`jabber_conn.ctx` (213, 216) and the stanza goes to `xmpp_send(jabber_conn.conn, _)` (220):
in a session without context and connection the builder reads through a null pointer. -/
def jabber_send (prefs : Prefs) (msg recipient : String) (s : Session) :
    Except Trap Session :=
  let s : Session :=
    if prefs.states then
      if !chat_session_exists s.mem.chat_sessions recipient then
        { s with mem := { s.mem with
            chat_sessions := chat_session_start s.mem.chat_sessions recipient true } }
      else s
    else s
  if prefs.states && chat_session_get_recipient_supports s.mem.chat_sessions recipient then
    let s : Session := { s with mem := { s.mem with
      chat_sessions := chat_session_set_active s.mem.chat_sessions recipient } }
    match s.mem.jabber_conn.conn with
    | none => .error (.null_read "stanza_create_message(jabber_conn.ctx, ..)")
    | some _ =>
      .ok (emit (.xmpp_send (stanza_create_message recipient "chat" msg (some "active"))) s)
  else
    match s.mem.jabber_conn.conn with
    | none => .error (.null_read "stanza_create_message(jabber_conn.ctx, ..)")
    | some _ => .ok (emit (.xmpp_send (stanza_create_message recipient "chat" msg none)) s)

/-- Common body of `jabber_send_composing`, `jabber_send_paused`, `jabber_send_inactive`
and `jabber_send_gone`: build the chat-state stanza from `jabber_conn.ctx` (a read through
a null pointer in a session without context and connection), send it on
`jabber_conn.conn`, mark the session as sent. -/
def send_chat_state (state recipient : String) (s : Session) : Except Trap Session :=
  match s.mem.jabber_conn.conn with
  | none => .error (.null_read "stanza_create_chat_state(jabber_conn.ctx, ..)")
  | some _ =>
    let s := emit (.xmpp_send (stanza_create_chat_state recipient state)) s
    .ok { s with mem := { s.mem with
      chat_sessions := chat_session_set_sent s.mem.chat_sessions recipient } }

/-- Embedding of `jabber_send_composing` (jabber.c 234-243). -/
def jabber_send_composing (recipient : String) (s : Session) : Except Trap Session :=
  send_chat_state "composing" recipient s

/-- Embedding of `jabber_send_paused` (jabber.c 245-254). -/
def jabber_send_paused (recipient : String) (s : Session) : Except Trap Session :=
  send_chat_state "paused" recipient s

/-- Embedding of `jabber_send_inactive` (jabber.c 256-265). -/
def jabber_send_inactive (recipient : String) (s : Session) : Except Trap Session :=
  send_chat_state "inactive" recipient s

/-- Embedding of `jabber_send_gone` (jabber.c 267-276). -/
def jabber_send_gone (recipient : String) (s : Session) : Except Trap Session :=
  send_chat_state "gone" recipient s

/-! ## Runs of the controller -/

/-- A public operation of the controller, with what the outside world contributes to it. -/
inductive Op where
  | connect (connect_status : Int) (jid passwd altdomain : Option String)
  | disconnect (ticks : List Tick)
  | process_events (t : Tick)

/-- One operation, under the preferences in force when it is called. -/
def step (prefs : Prefs) (op : Op) (s : Session) : Except Fault Session :=
  match op with
  | .connect cs jid passwd altdomain => .ok (jabber_connect cs jid passwd altdomain s).2
  | .disconnect ticks => jabber_disconnect prefs ticks s
  | .process_events t => jabber_process_events prefs t s

/-- A sequence of operations; the preferences may change between operations.  A fault ends
the run. -/
def run : List (Prefs × Op) → Session → Except Fault Session
  | [], s => .ok s
  | (prefs, op) :: rest, s =>
    match step prefs op s with
    | .ok s' => run rest s'
    | .error f => .error f

/-- The state in which a run ended, by completing or by stopping short. -/
def final : Except Fault Session → Session
  | .ok s => s
  | .error (.assertion s) => s
  | .error (.starved s) => s
  | .error (.freed_read s) => s

/-- Whether a run was stopped by a failed assertion. -/
def assertion_failed : Except Fault Session → Bool
  | .error (.assertion _) => true
  | _ => false

/-- Whether a run completed. -/
def completed : Except Fault Session → Bool
  | .ok _ => true
  | _ => false

/-! ## Reading the history -/

/-- Name of the function an outward call goes to. -/
def Effect.call : Effect → String
  | .log_info _ _ => "log_info"
  | .log_debug _ _ => "log_debug"
  | Effect.xmpp_initialize => "xmpp_initialize"
  | .xmpp_ctx_new => "xmpp_ctx_new"
  | .xmpp_conn_new => "xmpp_conn_new"
  | .xmpp_conn_set_jid _ => "xmpp_conn_set_jid"
  | .xmpp_conn_set_pass _ => "xmpp_conn_set_pass"
  | .xmpp_conn_disable_tls => "xmpp_conn_disable_tls"
  | .xmpp_connect_client _ _ => "xmpp_connect_client"
  | .xmpp_disconnect => "xmpp_disconnect"
  | .xmpp_run_once _ => "xmpp_run_once"
  | .xmpp_send _ => "xmpp_send"
  | .xmpp_handler_add _ => "xmpp_handler_add"
  | .xmpp_timed_handler_add _ => "xmpp_timed_handler_add"
  | .xmpp_timed_handler_delete => "xmpp_timed_handler_delete"
  | .xmpp_conn_release => "xmpp_conn_release"
  | .xmpp_ctx_free => "xmpp_ctx_free"
  | .xmpp_shutdown => "xmpp_shutdown"
  | .g_timer_new => "g_timer_new"
  | .g_timer_start => "g_timer_start"
  | .g_timer_destroy => "g_timer_destroy"
  | .prof_handle_login_account_success _ => "prof_handle_login_account_success"
  | .prof_handle_login_success _ _ => "prof_handle_login_success"
  | .prof_handle_lost_connection => "prof_handle_lost_connection"
  | .prof_handle_failed_login => "prof_handle_failed_login"
  | .invoke name _ => name

/-- Names of the outward calls made between two points of a run, oldest first. -/
def calls_since (s s' : Session) : List String :=
  (s'.trace.drop s.trace.length).map (fun x => x.2.call)

/-- Calls that handling a connection event never makes: an event-loop, connect or
stream-close call of the transport, the reconnect log line, or a release of the connection
while the state is Disconnecting. -/
def foreign_to_handler (x : Globals × Effect) : Bool :=
  match x.2 with
  | .xmpp_run_once _ => true
  | .xmpp_connect_client _ _ => true
  | .xmpp_disconnect => true
  | .log_debug _ _ => true
  | .xmpp_conn_release => x.1.jabber_conn.conn_status == JABBER_DISCONNECTING
  | _ => false

/-- Calls that the wait of `jabber_disconnect` never makes: a second stream-close, or a
release of the connection while the state is Disconnecting. -/
def foreign_to_wait (x : Globals × Effect) : Bool :=
  match x.2 with
  | .xmpp_disconnect => true
  | .xmpp_conn_release => x.1.jabber_conn.conn_status == JABBER_DISCONNECTING
  | _ => false

/-- Whether a call is the log line that announces a reconnection attempt. -/
def announces_reconnect (x : Globals × Effect) : Bool :=
  match x.2 with
  | .log_debug _ _ => true
  | _ => false

/-! ## A concrete history: drop, retry, reconnect -/

/-- Preferences with auto reconnect after 5 seconds. -/
def prefs_reconnect_5 : Prefs :=
  { reconnect := 5, autoping := 0, states := true, priority := 0 }

/-- Preferences with auto reconnect switched off. -/
def prefs_reconnect_off : Prefs :=
  { reconnect := 0, autoping := 0, states := true, priority := 0 }

/-- The session after `jabber_init`. -/
def started : Session := jabber_init false statics

/-- The session after `jabber_init` and a first connection attempt as `me@host` through the
alternate domain `alt.host`. -/
def first_attempt : Session :=
  (jabber_connect 0 (some "me@host") (some "pw") (some "alt.host") started).2

/-- Log in, get connected, lose the connection (the reconnect timer starts at clock 10),
and connect again by hand before the reconnect interval is over. -/
def drop_and_retry : List (Prefs × Op) :=
  [ (prefs_reconnect_5, .connect 0 (some "me@host") (some "pw") none),
    (prefs_reconnect_5,
      .process_events { now := 0, events := [XMPP_CONN_CONNECT], connect_status := 0 }),
    (prefs_reconnect_5,
      .process_events { now := 10, events := [XMPP_CONN_DISCONNECT], connect_status := 0 }),
    (prefs_reconnect_5, .connect 0 (some "me@host") (some "pw") none) ]

/-- The state after `drop_and_retry`: Connecting, with the reconnect timer alive. -/
def retrying : Session := final (run drop_and_retry started)

/-- The user switches auto reconnect off while the retry is under way, and the retry
succeeds. -/
def retry_succeeds : List (Prefs × Op) :=
  drop_and_retry ++
  [ (prefs_reconnect_off,
      .process_events { now := 6000100, events := [XMPP_CONN_CONNECT], connect_status := 0 }) ]

/-- The state after `retry_succeeds`: Connected. -/
def reconnected : Session := final (run retry_succeeds started)

/-- The user switches auto reconnect on again, and the connection drops. -/
def second_drop : List (Prefs × Op) :=
  retry_succeeds ++
  [ (prefs_reconnect_5,
      .process_events { now := 9000000, events := [XMPP_CONN_DISCONNECT], connect_status := 0 }) ]

/-- The state after the first three steps of `drop_and_retry`: Disconnected, credentials kept,
the reconnect timer started at clock 10. -/
def dropped : Session :=
  final (run (drop_and_retry.take 3) started)

/-- A connected session as the first successful login leaves it. -/
def logged_in : Session :=
  final (run (drop_and_retry.take 2) started)

/-! ## GLib and libc string helpers -/

/-- The pieces of a character list between the occurrences of a delimiter. -/
def split_at (d : Char) : List Char → List (List Char)
  | [] => [[]]
  | c :: cs =>
    if c = d then [] :: split_at d cs
    else
      match split_at d cs with
      | t :: ts => (c :: t) :: ts
      | [] => [[c]]

/-- GLib `g_strsplit(string, delimiter, 0)` for a one-character delimiter: every occurrence
of the delimiter separates two tokens (tokens may be empty); the empty string gives the
empty vector. -/
def g_strsplit (s : String) (d : Char) : List String :=
  if s.data = [] then [] else (split_at d s.data).map String.mk

/-- The first call `strtok(str, delim)` of libc for a one-character delimiter: leading
delimiters are skipped; the token runs up to the next delimiter; null when nothing but
delimiters is left. -/
def strtok (s : String) (d : Char) : Option String :=
  match s.data.dropWhile (fun c => c == d) with
  | [] => none
  | c :: cs => some (String.mk ((c :: cs).takeWhile (fun c => !(c == d))))

/-- GLib `g_hash_table_lookup` on a table keyed by strings (one entry per key). -/
def g_hash_table_lookup {α : Type} (t : List (String × α)) (key : String) : Option α :=
  (t.find? (fun e => e.1 == key)).map (fun e => e.2)

/-- GLib `g_hash_table_insert`: the value of an existing key is replaced, a new key is
added. -/
def g_hash_table_insert {α : Type} (t : List (String × α)) (key : String) (value : α) :
    List (String × α) :=
  if t.any (fun e => e.1 == key) then
    t.map (fun e => if e.1 == key then (e.1, value) else e)
  else t ++ [(key, value)]

/-- GLib `g_hash_table_remove`. -/
def g_hash_table_remove {α : Type} (t : List (String × α)) (key : String) :
    List (String × α) :=
  t.filter (fun e => !(e.1 == key))

/-! ## `room_chat.c` -/

/-- The struct `muc_room` of room_chat.c: room jid, our nick, the roster (a `GSList` of
nicks). -/
structure muc_room where
  jid : String
  nick : String
  roster : List String
  deriving DecidableEq

/-- The static `rooms` of room_chat.c: null until the first `room_join`. -/
abbrev room_table := Option (List (String × muc_room))

/-- Embedding of `room_join` (room_chat.c 38-52). -/
def room_join (jid nick : String) (rooms : room_table) : room_table :=
  let table : List (String × muc_room) :=
    match rooms with
    | none => []
    | some t => t
  let new_room : muc_room := { jid := jid, nick := nick, roster := [] }
  some (g_hash_table_insert table jid new_room)

/-- Embedding of `room_leave` (room_chat.c 54-58); GLib ignores the call on a null table. -/
def room_leave (jid : String) (rooms : room_table) : room_table :=
  match rooms with
  | none => none
  | some t => some (g_hash_table_remove t jid)

/-- Embedding of `room_is_active` (room_chat.c 60-77): the lookup key is the first token of
the jid, which is null for the empty jid. -/
def room_is_active (jid : String) (rooms : room_table) : Except Trap Bool :=
  let tokens := g_strsplit jid '/'
  let jid_part := tokens.head?
  match rooms with
  | some t =>
    match jid_part with
    | none => .error (.null_read "g_hash_table_lookup(rooms, tokens[0])")
    | some p =>
      match g_hash_table_lookup t p with
      | some _ => .ok true
      | none => .ok false
  | none => .ok false

/-- Embedding of `room_get_nick_for_room` (room_chat.c 79-93). -/
def room_get_nick_for_room (jid : String) (rooms : room_table) : Option String :=
  match rooms with
  | some t =>
    match g_hash_table_lookup t jid with
    | some room => some room.nick
    | none => none
  | none => none

/-- Embedding of `room_parse_room_jid` (room_chat.c 95-110): false is `none`, true comes
with the two out parameters. -/
def room_parse_room_jid (room_jid : String) : Option (String × String) :=
  let tokens := g_strsplit room_jid '/'
  match tokens with
  | t0 :: t1 :: _ => some (t0, t1)
  | _ => none

/-- Embedding of `room_add_to_roster` (room_chat.c 112-120); GLib answers a lookup in a
null table with null. -/
def room_add_to_roster (jid nick : String) (rooms : room_table) : room_table :=
  match rooms with
  | none => none
  | some t =>
    match g_hash_table_lookup t jid with
    | some room =>
      some (t.map (fun e =>
        if e.1 == jid then (e.1, { room with roster := room.roster ++ [nick] }) else e))
    | none => some t

/-- Embedding of `room_get_roster` (room_chat.c 122-132). -/
def room_get_roster (jid : String) (rooms : room_table) : Option (List String) :=
  match rooms with
  | none => none
  | some t =>
    match g_hash_table_lookup t jid with
    | some room => some room.roster
    | none => none

/-- An operation on the room registry of room_chat.c. -/
inductive RoomOp where
  | join (jid nick : String)
  | leave (jid : String)
  | add_to_roster (jid nick : String)

/-- A sequence of registry operations. -/
def room_run : List RoomOp → room_table → room_table
  | [], rooms => rooms
  | .join jid nick :: rest, rooms => room_run rest (room_join jid nick rooms)
  | .leave jid :: rest, rooms => room_run rest (room_leave jid rooms)
  | .add_to_roster jid nick :: rest, rooms => room_run rest (room_add_to_roster jid nick rooms)

/-! ## libstrophe readers and wire constants (`stanza.h`) -/

/-- libstrophe `xmpp_stanza_get_type`: the attribute `type`. -/
def xmpp_stanza_get_type (st : xmpp_stanza_t) : Option String :=
  xmpp_stanza_get_attribute st "type"

/-- libstrophe `xmpp_stanza_get_text`: the text of a text node; for a tag the concatenation
of its text children, null when that is empty. -/
def xmpp_stanza_get_text : xmpp_stanza_t → Option String
  | .text t => some t
  | .tag _ _ cs =>
    let t := cs.foldl (fun acc c =>
      match c with
      | .text x => acc ++ x
      | .tag _ _ _ => acc) ""
    if t.data = [] then none else some t

/-- Namespace of ping requests, `STANZA_NS_PING` (stanza.h). -/
def STANZA_NS_PING : String := "urn:xmpp:ping"

/-- Namespace of last-activity queries, `STANZA_NS_LASTACTIVITY` (stanza.h). -/
def STANZA_NS_LASTACTIVITY : String := "jabber:iq:last"

/-- Namespace of MUC join presences, `STANZA_NS_MUC` (stanza.h). -/
def STANZA_NS_MUC : String := "http://jabber.org/protocol/muc"

/-- Namespace of roster queries, `XMPP_NS_ROSTER` (strophe.h). -/
def XMPP_NS_ROSTER : String := "jabber:iq:roster"

/-- What `snprintf(buf, size, "%d", v)` leaves in the buffer: the decimal representation of
`v`, cut to `size - 1` characters. -/
def snprintf_d (size : Nat) (v : Int) : String :=
  String.mk ((toString v).data.take (size - 1))

/-- The stanzas handed to `xmpp_send` in a piece of history, oldest first. -/
def sent_stanzas (trace : List (Globals × Effect)) : List xmpp_stanza_t :=
  trace.filterMap (fun x =>
    match x.2 with
    | .xmpp_send st => some st
    | _ => none)

/-- The stanzas sent between two points of a run. -/
def sent_since (s s' : Session) : List xmpp_stanza_t :=
  sent_stanzas (s'.trace.drop s.trace.length)

/-! ## The MUC registry (`muc.c` is not among the available sources) and jid helpers -/

/-- Modelled from the spec: `muc_join_room` of the missing `muc.c`; "registers room as
active with given nick; idempotent re-join overwrites nick". -/
def muc_join_room (room nick : String) (rooms : List MucRoom) : List MucRoom :=
  if rooms.any (fun r => r.room == room) then
    rooms.map (fun r => if r.room == room then { r with nick := nick } else r)
  else
    rooms ++ [{ room := room, nick := nick, roster := [], roster_received := false,
                pending_nick_change := false, roster_pending_nick_changes := [] }]

/-- Modelled from the spec: `muc_room_is_active` of the missing `muc.c`; whether the room
part of a full room jid (the text before its first '/') is in the registry. -/
def muc_room_is_active (full_room_jid : String) (rooms : List MucRoom) : Bool :=
  rooms.any (fun r =>
    r.room == String.mk (full_room_jid.data.takeWhile (fun c => !(c == '/'))))

/-- Modelled from the spec: `muc_get_active_room_list` of the missing `muc.c`; the jids of
the registered rooms. -/
def muc_get_active_room_list (rooms : List MucRoom) : List String :=
  rooms.map (fun r => r.room)

/-- Modelled from the spec: `muc_get_room_nick` of the missing `muc.c`; our nick in a room,
null for an unknown room. -/
def muc_get_room_nick (room : String) (rooms : List MucRoom) : Option String :=
  (rooms.find? (fun r => r.room == room)).map (fun r => r.nick)

/-- Modelled from the spec: `muc_is_room_pending_nick_change` of the missing `muc.c`; the
pending-nick-change flag of a room, false for an unknown room. -/
def muc_is_room_pending_nick_change (room : String) (rooms : List MucRoom) : Bool :=
  match rooms.find? (fun r => r.room == room) with
  | some r => r.pending_nick_change
  | none => false

/-- Modelled from the spec: `create_full_room_jid` of the missing `jid.c`;
"compose(room, nick) -> room/nick"; a null nick composes as the empty nick. -/
def create_full_room_jid (room : String) (nick : Option String) : String :=
  match nick with
  | some n => room ++ "/" ++ n
  | none => room ++ "/"

/-! ## Stanza builders of the missing `stanza.c` -/

/-- Modelled from the spec: `stanza_create_presence` of the missing `stanza.c`; "given an
optional show-value and status text, emits presence". -/
def stanza_create_presence (show_str status : Option String) : xmpp_stanza_t :=
  .tag "presence" []
    ((match show_str with
      | some sh => [xmpp_stanza_t.tag "show" [] [.text sh]]
      | none => []) ++
     (match status with
      | some st => [xmpp_stanza_t.tag "status" [] [.text st]]
      | none => []))

/-- Modelled from the spec: `stanza_create_room_join_presence` of the missing `stanza.c`;
the room/nick full jid "as the to attribute, with required namespace markers for MUC join
semantics". -/
def stanza_create_room_join_presence (full_room_jid : String) : xmpp_stanza_t :=
  .tag "presence" [("to", full_room_jid)] [.tag "x" [("xmlns", STANZA_NS_MUC)] []]

/-- Modelled from the spec: `stanza_create_room_newnick_presence` of the missing
`stanza.c`; a presence with the room/nick full jid "as the to attribute". -/
def stanza_create_room_newnick_presence (full_room_jid : String) : xmpp_stanza_t :=
  .tag "presence" [("to", full_room_jid)] []

/-- Modelled from the spec: `stanza_create_ping_iq` of the missing `stanza.c`; an iq of type
get with a ping child in the ping namespace. -/
def stanza_create_ping_iq : xmpp_stanza_t :=
  .tag "iq" [("type", "get")] [.tag "ping" [("xmlns", STANZA_NS_PING)] []]

/-- Modelled from the spec: `stanza_get_delay` of the missing `stanza.c`; "returns
presence-of-flag plus parsed time, absent when no delay element": the stamp of the delay
child, kept as text. -/
def stanza_get_delay (st : xmpp_stanza_t) : Option String :=
  match xmpp_stanza_get_child_by_name st "delay" with
  | some d => xmpp_stanza_get_attribute d "stamp"
  | none => none

/-- Modelled from the spec: `chat_session_set_recipient_supports` of the missing
`chat_session.c`; records whether the peer supports chat states.  No session is created. -/
def chat_session_set_recipient_supports (sessions : List ChatSession) (recipient : String)
    (recipient_supports : Bool) : List ChatSession :=
  sessions.map (fun c =>
    if c.recipient == recipient then { c with recipient_supports := recipient_supports }
    else c)

/-! ## `jabber.c`: subscriptions, rooms, presence, autoping -/

/-- Subscription actions, `jabber_subscr_t`; `PRESENCE_OTHER` stands for any other value of
the enum type, which `jabber_subscription` treats as an unknown action. -/
inductive jabber_subscr_t where
  | PRESENCE_SUBSCRIBE
  | PRESENCE_SUBSCRIBED
  | PRESENCE_UNSUBSCRIBED
  | PRESENCE_OTHER (v : Int)
  deriving DecidableEq

open jabber_subscr_t

/-- Modelled from the spec: the range macros `JABBER_PRIORITY_MIN` and
`JABBER_PRIORITY_MAX` are used by `jabber.c` but declared in none of the available headers;
the "valid numeric range" of an XMPP priority is -128 to 127. -/
def JABBER_PRIORITY_MIN : Int := -128

/-- Modelled from the spec: see `JABBER_PRIORITY_MIN`. -/
def JABBER_PRIORITY_MAX : Int := 127

/-- Embedding of `jabber_subscription` (jabber.c 278-307).  A null `bare_jid` (a jid with
nothing but '/') is hashed by `g_hash_table_remove` when the table exists, and copied by
`xmpp_stanza_set_attribute`.  The presence is allocated from `jabber_conn.ctx` (300), after
the removal and the choice of the type: in a session without context and connection the
allocation reads through a null pointer. -/
def jabber_subscription (jid : String) (action : jabber_subscr_t) (s : Session) :
    Except Trap Session :=
  let bare_jid := strtok jid '/'
  let removed : Except Trap Session :=
    match s.mem.sub_requests with
    | none => .ok s
    | some reqs =>
      match bare_jid with
      | none => .error (.null_read "g_hash_table_remove(sub_requests, bare_jid)")
      | some b =>
        .ok { s with mem := { s.mem with
          sub_requests := some (reqs.filter (fun r => !(r == b))) } }
  match removed with
  | .error t => .error t
  | .ok s =>
    let type : Option String :=
      match action with
      | PRESENCE_SUBSCRIBE => some "subscribe"
      | PRESENCE_SUBSCRIBED => some "subscribed"
      | PRESENCE_UNSUBSCRIBED => some "unsubscribed"
      | PRESENCE_OTHER _ => none
    match type with
    | none => .ok s
    | some ty =>
      match s.mem.jabber_conn.conn with
      | none => .error (.null_read "xmpp_stanza_new(jabber_conn.ctx)")
      | some _ =>
        match bare_jid with
        | none => .error (.null_read "xmpp_stanza_set_attribute(presence, to, bare_jid)")
        | some b =>
          let presence : xmpp_stanza_t := .tag "presence" [] []
          let presence := xmpp_stanza_set_attribute presence "type" ty
          let presence := xmpp_stanza_set_attribute presence "to" b
          .ok (emit (.xmpp_send presence) s)

/-- Embedding of `jabber_get_subscription_requests` (jabber.c 309-313). -/
def jabber_get_subscription_requests (s : Session) : List String :=
  match s.mem.sub_requests with
  | some reqs => reqs
  | none => []

/-- Embedding of `jabber_join` (jabber.c 315-327).  The presence is built from
`jabber_conn.ctx` (319) and sent on `jabber_conn.conn` (321): in a session without context
and connection the builder reads through a null pointer. -/
def jabber_join (room nick : String) (s : Session) : Except Trap Session :=
  let full_room_jid := create_full_room_jid room (some nick)
  match s.mem.jabber_conn.conn with
  | none => .error (.null_read "stanza_create_room_join_presence(jabber_conn.ctx, ..)")
  | some _ =>
    let presence := stanza_create_room_join_presence full_room_jid
    let s := emit (.xmpp_send presence) s
    .ok { s with mem := { s.mem with muc_rooms := muc_join_room room nick s.mem.muc_rooms } }

/-- Embedding of `jabber_change_room_nick` (jabber.c 329-339).  The presence is built from
`jabber_conn.ctx` (333) and sent on `jabber_conn.conn` (335): in a session without context
and connection the builder reads through a null pointer. -/
def jabber_change_room_nick (room nick : String) (s : Session) : Except Trap Session :=
  let full_room_jid := create_full_room_jid room (some nick)
  match s.mem.jabber_conn.conn with
  | none => .error (.null_read "stanza_create_room_newnick_presence(jabber_conn.ctx, ..)")
  | some _ =>
    let presence := stanza_create_room_newnick_presence full_room_jid
    .ok (emit (.xmpp_send presence) s)

/-- Embedding of `jabber_update_presence` (jabber.c 352-437). -/
def jabber_update_presence (prefs : Prefs) (status : jabber_presence_t)
    (msg : Option String) (idle : Int) (s : Session) : Session :=
  if s.mem.jabber_conn.conn_status ≠ JABBER_CONNECTED then s
  else
    let pri := prefs.priority
    let pri := if pri < JABBER_PRIORITY_MIN ∨ pri > JABBER_PRIORITY_MAX then 0 else pri
    let s : Session := { s with mem := { s.mem with jabber_conn := { s.mem.jabber_conn with
      presence := status, priority := pri } } }
    let show_str : Option String :=
      match status with
      | PRESENCE_AWAY => some "away"
      | PRESENCE_DND => some "dnd"
      | PRESENCE_CHAT => some "chat"
      | PRESENCE_XA => some "xa"
      | _ => none
    let s : Session := { s with mem := { s.mem with jabber_conn := { s.mem.jabber_conn with
      status := msg } } }
    let presence := stanza_create_presence show_str msg
    let presence :=
      if pri ≠ 0 then
        let pri_str := snprintf_d 10 pri
        let value : xmpp_stanza_t := .text pri_str
        let priority := xmpp_stanza_add_child (.tag "priority" [] []) value
        xmpp_stanza_add_child presence priority
      else presence
    let presence :=
      if idle > 0 then
        let query : xmpp_stanza_t := .tag "query" [] []
        let query := xmpp_stanza_set_attribute query "xmlns" STANZA_NS_LASTACTIVITY
        let idle_str := snprintf_d 10 idle
        let query := xmpp_stanza_set_attribute query "seconds" idle_str
        xmpp_stanza_add_child presence query
      else presence
    let s := emit (.xmpp_send presence) s
    let rooms := muc_get_active_room_list s.mem.muc_rooms
    (rooms.foldl (fun (acc : xmpp_stanza_t × Session) room =>
      let nick := muc_get_room_nick room acc.2.mem.muc_rooms
      let full_room_jid := create_full_room_jid room nick
      let presence := xmpp_stanza_set_attribute acc.1 "to" full_room_jid
      (presence, emit (.xmpp_send presence) acc.2)) (presence, s)).2

/-- Embedding of `jabber_set_autoping` (jabber.c 439-451).  `int millis = seconds * 1000`
(446) is an `int` product, handed to the parameter `unsigned long period` of
`xmpp_timed_handler_add`. -/
def jabber_set_autoping (seconds : Int) (s : Session) : Session :=
  if s.mem.jabber_conn.conn_status = JABBER_CONNECTED then
    let s := emit .xmpp_timed_handler_delete s
    if seconds ≠ 0 then
      let millis := int_mul seconds 1000
      emit (.xmpp_timed_handler_add (unsigned_long millis)) s
    else s
  else s

/-- Embedding of `jabber_get_priority` (jabber.c 465-469). -/
def jabber_get_priority (s : Session) : Int :=
  s.mem.jabber_conn.priority

/-- Embedding of `_ping_timed_handler` (jabber.c 924-936). -/
def _ping_timed_handler (s : Session) : Int × Session :=
  if s.mem.jabber_conn.conn_status = JABBER_CONNECTED then
    (1, emit (.xmpp_send stanza_create_ping_iq) s)
  else (1, s)

/-- The periods (in ms) of the ping timed handlers registered on the current connection,
read off the history: `xmpp_conn_new` starts a connection without handlers,
`xmpp_timed_handler_delete` removes the ping handler, `xmpp_timed_handler_add` registers
it. -/
def timed_handlers (trace : List (Globals × Effect)) : List Nat :=
  trace.foldl (fun acc x =>
    match x.2 with
    | .xmpp_conn_new => []
    | .xmpp_timed_handler_delete => []
    | .xmpp_timed_handler_add period => acc ++ [period]
    | _ => acc) []

/-- The presence stanza `jabber_update_presence` builds (jabber.c 370-418) from the clamped
priority, the presence value, the status message and the idle time, before it is addressed
to any room. -/
def outgoing_presence (pri : Int) (status : jabber_presence_t) (msg : Option String)
    (idle : Int) : xmpp_stanza_t :=
  let show_str : Option String :=
    match status with
    | PRESENCE_AWAY => some "away"
    | PRESENCE_DND => some "dnd"
    | PRESENCE_CHAT => some "chat"
    | PRESENCE_XA => some "xa"
    | _ => none
  let presence := stanza_create_presence show_str msg
  let presence :=
    if pri ≠ 0 then
      xmpp_stanza_add_child presence (.tag "priority" [] [.text (snprintf_d 10 pri)])
    else presence
  if idle > 0 then
    xmpp_stanza_add_child presence
      (.tag "query" [("xmlns", STANZA_NS_LASTACTIVITY), ("seconds", snprintf_d 10 idle)] [])
  else presence

/-- The session `logged_in` after joining the room `room@conf` as `me`. -/
def in_room : Session :=
  match jabber_join "room@conf" "me" logged_in with
  | .ok s => s
  | .error _ => logged_in

/-- The connected session `logged_in` with two pending subscription requests. -/
def with_requests : Session :=
  { logged_in with mem := { logged_in.mem with sub_requests := some ["bob@host", "you@host"] } }

/-- The connected session `with_requests` after a message to `bob@host` sent with chat
states enabled, which opens a chat session with him. -/
def in_conversation : Session :=
  match jabber_send prefs_reconnect_5 "hello" "bob@host" with_requests with
  | .ok s => s
  | .error _ => with_requests

/-- The session `in_conversation` after `jabber_disconnect`, the transport confirming the
close in the second round of the wait. -/
def disconnected_after_conversation : Session :=
  final (jabber_disconnect prefs_reconnect_5
    [{ now := 40, events := [], connect_status := 0 },
     { now := 50, events := [XMPP_CONN_DISCONNECT], connect_status := 0 }] in_conversation)

/-- The priority `jabber_update_presence` settles on (jabber.c 363-365): the preference when
it lies in the valid range, 0 otherwise. -/
def clamped_priority (prefs : Prefs) : Int :=
  if prefs.priority < JABBER_PRIORITY_MIN ∨ prefs.priority > JABBER_PRIORITY_MAX then 0
  else prefs.priority

/-! ## `jabber.c`: stanza handlers

A handler hands back its return value and the session, or stops at a read through a null
pointer.  Calls into the contact list and the notifications `prof_handle_*` are recorded
with `Effect.invoke`; the warning `_roster_handler` logs when `contact_list_add` reports a
duplicate depends on the state of the contact list and is not recorded. -/

/-- The text TRUE or FALSE for a `gboolean` argument of a recorded call. -/
def gboolean_text (b : Bool) : Option String :=
  if b then some "TRUE" else some "FALSE"

/-- Embedding of `_error_handler` (jabber.c 602-639).  The `text` child is looked up in
`error_stanza` (lines 608-609) before `error_stanza` is compared with null (line 611). -/
def _error_handler (stanza : xmpp_stanza_t) (s : Session) : Except Trap (Int × Session) :=
  let from_attr := xmpp_stanza_get_attribute stanza "from"
  let error_stanza := xmpp_stanza_get_child_by_name stanza "error"
  match error_stanza with
  | none => .error (.null_read "xmpp_stanza_get_child_by_name(error_stanza, text)")
  | some es =>
    let text_stanza := xmpp_stanza_get_child_by_name es "text"
    match text_stanza with
    | some ts =>
      let err_msg := xmpp_stanza_get_text ts
      .ok (1, emit (.invoke "prof_handle_error_message" [from_attr, err_msg]) s)
    | none =>
      let err_cond := (xmpp_stanza_children es).head?
      match err_cond with
      | none =>
        .ok (1, emit (.log_debug
          "error message without <defined-condition/> or <text/> received" none) s)
      | some ec =>
        let err_msg := xmpp_stanza_get_name ec
        .ok (1, emit (.invoke "prof_handle_error_message" [from_attr, err_msg]) s)

/-- Embedding of `_chat_message_handler` (jabber.c 641-710).  `strlen(from)` reads the from
attribute without a check; a from attribute with nothing but '/' leaves `short_from` null,
which `strdup` then reads. -/
def _chat_message_handler (prefs : Prefs) (stanza : xmpp_stanza_t) (s : Session) :
    Except Trap (Int × Session) :=
  match xmpp_stanza_get_attribute stanza "from" with
  | none => .error (.null_read "strlen(from)")
  | some from_attr =>
    match strtok from_attr '/' with
    | none => .error (.null_read "strdup(short_from)")
    | some short_from =>
      let priv := muc_room_is_active short_from s.mem.muc_rooms
      let jid := if priv then from_attr else short_from
      let recipient_supports := stanza_contains_chat_state stanza
      let s : Session :=
        if !chat_session_exists s.mem.chat_sessions jid then
          { s with mem := { s.mem with
              chat_sessions := chat_session_start s.mem.chat_sessions jid recipient_supports } }
        else
          { s with mem := { s.mem with
              chat_sessions := chat_session_set_recipient_supports s.mem.chat_sessions jid
                recipient_supports } }
      let tv_stamp := stanza_get_delay stanza
      let delayed := tv_stamp.isSome
      let s : Session :=
        if recipient_supports && !delayed then
          if (xmpp_stanza_get_child_by_name stanza "composing").isSome then
            if prefs.notify_typing || prefs.intype then
              emit (.invoke "prof_handle_typing" [some jid]) s
            else s
          else if (xmpp_stanza_get_child_by_name stanza "gone").isSome then
            emit (.invoke "prof_handle_gone" [some jid]) s
          else s
        else s
      match xmpp_stanza_get_child_by_name stanza "body" with
      | some body =>
        let message := xmpp_stanza_get_text body
        if delayed then
          .ok (1, emit (.invoke "prof_handle_delayed_message"
            [some jid, message, tv_stamp, gboolean_text priv]) s)
        else
          .ok (1, emit (.invoke "prof_handle_incoming_message"
            [some jid, message, gboolean_text priv]) s)
      | none => .ok (1, s)

/-- Embedding of `_roster_handler` (jabber.c 880-922).  `strcmp(type, _)` reads the type
attribute without a check, and `xmpp_stanza_get_children(query)` the query child. -/
def _roster_handler (prefs : Prefs) (stanza : xmpp_stanza_t) (s : Session) :
    Except Trap (Int × Session) :=
  match xmpp_stanza_get_type stanza with
  | none => .error (.null_read "strcmp(type, STANZA_TYPE_ERROR)")
  | some type =>
    if type = "error" then
      .ok (1, emit (.invoke "log_error" [some "Roster query failed"]) s)
    else
      match xmpp_stanza_get_child_by_name stanza "query" with
      | none => .error (.null_read "xmpp_stanza_get_children(query)")
      | some query =>
        let s := (xmpp_stanza_children query).foldl (fun s item =>
          let jid := xmpp_stanza_get_attribute item "jid"
          let name := xmpp_stanza_get_attribute item "name"
          let sub := xmpp_stanza_get_attribute item "subscription"
          let ask := xmpp_stanza_get_attribute item "ask"
          let pending_out := ask == some "subscribe"
          emit (.invoke "contact_list_add"
            [jid, name, some "offline", none, sub, gboolean_text pending_out]) s) s
        .ok (1, jabber_update_presence prefs PRESENCE_ONLINE none 0 s)

/-- Embedding of `_iq_handler` (jabber.c 782-878). -/
def _iq_handler (prefs : Prefs) (stanza : xmpp_stanza_t) (s : Session) :
    Except Trap (Int × Session) :=
  let id := xmpp_stanza_get_attribute stanza "id"
  if id = some "roster" then _roster_handler prefs stanza s
  else
    match xmpp_stanza_get_attribute stanza "type" with
    | none => .ok (1, s)
    | some type =>
      if type = "set" then
        match xmpp_stanza_get_child_by_name stanza "query" with
        | none => .ok (1, s)
        | some query =>
          match xmpp_stanza_get_attribute query "xmlns" with
          | none => .ok (1, s)
          | some xmlns =>
            if xmlns ≠ XMPP_NS_ROSTER then .ok (1, s)
            else
              match xmpp_stanza_get_child_by_name query "item" with
              | none => .ok (1, s)
              | some item =>
                let jid := xmpp_stanza_get_attribute item "jid"
                let sub := xmpp_stanza_get_attribute item "subscription"
                if sub = some "remove" then
                  .ok (1, emit (.invoke "contact_list_remove" [jid]) s)
                else
                  let ask := xmpp_stanza_get_attribute item "ask"
                  let pending_out := ask == some "subscribe"
                  .ok (1, emit (.invoke "contact_list_update_subscription"
                    [jid, sub, gboolean_text pending_out]) s)
      else if type = "get" then
        match xmpp_stanza_get_child_by_name stanza "ping" with
        | none => .ok (1, s)
        | some ping =>
          match xmpp_stanza_get_attribute ping "xmlns" with
          | none => .ok (1, s)
          | some xmlns =>
            if xmlns ≠ STANZA_NS_PING then .ok (1, s)
            else
              let to_attr := xmpp_stanza_get_attribute stanza "to"
              let from_attr := xmpp_stanza_get_attribute stanza "from"
              match from_attr, to_attr with
              | some f, some t =>
                let pong : xmpp_stanza_t := .tag "iq" [] []
                let pong := xmpp_stanza_set_attribute pong "to" f
                let pong := xmpp_stanza_set_attribute pong "from" t
                let pong := xmpp_stanza_set_attribute pong "type" "result"
                let pong :=
                  match id with
                  | some i => xmpp_stanza_set_attribute pong "id" i
                  | none => pong
                .ok (1, emit (.xmpp_send pong) s)
              | _, _ => .ok (1, s)
      else .ok (1, s)

/-- A server ping as RFC-style request: type get, id `s2c1`, a ping child in the ping
namespace, with from and to. -/
def ping_request : xmpp_stanza_t :=
  .tag "iq" [("from", "host"), ("to", "me@host/res"), ("id", "s2c1"), ("type", "get")]
    [.tag "ping" [("xmlns", "urn:xmpp:ping")] []]

/-- The same ping request without its to attribute. -/
def ping_request_without_to : xmpp_stanza_t :=
  .tag "iq" [("from", "host"), ("id", "s2c1"), ("type", "get")]
    [.tag "ping" [("xmlns", "urn:xmpp:ping")] []]

/-! ## `common.c`

C strings are `String`, a nullable `char *` is `Option String`; the pointer arithmetic of
`str_replace` is arithmetic on offsets into the character list.  `malloc` succeeds. -/

/-- libc `strstr(haystack, needle)`: the offset of the first occurrence of the needle in
the haystack, null when there is none; the empty needle occurs at offset 0. -/
def strstr : List Char → List Char → Option Nat
  | [], needle => if needle.isPrefixOf [] then some 0 else none
  | c :: cs, needle =>
    if needle.isPrefixOf (c :: cs) then some 0
    else (strstr cs needle).map (fun off => off + 1)

/-- The `while` loop of `str_replace` (common.c 75-96) on the variables `newstr` and `head`
(an offset into `newstr`); the three `memcpy` calls build the new string from the part of
the old one before `tok`, the replacement, and the part after the occurrence.  The first
argument bounds the number of iterations: `none` is a loop that has not ended within the
bound. -/
def str_replace_loop (substr replacement : List Char) :
    Nat → List Char → Nat → Option (List Char)
  | 0, _, _ => none
  | fuel + 1, newstr, head =>
    match strstr (newstr.drop head) substr with
    | none => some newstr
    | some off =>
      let tok := head + off
      let oldstr := newstr
      let newstr :=
        oldstr.take tok ++ replacement ++
          (oldstr.drop (tok + substr.length)).take (oldstr.length - substr.length - tok)
      str_replace_loop substr replacement fuel newstr (tok + replacement.length)

/-- Embedding of `str_replace` (common.c 56-99).  Every iteration moves `head` past one
occurrence in what is left of the input, so the loop is given one iteration more than the
string has characters. -/
def str_replace (string substr replacement : Option String) : Option String :=
  match string with
  | none => none
  | some str =>
    match substr, replacement with
    | some sub, some rep =>
      if sub = "" then some str
      else (str_replace_loop sub.data rep.data (str.length + 1) str.data 0).map String.mk
    | _, _ => some str

/-- Embedding of `encode_xml` (common.c 113-124). -/
def encode_xml (xml : Option String) : Option String :=
  let coded_msg := str_replace xml (some "&") (some "&amp;")
  let coded_msg2 := str_replace coded_msg (some "<") (some "&lt;")
  let coded_msg3 := str_replace coded_msg2 (some ">") (some "&gt;")
  coded_msg3

/-- The claim's words for `str_replace`: scanning left to right, an occurrence of `sub` is
replaced by `rep` and the scan goes on after the occurrence (inserted text is not scanned);
any other character is kept.  The counter is the number of characters of the current
occurrence that are still to be passed over. -/
def replace_occurrences (sub rep : List Char) : Nat → List Char → List Char
  | _, [] => []
  | skip + 1, _ :: cs => replace_occurrences sub rep skip cs
  | 0, c :: cs =>
    if sub.isPrefixOf (c :: cs) then rep ++ replace_occurrences sub rep (sub.length - 1) cs
    else c :: replace_occurrences sub rep 0 cs

/-- The number of occurrences that `replace_occurrences` replaces. -/
def count_occurrences (sub : List Char) : Nat → List Char → Nat
  | _, [] => 0
  | skip + 1, _ :: cs => count_occurrences sub skip cs
  | 0, c :: cs =>
    if sub.isPrefixOf (c :: cs) then 1 + count_occurrences sub (sub.length - 1) cs
    else count_occurrences sub 0 cs

/-- The entity `encode_xml` puts for a character. -/
def xml_entity (c : Char) : List Char :=
  if c = '&' then "&amp;".data
  else if c = '<' then "&lt;".data
  else if c = '>' then "&gt;".data
  else [c]

/-- Character by character encoding. -/
def encode_chars : List Char → List Char
  | [] => []
  | c :: cs => xml_entity c ++ encode_chars cs

/-- The claim's words for decoding: scanning left to right, the entities `&amp;`, `&lt;`
and `&gt;` are replaced by the characters they stand for.  The counter is the number of
characters of the current entity that are still to be passed over. -/
def decode_entities : Nat → List Char → List Char
  | _, [] => []
  | skip + 1, _ :: cs => decode_entities skip cs
  | 0, c :: cs =>
    if "&amp;".data.isPrefixOf (c :: cs) then '&' :: decode_entities 4 cs
    else if "&lt;".data.isPrefixOf (c :: cs) then '<' :: decode_entities 3 cs
    else if "&gt;".data.isPrefixOf (c :: cs) then '>' :: decode_entities 3 cs
    else c :: decode_entities 0 cs

/-! ## The contact list (`contact_list.c` and `contact.c` are not among the available
sources; `src/tests/test_contact_list.c` calls them)

The module keeps one list and the state of the running prefix search; both are passed
explicitly. -/

/-- Modelled from the spec: a contact of the missing `contact.c`, "bare JID (unique key),
display name, presence show-value, status text, subscription state, pending-outbound-
subscription flag". -/
structure PContact where
  jid : String
  name : Option String
  presence : Option String
  status : Option String
  subscription : Option String
  pending_out : Bool
  deriving DecidableEq

/-- Modelled from the spec: `p_contact_new` of the missing `contact.c`; a null or empty
show-value is stored as `online` (tests `test_show_online_when_no_value`,
`test_show_online_when_empty_string`), a null status stays null. -/
def p_contact_new (jid : String) (name presence status subscription : Option String)
    (pending_out : Bool) : PContact :=
  { jid := jid
    name := name
    presence := if presence = none ∨ presence = some "" then some "online" else presence
    status := status
    subscription := subscription
    pending_out := pending_out }

/-- Modelled from the spec: the statics of the missing `contact_list.c`: the list, and for
`find_prefix` the "position counter across calls" with the root prefix of the running
search ("first call in a search chain defines the root prefix"). -/
structure ContactList where
  items : List PContact
  search_str : Option String
  last_found : Option Nat
  deriving DecidableEq

/-- Modelled from the spec: `contact_list_init` of the missing `contact_list.c`; an empty
list, no search running. -/
def contact_list_init : ContactList :=
  { items := [], search_str := none, last_found := none }

/-- Modelled from the spec: `contact_list_clear` of the missing `contact_list.c`. -/
def contact_list_clear (_cl : ContactList) : ContactList :=
  { items := [], search_str := none, last_found := none }

/-- Modelled from the spec: `contact_list_reset_search_attempts` of the missing
`contact_list.c`; "reset_search() restarts the cycle at the first match". -/
def contact_list_reset_search_attempts (cl : ContactList) : ContactList :=
  { cl with search_str := none, last_found := none }

/-- Modelled from the spec: the order of the list, "case-sensitive ordinal": the first
place in which two texts differ decides, by the code of the character; a text comes after
its proper prefixes. -/
def ordinal_lt : List Char → List Char → Bool
  | [], [] => false
  | [], _ :: _ => true
  | _ :: _, [] => false
  | a :: as, b :: bs =>
    if a.toNat < b.toNat then true
    else if b.toNat < a.toNat then false
    else ordinal_lt as bs

/-- Modelled from the spec: whether the jid `a` comes before the jid `b` in the list. -/
def jid_before (a b : String) : Bool :=
  ordinal_lt a.data b.data

/-- Modelled from the spec: the place of a new contact, "list is maintained in
ascending-sorted insertion order (sorted-insert, not append)": in front of the first
contact whose jid comes after the new one, at the end when there is none. -/
def sorted_insert (c : PContact) : List PContact → List PContact
  | [] => [c]
  | d :: ds => if jid_before c.jid d.jid then c :: d :: ds else d :: sorted_insert c ds

/-- Modelled from the spec: `contact_list_add` of the missing `contact_list.c`; "fails
(returns false, no mutation) if jid already present", and otherwise puts the new contact
at its place in the ascending order of the jids ("sorted-insert, not append"). -/
def contact_list_add (jid : String) (name presence status subscription : Option String)
    (pending_out : Bool) (cl : ContactList) : Bool × ContactList :=
  if cl.items.any (fun c => c.jid == jid) then (false, cl)
  else
    let contact := p_contact_new jid name presence status subscription pending_out
    (true, { cl with items := sorted_insert contact cl.items })

/-- Modelled from the spec: `get_contact_list` of the missing `contact_list.c`. -/
def get_contact_list (cl : ContactList) : List PContact :=
  cl.items

/-- Modelled from the spec: `p_contact_jid` of the missing `contact.c`. -/
def p_contact_jid (c : PContact) : String :=
  c.jid

/-- Modelled from the spec: the scan of `find_prefix` through a piece of the list; the
offset and the jid of the first contact whose jid starts with the root prefix (the match is
case-sensitive). -/
def search_from (root : String) : List PContact → Option (Nat × String)
  | [] => none
  | c :: cs =>
    if root.data.isPrefixOf c.jid.data then some (0, c.jid)
    else (search_from root cs).map (fun r => (r.1 + 1, r.2))

/-- Modelled from the spec: `contact_list_find_contact` of the missing `contact_list.c`;
"next matching jid, cyclically: maintains a position counter across calls with the same
effective search root (first call in a search chain defines the root prefix; subsequent
calls chain from the previous result)".  With no search running the argument becomes the
root and the scan starts at the head of the list; otherwise the scan goes on behind the
last match and wraps around to the head. -/
def contact_list_find_contact (search_str : String) (cl : ContactList) :
    Option String × ContactList :=
  match cl.last_found, cl.search_str with
  | some pos, some root =>
    match search_from root (cl.items.drop (pos + 1)) with
    | some (off, jid) => (some jid, { cl with last_found := some (pos + 1 + off) })
    | none =>
      match search_from root cl.items with
      | some (off, jid) => (some jid, { cl with last_found := some off })
      | none => (none, contact_list_reset_search_attempts cl)
  | _, _ =>
    match search_from search_str cl.items with
    | some (off, jid) =>
      (some jid, { cl with search_str := some search_str, last_found := some off })
    | none => (none, contact_list_reset_search_attempts cl)

/-- The adds of a test: each jid added with null name, show, status and subscription. -/
def add_all (jids : List String) (cl : ContactList) : ContactList :=
  jids.foldl (fun cl jid => (contact_list_add jid none none none none false cl).2) cl

/-- A sequence of `contact_list_add` calls, each given by its six arguments (jid, name, show,
status, subscription, pending-out flag). -/
def add_calls (calls : List (String × Option String × Option String × Option String ×
    Option String × Bool)) (cl : ContactList) : ContactList :=
  calls.foldl (fun cl a =>
    (contact_list_add a.1 a.2.1 a.2.2.1 a.2.2.2.1 a.2.2.2.2.1 a.2.2.2.2.2 cl).2) cl

/-- A chain of searches as the tests make them (`find_twice_returns_second_when_two_match`,
`find_five_times_finds_fifth`): every call is fed the result of the call before; the chain
stops at a null result. -/
def search_chain : Nat → String → ContactList → List String
  | 0, _, _ => []
  | n + 1, arg, cl =>
    match contact_list_find_contact arg cl with
    | (some found, cl') => found :: search_chain n found cl'
    | (none, _) => []

/-- The jids of the contacts whose jid starts with a prefix, in list order. -/
def matching (root : String) (items : List PContact) : List String :=
  (items.filter (fun c => root.data.isPrefixOf c.jid.data)).map (fun c => c.jid)

/-! ## The command parser (`parser.c` is not among the available sources;
`src/tests/test_parser.c` calls it) -/

/-- Modelled from the spec: the scan of the missing `parser.c` that cuts a command line
into its whitespace-separated tokens; the second argument is the token being read, if
any. -/
def scan_tokens : List Char → Option (List Char) → List (List Char)
  | [], none => []
  | [], some t => [t]
  | c :: cs, none =>
    if c.isWhitespace then scan_tokens cs none else scan_tokens cs (some [c])
  | c :: cs, some t =>
    if c.isWhitespace then t :: scan_tokens cs none else scan_tokens cs (some (t ++ [c]))

/-- Modelled from the spec: `parse_args` of the missing `parser.c`; "empty or
whitespace-only input returns absent; `/cmd arg1 arg2` with min=1,max=2 returns exactly
[arg1, arg2]; fewer than min or more than max arguments returns absent".  Null is `none`;
the first token is the command word. -/
def parse_args (inp : Option String) (min max : Int) : Option (List String) :=
  match inp with
  | none => none
  | some s =>
    match scan_tokens s.data none with
    | [] => none
    | _ :: args =>
      let num : Int := args.length
      if min ≤ num ∧ num ≤ max then some (args.map String.mk) else none

/-- A character list without its trailing whitespace. -/
def strip_trailing (l : List Char) : List Char :=
  (l.reverse.dropWhile Char.isWhitespace).reverse

/-- Modelled from the spec: the scan of the free-text variant; token number `limit` (the
command word is number 1) runs to the end of the input, its inner whitespace kept, the
trailing whitespace of the input dropped.  The first counter is the number of tokens begun
so far. -/
def scan_tokens_freetext (limit : Nat) :
    Nat → List Char → Option (List Char) → List (List Char)
  | _, [], none => []
  | _, [], some t => [t]
  | n, c :: cs, none =>
    if c.isWhitespace then scan_tokens_freetext limit n cs none
    else if n + 1 = limit then [strip_trailing (c :: cs)]
    else scan_tokens_freetext limit (n + 1) cs (some [c])
  | n, c :: cs, some t =>
    if c.isWhitespace then t :: scan_tokens_freetext limit n cs none
    else scan_tokens_freetext limit n cs (some (t ++ [c]))

/-- Modelled from the spec: `parse_args_with_freetext` of the missing `parser.c`;
"free-text variant concatenates trailing tokens beyond the fixed-argument count into one
final string".  The max-th argument is the free text; with max below 1 there is no argument
to hold it and the line is cut as `parse_args` cuts it. -/
def parse_args_with_freetext (inp : Option String) (min max : Int) : Option (List String) :=
  match inp with
  | none => none
  | some s =>
    let tokens :=
      if 1 ≤ max then scan_tokens_freetext (max.toNat + 1) 0 s.data none
      else scan_tokens s.data none
    match tokens with
    | [] => none
    | _ :: args =>
      let num : Int := args.length
      if min ≤ num ∧ num ≤ max then some (args.map String.mk) else none

/-- A command line put together: leading whitespace, then the words, each followed by the
whitespace behind it. -/
def command_line (lead : List Char) (words : List (List Char × List Char)) : List Char :=
  lead ++ (words.map (fun w => w.1 ++ w.2)).flatten

/-! ## Inbound presence and groupchat messages

The jid helpers (`jid.c`), the stanza readers (`stanza.c`) and the rest of the MUC registry
(`muc.c`) that these handlers call are not among the available sources. -/

/-- Namespace of MUC user extensions, `STANZA_NS_MUC_USER` (stanza.h). -/
def STANZA_NS_MUC_USER : String := "http://jabber.org/protocol/muc#user"

/-- Modelled from the spec: `jid_is_room` of the missing `jid.c`; a jid names the room
itself (the sender of a "room-wide broadcast") when it has no nick part, that is no '/'. -/
def jid_is_room (room_jid : String) : Bool :=
  !(room_jid.data.contains '/')

/-- Modelled from the spec: `get_room_from_full_jid` of the missing `jid.c`;
"bare(jid): truncates at first /". -/
def get_room_from_full_jid (full_room_jid : String) : String :=
  String.mk (full_room_jid.data.takeWhile (fun c => !(c == '/')))

/-- Modelled from the spec: `parse_room_jid` of the missing `jid.c`; "splits on first /;
fails if no / present".  False is `none`, true comes with the two out parameters. -/
def parse_room_jid (full_room_jid : String) : Option (String × String) :=
  if full_room_jid.data.contains '/' then
    some (String.mk (full_room_jid.data.takeWhile (fun c => !(c == '/'))),
      String.mk ((full_room_jid.data.dropWhile (fun c => !(c == '/'))).drop 1))
  else none

/-- Modelled from the spec: `stanza_is_muc_self_presence` of the missing `stanza.c`;
"detect MUC self-presence (compare from against own full JID)". -/
def stanza_is_muc_self_presence (stanza : xmpp_stanza_t) (self_jid : Option String) : Bool :=
  match xmpp_stanza_get_attribute stanza "from", self_jid with
  | some f, some j => f == j
  | _, _ => false

/-- Modelled from the spec: `stanza_is_room_nick_change` of the missing `stanza.c`;
"nick-change markers (inspect MUC-user namespace status codes / item tags)": the `x` child
in the MUC-user namespace carries a status with code 303. -/
def stanza_is_room_nick_change (stanza : xmpp_stanza_t) : Bool :=
  match xmpp_stanza_get_child_by_name stanza "x" with
  | some x =>
    xmpp_stanza_get_attribute x "xmlns" == some STANZA_NS_MUC_USER &&
      (xmpp_stanza_children x).any (fun c =>
        xmpp_stanza_get_name c == some "status" &&
          xmpp_stanza_get_attribute c "code" == some "303")
  | none => false

/-- Modelled from the spec: `stanza_get_new_nick` of the missing `stanza.c`; the nick
attribute of the item tag of the MUC-user `x` child, null when there is none. -/
def stanza_get_new_nick (stanza : xmpp_stanza_t) : Option String :=
  match xmpp_stanza_get_child_by_name stanza "x" with
  | some x =>
    match xmpp_stanza_get_child_by_name x "item" with
    | some item => xmpp_stanza_get_attribute item "nick"
    | none => none
  | none => none

/-- Modelled from the spec: `stanza_get_idle_time` of the missing `stanza.c`; "extract
idle-seconds from last-activity queries": the seconds attribute of a query child in the
last-activity namespace, 0 when there is none. -/
def stanza_get_idle_time (stanza : xmpp_stanza_t) : Int :=
  match xmpp_stanza_get_child_by_name stanza "query" with
  | some query =>
    if xmpp_stanza_get_attribute query "xmlns" = some STANZA_NS_LASTACTIVITY then
      match xmpp_stanza_get_attribute query "seconds" with
      | some seconds => seconds.toInt?.getD 0
      | none => 0
    else 0
  | none => 0

/-- Modelled from the spec: `muc_get_roster_received` of the missing `muc.c`; the "roster
received flag" of a room, false for an unknown room. -/
def muc_get_roster_received (room : String) (rooms : List MucRoom) : Bool :=
  match rooms.find? (fun r => r.room == room) with
  | some r => r.roster_received
  | none => false

/-- Modelled from the spec: `muc_nick_in_roster` of the missing `muc.c`; the
"set-membership test" on the roster of a room, false for an unknown room. -/
def muc_nick_in_roster (room nick : String) (rooms : List MucRoom) : Bool :=
  match rooms.find? (fun r => r.room == room) with
  | some r => r.roster.any (fun e => e.1 == nick)
  | none => false

/-- Modelled from the spec: `muc_add_to_roster` of the missing `muc.c`; the roster is a
"mapping of nick to (show, status)" in which a "nick is unique": a new nick is added, a
known nick gets the new show and status.  A null or empty show is stored as `online`, as
for a contact.  An unknown room is left alone. -/
def muc_add_to_roster (room nick : String) (show_str status : Option String)
    (rooms : List MucRoom) : List MucRoom :=
  let shown : String :=
    match show_str with
    | some sh => if sh = "" then "online" else sh
    | none => "online"
  rooms.map (fun r =>
    if r.room == room then
      { r with roster := g_hash_table_insert r.roster nick (shown, status) }
    else r)

/-- Modelled from the spec: `muc_set_room_pending_nick_change` of the missing `muc.c`;
"mark room pending-nick-change". -/
def muc_set_room_pending_nick_change (room : String) (rooms : List MucRoom) : List MucRoom :=
  rooms.map (fun r => if r.room == room then { r with pending_nick_change := true } else r)

/-- Modelled from the spec: `muc_complete_room_nick_change` of the missing `muc.c`;
"atomically replace the room's nick and clear pending flag". -/
def muc_complete_room_nick_change (room nick : String) (rooms : List MucRoom) :
    List MucRoom :=
  rooms.map (fun r =>
    if r.room == room then { r with nick := nick, pending_nick_change := false } else r)

/-- Modelled from the spec: `muc_set_roster_pending_nick_change` of the missing `muc.c`;
"set_roster_pending_nick_change(room, new_nick, old_nick) stages the rename".  A null new
nick stages nothing. -/
def muc_set_roster_pending_nick_change (room : String) (new_nick : Option String)
    (old_nick : String) (rooms : List MucRoom) : List MucRoom :=
  match new_nick with
  | none => rooms
  | some n =>
    rooms.map (fun r =>
      if r.room == room then
        { r with roster_pending_nick_changes :=
            g_hash_table_insert r.roster_pending_nick_changes n old_nick }
      else r)

/-- Modelled from the spec: `muc_complete_roster_nick_change` of the missing `muc.c`;
"complete_roster_nick_change(room, new_nick) -> old_nick is invoked upon observing the new
nick's first presence, atomically removing the old entry and returning its identity for UI
notification, or returns absent if no pending rename matches". -/
def muc_complete_roster_nick_change (room nick : String) (rooms : List MucRoom) :
    Option String × List MucRoom :=
  match rooms.find? (fun r => r.room == room) with
  | none => (none, rooms)
  | some found =>
    match g_hash_table_lookup found.roster_pending_nick_changes nick with
    | none => (none, rooms)
    | some old_nick =>
      (some old_nick,
       rooms.map (fun r =>
        if r.room == room then
          { r with
            roster := g_hash_table_remove r.roster old_nick
            roster_pending_nick_changes :=
              g_hash_table_remove r.roster_pending_nick_changes nick }
        else r))

/-- Embedding of `jabber_get_jid` (jabber.c 459-463): libstrophe reads the jid out of the
connection object. -/
def jabber_get_jid (s : Session) : Except Trap (Option String) :=
  match s.mem.jabber_conn.conn with
  | none => .error (.null_read "xmpp_conn_get_jid(jabber_conn.conn)")
  | some conn => .ok conn.jid

/-- Embedding of `_groupchat_message_handler` (jabber.c 530-600).  The timestamp of a
delayed message is carried as the text of its stamp.  A null from attribute is handed to
`jid_is_room`, which is taken to read it. -/
def _groupchat_message_handler (stanza : xmpp_stanza_t) (s : Session) :
    Except Trap (Int × Session) :=
  match xmpp_stanza_get_attribute stanza "from" with
  | none => .error (.null_read "jid_is_room(room_jid)")
  | some room_jid =>
    if jid_is_room room_jid then
      match xmpp_stanza_get_child_by_name stanza "subject" with
      | some subject =>
        match xmpp_stanza_get_text subject with
        | some message =>
          let room := get_room_from_full_jid room_jid
          .ok (1, emit (.invoke "prof_handle_room_subject" [some room, some message]) s)
        | none => .ok (1, s)
      | none =>
        match xmpp_stanza_get_child_by_name stanza "body" with
        | some body =>
          match xmpp_stanza_get_text body with
          | some message =>
            .ok (1, emit (.invoke "prof_handle_room_broadcast" [some room_jid, some message]) s)
          | none => .ok (1, s)
        | none => .ok (1, s)
    else
      match parse_room_jid room_jid with
      | none =>
        .ok (1, emit (.invoke "log_error" [some "Could not parse room jid: %s", some room_jid]) s)
      | some (room, nick) =>
        if !muc_room_is_active room_jid s.mem.muc_rooms then
          .ok (1, emit (.invoke "log_error"
            [some "Message recieved for inactive groupchat: %s", some room_jid]) s)
        else
          let tv_stamp := stanza_get_delay stanza
          let delayed := tv_stamp.isSome
          match xmpp_stanza_get_child_by_name stanza "body" with
          | some body =>
            let message := xmpp_stanza_get_text body
            if delayed then
              .ok (1, emit (.invoke "prof_handle_room_history"
                [some room, some nick, tv_stamp, message]) s)
            else
              .ok (1, emit (.invoke "prof_handle_room_message"
                [some room, some nick, message]) s)
          | none => .ok (1, s)

/-- Embedding of `_message_handler` (jabber.c 508-528). -/
def _message_handler (prefs : Prefs) (stanza : xmpp_stanza_t) (s : Session) :
    Except Trap (Int × Session) :=
  match xmpp_stanza_get_attribute stanza "type" with
  | none =>
    .ok (1, emit (.invoke "log_error"
      [some "Message stanza received with no type attribute"]) s)
  | some type =>
    if type = "error" then _error_handler stanza s
    else if type = "groupchat" then _groupchat_message_handler stanza s
    else if type = "chat" then _chat_message_handler prefs stanza s
    else
      .ok (1, emit (.invoke "log_error"
        [some "Message stanza received with unknown type: %s", some type]) s)

/-- Embedding of `_room_presence_handler` (jabber.c 938-1025). -/
def _room_presence_handler (jid : String) (stanza : xmpp_stanza_t) (s : Session) :
    Except Trap (Int × Session) :=
  match parse_room_jid jid with
  | none => .ok (1, emit (.invoke "log_error" [some "Could not parse room jid: %s", none]) s)
  | some (room, nick) =>
    match jabber_get_jid s with
    | .error t => .error t
    | .ok self_jid =>
      if stanza_is_muc_self_presence stanza self_jid then
        let type := xmpp_stanza_get_attribute stanza "type"
        let nick_change := stanza_is_room_nick_change stanza
        if type = some "unavailable" then
          if nick_change then
            .ok (1, { s with mem := { s.mem with
              muc_rooms := muc_set_room_pending_nick_change room s.mem.muc_rooms } })
          else
            .ok (1, emit (.invoke "prof_handle_leave_room" [some room]) s)
        else if muc_is_room_pending_nick_change room s.mem.muc_rooms then
          let s : Session := { s with mem := { s.mem with
            muc_rooms := muc_complete_room_nick_change room nick s.mem.muc_rooms } }
          .ok (1, emit (.invoke "prof_handle_room_nick_change" [some room, some nick]) s)
        else if !muc_get_roster_received room s.mem.muc_rooms then
          .ok (1, emit (.invoke "prof_handle_room_roster_complete" [some room]) s)
        else .ok (1, s)
      else
        let type := xmpp_stanza_get_attribute stanza "type"
        let status_str : Option String :=
          match xmpp_stanza_get_child_by_name stanza "status" with
          | some status => xmpp_stanza_get_text status
          | none => none
        if type = some "unavailable" then
          if stanza_is_room_nick_change stanza then
            let new_nick := stanza_get_new_nick stanza
            .ok (1, { s with mem := { s.mem with
              muc_rooms :=
                muc_set_roster_pending_nick_change room new_nick nick s.mem.muc_rooms } })
          else
            .ok (1, emit (.invoke "prof_handle_room_member_offline"
              [some room, some nick, some "offline", status_str]) s)
        else
          let show_str : Option String :=
            match xmpp_stanza_get_child_by_name stanza "show" with
            | some sh => xmpp_stanza_get_text sh
            | none => some "online"
          if !muc_get_roster_received room s.mem.muc_rooms then
            .ok (1, { s with mem := { s.mem with
              muc_rooms := muc_add_to_roster room nick show_str status_str s.mem.muc_rooms } })
          else
            let completed_change := muc_complete_roster_nick_change room nick s.mem.muc_rooms
            let old_nick := completed_change.1
            let s : Session := { s with mem := { s.mem with muc_rooms := completed_change.2 } }
            match old_nick with
            | some old =>
              let s : Session := { s with mem := { s.mem with
                muc_rooms := muc_add_to_roster room nick show_str status_str s.mem.muc_rooms } }
              .ok (1, emit (.invoke "prof_handle_room_member_nick_change"
                [some room, some old, some nick]) s)
            | none =>
              if !muc_nick_in_roster room nick s.mem.muc_rooms then
                .ok (1, emit (.invoke "prof_handle_room_member_online"
                  [some room, some nick, show_str, status_str]) s)
              else
                .ok (1, emit (.invoke "prof_handle_room_member_presence"
                  [some room, some nick, show_str, status_str]) s)

/-- Embedding of `_presence_handler` (jabber.c 1027-1102).  `now` is the reading of the
local clock in seconds; the time of the last activity is carried as the text of
now - idle_seconds.  The `strtok` that cuts `from` writes into the stanza, which is not read
again behind the cut.  A null from attribute is handed to `muc_room_is_active`, which is
taken to read it, as `room_is_active` of room_chat.c does. -/
def _presence_handler (now : Int) (stanza : xmpp_stanza_t) (s : Session) :
    Except Trap (Int × Session) :=
  match s.mem.jabber_conn.conn with
  | none => .error (.null_read "xmpp_conn_get_jid(jabber_conn.conn)")
  | some conn =>
    match conn.jid with
    | none => .error (.null_read "strlen(jid)")
    | some jid =>
      let short_jid := strtok jid '/'
      let from_attr := xmpp_stanza_get_attribute stanza "from"
      let type := xmpp_stanza_get_attribute stanza "type"
      if type = some "error" then _error_handler stanza s
      else
        match from_attr with
        | none => .error (.null_read "muc_room_is_active(from)")
        | some f =>
          if muc_room_is_active f s.mem.muc_rooms then _room_presence_handler f stanza s
          else
            let short_from := strtok f '/'
            let idle_seconds := stanza_get_idle_time stanza
            let last_activity : Option String :=
              if idle_seconds > 0 then some (toString (now + (0 - idle_seconds))) else none
            let status_str : Option String :=
              match xmpp_stanza_get_child_by_name stanza "status" with
              | some status => xmpp_stanza_get_text status
              | none => none
            match type with
            | none =>
              let show_str : Option String :=
                match xmpp_stanza_get_child_by_name stanza "show" with
                | some sh => xmpp_stanza_get_text sh
                | none => some "online"
              match short_jid, short_from with
              | some sj, some sf =>
                if sj ≠ sf then
                  .ok (1, emit (.invoke "prof_handle_contact_online"
                    [some sf, show_str, status_str, last_activity]) s)
                else .ok (1, s)
              | _, _ => .error (.null_read "strcmp(short_jid, short_from)")
            | some t =>
              if t = "unavailable" then
                match short_jid, short_from with
                | some sj, some sf =>
                  if sj ≠ sf then
                    .ok (1, emit (.invoke "prof_handle_contact_offline"
                      [some sf, some "offline", status_str]) s)
                  else .ok (1, s)
                | _, _ => .error (.null_read "strcmp(short_jid, short_from)")
              else if t = "subscribe" then
                let s := emit (.invoke "prof_handle_subscription"
                  [short_from, some "PRESENCE_SUBSCRIBE"]) s
                match short_from with
                | none => .error (.null_read "strdup(short_from)")
                | some sf =>
                  .ok (1, { s with mem := { s.mem with
                    sub_requests := s.mem.sub_requests.map (fun reqs =>
                      if reqs.contains sf then reqs else reqs ++ [sf]) } })
              else if t = "subscribed" then
                let s := emit (.invoke "prof_handle_subscription"
                  [short_from, some "PRESENCE_SUBSCRIBED"]) s
                match s.mem.sub_requests, short_from with
                | some reqs, some sf =>
                  .ok (1, { s with mem := { s.mem with
                    sub_requests := some (reqs.filter (fun r => !(r == sf))) } })
                | some _, none => .error (.null_read "g_hash_table_remove(sub_requests, short_from)")
                | none, _ => .ok (1, s)
              else if t = "unsubscribed" then
                let s := emit (.invoke "prof_handle_subscription"
                  [short_from, some "PRESENCE_UNSUBSCRIBED"]) s
                match s.mem.sub_requests, short_from with
                | some reqs, some sf =>
                  .ok (1, { s with mem := { s.mem with
                    sub_requests := some (reqs.filter (fun r => !(r == sf))) } })
                | some _, none => .error (.null_read "g_hash_table_remove(sub_requests, short_from)")
                | none, _ => .ok (1, s)
              else
                .ok (1, emit (.log_debug "Received presence with unknown type '%s'" (some t)) s)

/-- The notifications `prof_handle_*` raised in a piece of history, oldest first. -/
def notifications (trace : List (Globals × Effect)) : List Effect :=
  (trace.filter (fun x => "prof_handle_".data.isPrefixOf x.2.call.data)).map (fun x => x.2)

/-- The notifications raised between two points of a run. -/
def notified_since (s s' : Session) : List Effect :=
  notifications (s'.trace.drop s.trace.length)

/-- The text of a jid before its first '/'. -/
def bare_jid (jid : String) : String :=
  String.mk (jid.data.takeWhile (fun c => !(c == '/')))

/-- A groupchat message with a body from a jid without nick part. -/
def room_broadcast : xmpp_stanza_t :=
  .tag "message" [("type", "groupchat"), ("from", "room@conf")] [.tag "body" [] [.text "hello"]]

/-- A connected session in the room `room@conf` whose roster was received and holds the
occupant `bob`, with a rename of `carol` to `dave` staged. -/
def in_room_with_roster : Session :=
  { in_room with mem := { in_room.mem with muc_rooms :=
      [{ room := "room@conf", nick := "me", roster := [("bob", "online", none),
          ("carol", "online", none)],
         roster_received := true, pending_nick_change := false,
         roster_pending_nick_changes := [("dave", "carol")] }] } }

/-- The show value the presence handlers read off an available presence (jabber.c 997-1002,
1064-1068): the text of the show child, `online` when there is no show child. -/
def presence_show_str (stanza : xmpp_stanza_t) : Option String :=
  match xmpp_stanza_get_child_by_name stanza "show" with
  | some sh => xmpp_stanza_get_text sh
  | none => some "online"

/-- The status text the presence handlers read off a presence (jabber.c 981-986,
1057-1061): the text of the status child, null when there is no status child. -/
def presence_status_str (stanza : xmpp_stanza_t) : Option String :=
  match xmpp_stanza_get_child_by_name stanza "status" with
  | some status => xmpp_stanza_get_text status
  | none => none

/-- The time of the last activity the presence handler hands on (jabber.c 1050-1055). -/
def presence_last_activity (now : Int) (stanza : xmpp_stanza_t) : Option String :=
  if stanza_get_idle_time stanza > 0 then
    some (toString (now + (0 - stanza_get_idle_time stanza)))
  else none

/-- A delayed groupchat message of the occupant `bob` of `room@conf`. -/
def room_history_message : xmpp_stanza_t :=
  .tag "message" [("type", "groupchat"), ("from", "room@conf/bob")]
    [.tag "body" [] [.text "hi"], .tag "delay" [("stamp", "2012-11-05T21:54:32Z")] []]

/-- An available presence of `you@host`, away. -/
def contact_presence : xmpp_stanza_t :=
  .tag "presence" [("from", "you@host/phone")] [.tag "show" [] [.text "away"]]

/-- Modelled from the spec: `p_contact_presence` of the missing `contact.c`. -/
def p_contact_presence (c : PContact) : Option String :=
  c.presence

/-- Modelled from the spec: `p_contact_status` of the missing `contact.c`. -/
def p_contact_status (c : PContact) : Option String :=
  c.status

/-- The contact list of a test after its adds, given as (jid, show, status). -/
def after_adds (adds : List (String × Option String × Option String)) : ContactList :=
  adds.foldl (fun cl a => (contact_list_add a.1 none a.2.1 a.2.2 none false cl).2)
    (contact_list_clear contact_list_init)

/-! ## Theorems -/

/-- C1, refuted as stated: after a connection attempt as `me@host`, a call of
`jabber_connect` with a null jid leaves the saved jid null, so the saved credentials are
not what they were before the call. -/
theorem jabber_connect_null_jid_forgets_saved_user :
    first_attempt.mem.saved_user.jid = some "me@host" ∧
    (jabber_connect 0 none (some "pw") none first_attempt).2.mem.saved_user.jid = none ∧
    (jabber_connect 0 none (some "pw") none first_attempt).2.mem.saved_user
      ≠ first_attempt.mem.saved_user := by
  decide

/-- C1, amended: for every state, `jabber_connect` called with a null jid or a null password
returns JABBER_UNDEFINED and makes no outward call (no transport connection is initiated);
the connection state, the presence and every other global are as before, except that the
saved jid, password and alternate domain are null afterwards (the saved account is kept). -/
theorem jabber_connect_null_identity (connect_status : Int)
    (jid passwd altdomain : Option String) (s : Session)
    (h : jid = none ∨ passwd = none) :
    (jabber_connect connect_status jid passwd altdomain s).1 = JABBER_UNDEFINED ∧
    (jabber_connect connect_status jid passwd altdomain s).2.trace = s.trace ∧
    (jabber_connect connect_status jid passwd altdomain s).2.mem =
      { s.mem with saved_user :=
          { account := s.mem.saved_user.account, jid := none, passwd := none,
            altdomain := none } } := by
  rcases h with h | h
  · subst h
    simp [jabber_connect, FREE_SET_NULL]
  · subst h
    cases jid <;> simp [jabber_connect, FREE_SET_NULL]

/-- C1, amended, at a concrete input: a null jid after a first connection attempt. -/
theorem jabber_connect_null_identity_witness :
    (jabber_connect 0 none (some "pw") none first_attempt).1 = JABBER_UNDEFINED ∧
    (jabber_connect 0 none (some "pw") none first_attempt).2.trace = first_attempt.trace ∧
    (jabber_connect 0 none (some "pw") none first_attempt).2.mem =
      { first_attempt.mem with saved_user :=
          { account := first_attempt.mem.saved_user.account, jid := none, passwd := none,
            altdomain := none } } :=
  jabber_connect_null_identity 0 none (some "pw") none first_attempt (Or.inl rfl)

/-- C2, refuted as stated: right after `jabber_init`, `jabber_connect` with a null jid
returns JABBER_UNDEFINED while `jabber_get_connection_status` still reports JABBER_STARTED;
and with a jid and a password but a failing transport-level connect the state is
JABBER_DISCONNECTED, not Connecting. -/
theorem jabber_connect_return_differs_from_status :
    (jabber_connect 0 none (some "pw") none started).1 = JABBER_UNDEFINED ∧
    jabber_get_connection_status (jabber_connect 0 none (some "pw") none started).2
      = JABBER_STARTED ∧
    jabber_get_connection_status
      (jabber_connect (-1) (some "me@host") (some "pw") none started).2
        = JABBER_DISCONNECTED := by
  decide

/-- C2, amended: with a jid and a password, the value `jabber_connect` returns is the state
`jabber_get_connection_status` reports right after the call; it is Connecting when the
transport-level connect returned 0 and Disconnected otherwise, and the saved jid, password
and alternate domain are the arguments.  With a null jid or a null password it returns
JABBER_UNDEFINED and the reported state is the one from before the call. -/
theorem jabber_connect_result (connect_status : Int) (j p : String)
    (altdomain : Option String) (s : Session) :
    ((jabber_connect connect_status (some j) (some p) altdomain s).1 =
      jabber_get_connection_status
        (jabber_connect connect_status (some j) (some p) altdomain s).2 ∧
    (jabber_connect connect_status (some j) (some p) altdomain s).1 =
      (if connect_status = 0 then JABBER_CONNECTING else JABBER_DISCONNECTED) ∧
    (jabber_connect connect_status (some j) (some p) altdomain s).2.mem.saved_user =
      { account := s.mem.saved_user.account, jid := some j, passwd := some p,
        altdomain := altdomain }) ∧
    (∀ passwd : Option String,
      (jabber_connect connect_status none passwd altdomain s).1 = JABBER_UNDEFINED ∧
      jabber_get_connection_status (jabber_connect connect_status none passwd altdomain s).2
        = jabber_get_connection_status s) ∧
    (∀ jid : Option String,
      (jabber_connect connect_status jid none altdomain s).1 = JABBER_UNDEFINED ∧
      jabber_get_connection_status (jabber_connect connect_status jid none altdomain s).2
        = jabber_get_connection_status s) := by
  refine ⟨⟨rfl, ?_, ?_⟩, ?_, ?_⟩
  · by_cases hc : connect_status = 0 <;> simp [jabber_connect, hc]
  · cases altdomain <;> by_cases ht : s.mem.jabber_conn.tls_disabled = true <;>
      by_cases hc : connect_status = 0 <;> simp [jabber_connect, FREE_SET_NULL, emit, ht, hc]
  · intro passwd
    simp [jabber_connect, jabber_get_connection_status]
  · intro jid
    cases jid <;> simp [jabber_connect, jabber_get_connection_status]

/-- C3, the code at the failing input: a retry is under way (state Connecting, the reconnect
timer started at clock 10 is alive) and auto reconnect has been switched off; the
connect-success event ends in state Connected with presence Online, but the reconnect
timer is still alive. -/
theorem connect_success_keeps_reconnect_timer :
    retrying.mem.jabber_conn.conn_status = JABBER_CONNECTING ∧
    retrying.mem.reconnect_timer = some { start := 10 } ∧
    completed (_connection_handler prefs_reconnect_off 6000100 XMPP_CONN_CONNECT retrying)
      = true ∧
    (final (_connection_handler prefs_reconnect_off 6000100 XMPP_CONN_CONNECT
      retrying)).mem.jabber_conn.conn_status = JABBER_CONNECTED ∧
    (final (_connection_handler prefs_reconnect_off 6000100 XMPP_CONN_CONNECT
      retrying)).mem.jabber_conn.presence = PRESENCE_ONLINE ∧
    (final (_connection_handler prefs_reconnect_off 6000100 XMPP_CONN_CONNECT
      retrying)).mem.reconnect_timer = some { start := 10 } := by
  decide

/-- C4, the code at the failing input: from `jabber_init`, the run connect, connect-success,
drop (timer created), connect, connect-success with auto reconnect switched
off, drop with auto reconnect switched on again is stopped by the assertion
`reconnect_timer == NULL`; before the last step the run was intact and Connected. -/
theorem reconnect_timer_assertion_fails :
    completed (run retry_succeeds started) = true ∧
    assertion_failed (run second_drop started) = true := by
  decide

/-- C5, the code at the failing input: in the Connected state `reconnected` (reached from
`jabber_init`), with a non-zero reconnect interval, the disconnect event raises the
lost-connection notification and then stops at the assertion: the handler does not
complete, and no timer is started at the time of the drop. -/
theorem lost_connection_stops_at_assertion :
    reconnected.mem.jabber_conn.conn_status = JABBER_CONNECTED ∧
    calls_since reconnected
      (final (_connection_handler prefs_reconnect_5 9000000 XMPP_CONN_DISCONNECT reconnected))
      = ["prof_handle_lost_connection"] ∧
    assertion_failed
      (_connection_handler prefs_reconnect_5 9000000 XMPP_CONN_DISCONNECT reconnected) = true ∧
    (final (_connection_handler prefs_reconnect_5 9000000 XMPP_CONN_DISCONNECT
      reconnected)).mem.reconnect_timer ≠ some { start := 9000000 } := by
  decide

/-- C7, the code at the failing input: in the Connected state `reconnected`, with a non-zero
reconnect interval and the old reconnect timer alive, handling the disconnect event does
not complete, and the state in which the process stops is still Connected with presence
Online. -/
theorem disconnect_event_not_finalised :
    reconnected.mem.reconnect_timer = some { start := 10 } ∧
    completed
      (_connection_handler prefs_reconnect_5 9000000 XMPP_CONN_DISCONNECT reconnected) = false ∧
    (final (_connection_handler prefs_reconnect_5 9000000 XMPP_CONN_DISCONNECT
      reconnected)).mem.jabber_conn.conn_status = JABBER_CONNECTED ∧
    (final (_connection_handler prefs_reconnect_5 9000000 XMPP_CONN_DISCONNECT
      reconnected)).mem.jabber_conn.presence = PRESENCE_ONLINE := by
  decide

/-- Handling one connection event only adds to the history, and what it adds contains none
of the calls in `foreign_to_handler`. -/
theorem connection_handler_trace (prefs : Prefs) (now : Nat) (e : xmpp_conn_event_t)
    (s : Session) :
    ∃ ext, (final (_connection_handler prefs now e s)).trace = s.trace ++ ext ∧
      ext.all (fun x => !foreign_to_handler x) = true := by
  cases e
  · unfold _connection_handler
    simp only []
    cases ha : s.mem.saved_user.account <;> by_cases hp : prefs.autoping = 0 <;>
      by_cases hr : prefs.reconnect = 0 <;> cases ht : s.mem.reconnect_timer <;>
      simp [-List.all_eq_true, final, emit, _jabber_roster_request, chat_sessions_init,
        hp, hr, ht, ha, foreign_to_handler]
  · unfold _connection_handler
    simp only []
    by_cases hc : s.mem.jabber_conn.conn_status = JABBER_CONNECTED
    · by_cases hr : prefs.reconnect = 0 <;> cases ht : s.mem.reconnect_timer <;>
        cases hs : s.mem.sub_requests <;>
        simp [-List.all_eq_true, final, emit, jabber_free_resources, hc, hr, ht, hs,
          foreign_to_handler]
    · by_cases hd : s.mem.jabber_conn.conn_status = JABBER_DISCONNECTING
      · simp [final, hc, hd]
      · by_cases hr : prefs.reconnect = 0 <;> cases ht : s.mem.reconnect_timer <;>
          cases hs : s.mem.sub_requests <;>
          simp [-List.all_eq_true, final, emit, jabber_free_resources, hc, hd, hr, ht, hs,
            foreign_to_handler]
  · exact ⟨[], by simp [_connection_handler, final]⟩

/-- C6, refuted as stated: a retry is under way (state Connecting, reconnect timer started at
clock 10) and auto reconnect has been switched off; the disconnect event at clock 20
completes without any outward call, so the timer is not restarted: it still counts from
clock 10. -/
theorem failed_retry_timer_not_restarted :
    retrying.mem.jabber_conn.conn_status = JABBER_CONNECTING ∧
    retrying.mem.reconnect_timer = some { start := 10 } ∧
    completed (_connection_handler prefs_reconnect_off 20 XMPP_CONN_DISCONNECT retrying)
      = true ∧
    calls_since retrying
      (final (_connection_handler prefs_reconnect_off 20 XMPP_CONN_DISCONNECT retrying)) = [] ∧
    (final (_connection_handler prefs_reconnect_off 20 XMPP_CONN_DISCONNECT
      retrying)).mem.reconnect_timer = some { start := 10 } := by
  decide

/-- C6, amended: when a disconnect event arrives while the state is neither Connected nor
Disconnecting, the handler completes and: if no reconnect timer exists, the failed-login
notification is raised once and the session resources are torn down (saved credentials
null, chat sessions cleared, subscription requests emptied, connection released); if a
reconnect timer exists, no notification is raised and the saved credentials are kept, and
the timer is restarted at the current clock when the reconnect interval is non-zero and
left as it was when the interval is zero. -/
theorem disconnect_before_connected (prefs : Prefs) (now : Nat) (s : Session)
    (h1 : s.mem.jabber_conn.conn_status ≠ JABBER_CONNECTED)
    (h2 : s.mem.jabber_conn.conn_status ≠ JABBER_DISCONNECTING) :
    completed (_connection_handler prefs now XMPP_CONN_DISCONNECT s) = true ∧
    (s.mem.reconnect_timer = none →
      calls_since s (final (_connection_handler prefs now XMPP_CONN_DISCONNECT s))
        = ["prof_handle_failed_login", "xmpp_conn_release", "xmpp_ctx_free", "xmpp_shutdown"] ∧
      (final (_connection_handler prefs now XMPP_CONN_DISCONNECT s)).mem.saved_user
        = { account := none, jid := none, passwd := none, altdomain := none } ∧
      (final (_connection_handler prefs now XMPP_CONN_DISCONNECT s)).mem.chat_sessions = [] ∧
      (final (_connection_handler prefs now XMPP_CONN_DISCONNECT s)).mem.sub_requests
        = s.mem.sub_requests.map (fun _ => []) ∧
      (final (_connection_handler prefs now XMPP_CONN_DISCONNECT s)).mem.reconnect_timer
        = none) ∧
    (∀ timer, s.mem.reconnect_timer = some timer →
      (final (_connection_handler prefs now XMPP_CONN_DISCONNECT s)).mem.saved_user
        = s.mem.saved_user ∧
      (prefs.reconnect ≠ 0 →
        calls_since s (final (_connection_handler prefs now XMPP_CONN_DISCONNECT s))
          = ["g_timer_start"] ∧
        (final (_connection_handler prefs now XMPP_CONN_DISCONNECT s)).mem.reconnect_timer
          = some { start := now }) ∧
      (prefs.reconnect = 0 →
        calls_since s (final (_connection_handler prefs now XMPP_CONN_DISCONNECT s)) = [] ∧
        (final (_connection_handler prefs now XMPP_CONN_DISCONNECT s)).mem.reconnect_timer
          = some timer)) := by
  refine ⟨?_, ?_, ?_⟩
  · by_cases hr : prefs.reconnect = 0 <;> cases ht : s.mem.reconnect_timer <;>
      simp [_connection_handler, completed, h1, h2, hr, ht]
  · intro ht
    cases hs : s.mem.sub_requests <;>
      simp [_connection_handler, final, calls_since, emit, jabber_free_resources,
        FREE_SET_NULL, chat_sessions_clear, Effect.call, h1, h2, ht, hs]
  · intro timer ht
    by_cases hr : prefs.reconnect = 0 <;>
      simp [_connection_handler, final, calls_since, emit, Effect.call, h1, h2, ht, hr]

/-- C6, amended, at a concrete input: the retry of `retrying` fails with auto reconnect
still on, at clock 7000000. -/
theorem disconnect_before_connected_witness :
    (final (_connection_handler prefs_reconnect_5 7000000 XMPP_CONN_DISCONNECT
      retrying)).mem.saved_user = retrying.mem.saved_user ∧
    calls_since retrying
      (final (_connection_handler prefs_reconnect_5 7000000 XMPP_CONN_DISCONNECT retrying))
        = ["g_timer_start"] ∧
    (final (_connection_handler prefs_reconnect_5 7000000 XMPP_CONN_DISCONNECT
      retrying)).mem.reconnect_timer = some { start := 7000000 } :=
  have h := (disconnect_before_connected prefs_reconnect_5 7000000 retrying
    (by decide) (by decide)).2.2 { start := 10 } (by decide)
  ⟨h.1, h.2.1 (by decide)⟩

/-- The events of one `xmpp_run_once` only add to the history, and what they add contains
none of the calls in `foreign_to_handler`. -/
theorem deliver_trace (prefs : Prefs) (now : Nat) (events : List xmpp_conn_event_t) :
    ∀ s : Session, ∃ ext, (final (deliver prefs now events s)).trace = s.trace ++ ext ∧
      ext.all (fun x => !foreign_to_handler x) = true := by
  induction events with
  | nil => intro s; exact ⟨[], by simp [deliver, final]⟩
  | cons e es ih =>
    intro s
    obtain ⟨ext1, h1, a1⟩ := connection_handler_trace prefs now e s
    cases hr : _connection_handler prefs now e s with
    | error f =>
      refine ⟨ext1, ?_, a1⟩
      rw [hr] at h1
      simpa [deliver, hr] using h1
    | ok s' =>
      obtain ⟨ext2, h2, a2⟩ := ih s'
      rw [hr] at h1
      refine ⟨ext1 ++ ext2, ?_, ?_⟩
      · have : (final (Except.ok s' : Except Fault Session)).trace = s'.trace := rfl
        rw [this] at h1
        simp [deliver, hr, h2, h1]
      · rw [List.all_append, a1, a2]; rfl

/-- A call of `jabber_connect` only adds to the history. -/
theorem jabber_connect_trace (connect_status : Int) (jid passwd altdomain : Option String)
    (s : Session) :
    ∃ ext, (jabber_connect connect_status jid passwd altdomain s).2.trace = s.trace ++ ext := by
  cases jid <;> cases passwd <;> cases altdomain <;>
    by_cases ht : s.mem.jabber_conn.tls_disabled = true <;>
    by_cases hc : connect_status = 0 <;>
    simp [jabber_connect, emit, ht, hc]

/-- A call that handling a connection event can make does not announce a reconnection. -/
theorem not_foreign_not_announcing (x : Globals × Effect)
    (h : (!foreign_to_handler x) = true) : announces_reconnect x = false := by
  obtain ⟨g, e⟩ := x
  cases e <;> simp_all [foreign_to_handler, announces_reconnect]

/-- The reconnect branch of `jabber_process_events`: the log line is written and the saved
jid, password and alternate domain are freed; with a saved jid and a saved password the
process then stops at the read of the freed jid, before any transport call. -/
theorem process_events_reconnects (prefs : Prefs) (t : Tick) (s : Session) (timer : GTimer)
    (hs : s.mem.jabber_conn.conn_status = JABBER_DISCONNECTED) (hr : prefs.reconnect ≠ 0)
    (ht : s.mem.reconnect_timer = some timer)
    (he : g_timer_elapsed timer t.now > prefs.reconnect * 1000000) :
    (final (jabber_process_events prefs t s)).trace =
      s.trace ++ [(s.mem, .log_debug "Attempting reconnect as %s" s.mem.saved_user.jid)] ∧
    (final (jabber_process_events prefs t s)).mem =
      { s.mem with saved_user :=
          { account := s.mem.saved_user.account, jid := none, passwd := none,
            altdomain := none } } ∧
    (completed (jabber_process_events prefs t s) = true ↔
      (s.mem.saved_user.jid = none ∨ s.mem.saved_user.passwd = none)) := by
  cases hj : s.mem.saved_user.jid <;> cases hp : s.mem.saved_user.passwd <;>
    simp [jabber_process_events, hs, hr, ht, he, emit, hj, hp, final, completed, FREE_SET_NULL]

/-- The event-loop branch of `jabber_process_events`: one `xmpp_run_once` with a 10 ms wait,
then whatever the delivered events add. -/
theorem process_events_runs_once (prefs : Prefs) (t : Tick) (s : Session)
    (ha : s.mem.jabber_conn.conn_status = JABBER_CONNECTED
      ∨ s.mem.jabber_conn.conn_status = JABBER_CONNECTING
      ∨ s.mem.jabber_conn.conn_status = JABBER_DISCONNECTING) :
    ∃ ext, (final (jabber_process_events prefs t s)).trace
        = s.trace ++ (s.mem, .xmpp_run_once 10) :: ext ∧
      ext.all (fun x => !foreign_to_handler x) = true := by
  obtain ⟨ext, h, a⟩ := deliver_trace prefs t.now t.events (emit (.xmpp_run_once 10) s)
  refine ⟨ext, ?_, a⟩
  simp only [jabber_process_events, if_pos ha]
  rw [h]
  simp [emit]

/-- The remaining cases of `jabber_process_events`: nothing happens. -/
theorem process_events_idle (prefs : Prefs) (t : Tick) (s : Session)
    (ha : ¬ (s.mem.jabber_conn.conn_status = JABBER_CONNECTED
      ∨ s.mem.jabber_conn.conn_status = JABBER_CONNECTING
      ∨ s.mem.jabber_conn.conn_status = JABBER_DISCONNECTING))
    (hd : ¬ (s.mem.jabber_conn.conn_status = JABBER_DISCONNECTED ∧ prefs.reconnect ≠ 0 ∧
      ∃ timer, s.mem.reconnect_timer = some timer ∧
        g_timer_elapsed timer t.now > prefs.reconnect * 1000000)) :
    jabber_process_events prefs t s = .ok s := by
  simp only [jabber_process_events, if_neg ha]
  by_cases hr : prefs.reconnect = 0
  · simp [hr]
  · by_cases hs : s.mem.jabber_conn.conn_status = JABBER_DISCONNECTED
    · cases ht : s.mem.reconnect_timer with
      | none => simp [hr, hs]
      | some timer =>
        have he : ¬ g_timer_elapsed timer t.now > prefs.reconnect * 1000000 :=
          fun he => hd ⟨hs, hr, timer, ht, he⟩
        simp [hr, hs, he]
    · simp [hr, hs]

/-- The cases of `jabber_process_events`.  It enters the reconnect branch (the log line
"Attempting reconnect") exactly when the state is Disconnected, the reconnect interval is
non-zero, a reconnect timer exists and its elapsed time exceeds the interval; in state
Connected, Connecting or Disconnecting it makes one `xmpp_run_once` call with a 10 ms wait,
and whatever the delivered events add contains no further event-loop call and no connect
call; in every other case the session is returned as it was. -/
theorem process_events_cases (prefs : Prefs) (t : Tick) (s : Session) :
    ((s.mem.jabber_conn.conn_status = JABBER_CONNECTED
        ∨ s.mem.jabber_conn.conn_status = JABBER_CONNECTING
        ∨ s.mem.jabber_conn.conn_status = JABBER_DISCONNECTING) →
      ∃ ext, (final (jabber_process_events prefs t s)).trace
          = s.trace ++ (s.mem, .xmpp_run_once 10) :: ext ∧
        ext.all (fun x => !foreign_to_handler x) = true) ∧
    (¬ (s.mem.jabber_conn.conn_status = JABBER_CONNECTED
        ∨ s.mem.jabber_conn.conn_status = JABBER_CONNECTING
        ∨ s.mem.jabber_conn.conn_status = JABBER_DISCONNECTING) →
      ¬ (s.mem.jabber_conn.conn_status = JABBER_DISCONNECTED ∧ prefs.reconnect ≠ 0 ∧
          ∃ timer, s.mem.reconnect_timer = some timer ∧
            g_timer_elapsed timer t.now > prefs.reconnect * 1000000) →
      jabber_process_events prefs t s = .ok s) ∧
    ((∃ x ∈ (final (jabber_process_events prefs t s)).trace.drop s.trace.length,
        announces_reconnect x = true) ↔
      (s.mem.jabber_conn.conn_status = JABBER_DISCONNECTED ∧ prefs.reconnect ≠ 0 ∧
        ∃ timer, s.mem.reconnect_timer = some timer ∧
          g_timer_elapsed timer t.now > prefs.reconnect * 1000000)) := by
  refine ⟨process_events_runs_once prefs t s, process_events_idle prefs t s, ?_⟩
  by_cases ha : (s.mem.jabber_conn.conn_status = JABBER_CONNECTED
        ∨ s.mem.jabber_conn.conn_status = JABBER_CONNECTING
        ∨ s.mem.jabber_conn.conn_status = JABBER_DISCONNECTING)
  · obtain ⟨ext, h, a⟩ := process_events_runs_once prefs t s ha
    have hnd : s.mem.jabber_conn.conn_status ≠ JABBER_DISCONNECTED := by
      rcases ha with h' | h' | h' <;> simp [h']
    constructor
    · rintro ⟨x, hx, hann⟩
      rw [h, List.drop_left] at hx
      rcases List.mem_cons.1 hx with rfl | hx
      · simp [announces_reconnect] at hann
      · have := not_foreign_not_announcing x (List.all_eq_true.1 a x hx)
        rw [this] at hann
        exact absurd hann (by simp)
    · rintro ⟨hs, -⟩
      exact absurd hs hnd
  · by_cases hd : (s.mem.jabber_conn.conn_status = JABBER_DISCONNECTED ∧ prefs.reconnect ≠ 0 ∧
          ∃ timer, s.mem.reconnect_timer = some timer ∧
            g_timer_elapsed timer t.now > prefs.reconnect * 1000000)
    · obtain ⟨hs, hr, timer, ht, he⟩ := hd
      refine ⟨fun _ => ⟨hs, hr, timer, ht, he⟩, fun _ => ?_⟩
      refine ⟨(s.mem, .log_debug "Attempting reconnect as %s" s.mem.saved_user.jid), ?_, rfl⟩
      rw [(process_events_reconnects prefs t s timer hs hr ht he).1]
      simp
    · rw [process_events_idle prefs t s ha hd]
      constructor
      · rintro ⟨x, hx, -⟩
        simp [final] at hx
      · intro h
        exact absurd h hd

/-- C8, the reconnection at a concrete input: the connection was lost at clock 10 with the
credentials `me@host` / `pw` saved, the reconnect interval is 5 seconds, and
`jabber_process_events` is called at clock 6000000.  The state is Disconnected, the timer
exists and has run for longer than the interval, so the reconnect branch is taken: the log
line is written, and the call `jabber_connect(saved_user.jid, saved_user.passwd,
saved_user.altdomain)` frees the saved strings and stops at the read of the freed jid.  No
transport call is made, no connection attempt is started and the saved jid and password are
gone; a `jabber_connect` on the credentials as they were stored would have left the state
Connecting with `me@host` / `pw` saved. -/
theorem reconnect_reads_freed_credentials :
    dropped.mem.jabber_conn.conn_status = JABBER_DISCONNECTED ∧
    dropped.mem.reconnect_timer = some { start := 10 } ∧
    g_timer_elapsed { start := 10 } 6000000 > prefs_reconnect_5.reconnect * 1000000 ∧
    dropped.mem.saved_user.jid = some "me@host" ∧
    dropped.mem.saved_user.passwd = some "pw" ∧
    (∃ stopped,
      jabber_process_events prefs_reconnect_5
          { now := 6000000, events := [], connect_status := 0 } dropped =
        .error (.freed_read stopped) ∧
      calls_since dropped stopped = ["log_debug"] ∧
      stopped.mem.saved_user.jid = none ∧
      stopped.mem.saved_user.passwd = none ∧
      stopped.mem.jabber_conn.conn_status = JABBER_DISCONNECTED) ∧
    (jabber_connect 0 dropped.mem.saved_user.jid dropped.mem.saved_user.passwd
      dropped.mem.saved_user.altdomain dropped).1 = JABBER_CONNECTING ∧
    (jabber_connect 0 dropped.mem.saved_user.jid dropped.mem.saved_user.passwd
      dropped.mem.saved_user.altdomain dropped).2.mem.saved_user.jid = some "me@host" :=
  ⟨by decide, by decide, by decide, by decide, by decide,
    ⟨_, rfl, by decide, by decide, by decide, by decide⟩, by decide, by decide⟩

/-- What handling a connection event can add, the wait of `jabber_disconnect` can add. -/
theorem not_foreign_to_wait (x : Globals × Effect)
    (h : (!foreign_to_handler x) = true) : (!foreign_to_wait x) = true := by
  obtain ⟨g, e⟩ := x
  cases e <;> simp_all [foreign_to_handler, foreign_to_wait]

/-- The wait loop of `jabber_disconnect` only adds to the history, and what it adds contains
no stream-close and no release of the connection made in state Disconnecting. -/
theorem disconnect_wait_trace (prefs : Prefs) (ticks : List Tick) :
    ∀ s : Session, ∃ ext, (final (disconnect_wait prefs ticks s)).trace = s.trace ++ ext ∧
      ext.all (fun x => !foreign_to_wait x) = true := by
  induction ticks with
  | nil =>
    intro s
    refine ⟨[], ?_, rfl⟩
    by_cases h : jabber_get_connection_status s = JABBER_DISCONNECTING <;>
      simp [disconnect_wait, h, final]
  | cons t ts ih =>
    intro s
    by_cases h : jabber_get_connection_status s = JABBER_DISCONNECTING
    · have hact : s.mem.jabber_conn.conn_status = JABBER_CONNECTED
          ∨ s.mem.jabber_conn.conn_status = JABBER_CONNECTING
          ∨ s.mem.jabber_conn.conn_status = JABBER_DISCONNECTING := Or.inr (Or.inr h)
      obtain ⟨ext1, h1, a1⟩ := process_events_runs_once prefs t s hact
      have a1' : ext1.all (fun x => !foreign_to_wait x) = true :=
        List.all_eq_true.2 (fun x hx => not_foreign_to_wait x (List.all_eq_true.1 a1 x hx))
      cases hr : jabber_process_events prefs t s with
      | error f =>
        rw [hr] at h1
        refine ⟨(s.mem, .xmpp_run_once 10) :: ext1, ?_, ?_⟩
        · simpa [disconnect_wait, h, hr] using h1
        · rw [List.all_cons, a1']; rfl
      | ok s' =>
        obtain ⟨ext2, h2, a2⟩ := ih s'
        rw [hr] at h1
        have h1' : s'.trace = s.trace ++ (s.mem, .xmpp_run_once 10) :: ext1 := h1
        refine ⟨(s.mem, .xmpp_run_once 10) :: ext1 ++ ext2, ?_, ?_⟩
        · simp [disconnect_wait, h, hr, h2, h1']
        · rw [List.all_append, List.all_cons, a1', a2]; rfl
    · exact ⟨[], by simp [disconnect_wait, h, final], rfl⟩

/-- The wait loop of `jabber_disconnect` is left only in a state other than Disconnecting. -/
theorem disconnect_wait_exit (prefs : Prefs) (ticks : List Tick) :
    ∀ s s' : Session, disconnect_wait prefs ticks s = .ok s' →
      jabber_get_connection_status s' ≠ JABBER_DISCONNECTING := by
  induction ticks with
  | nil =>
    intro s s' h
    by_cases hd : jabber_get_connection_status s = JABBER_DISCONNECTING
    · simp [disconnect_wait, hd] at h
    · simp [disconnect_wait, hd] at h
      rw [← h]; exact hd
  | cons t ts ih =>
    intro s s' h
    by_cases hd : jabber_get_connection_status s = JABBER_DISCONNECTING
    · cases hr : jabber_process_events prefs t s with
      | error f => simp [disconnect_wait, hd, hr] at h
      | ok s1 =>
        simp [disconnect_wait, hd, hr] at h
        exact ih s1 s' h
    · simp [disconnect_wait, hd] at h
      rw [← h]; exact hd

/-- What `jabber_free_resources` leaves behind: the saved account, jid, password and
alternate domain are null, there is no chat session and no pending subscription request,
the controller has no connection object, the connection state and the presence are what
they were, and the history grew by the release of the connection, of the context and of the
library, in this order. -/
theorem free_resources_clears (w : Session) :
    (jabber_free_resources w).mem.saved_user =
      { account := none, jid := none, passwd := none, altdomain := none } ∧
    (jabber_free_resources w).mem.chat_sessions = [] ∧
    (jabber_free_resources w).mem.sub_requests = w.mem.sub_requests.map (fun _ => []) ∧
    (jabber_free_resources w).mem.jabber_conn.conn = none ∧
    (jabber_free_resources w).mem.jabber_conn.conn_status = w.mem.jabber_conn.conn_status ∧
    (jabber_free_resources w).mem.jabber_conn.presence = w.mem.jabber_conn.presence ∧
    calls_since w (jabber_free_resources w) =
      ["xmpp_conn_release", "xmpp_ctx_free", "xmpp_shutdown"] := by
  cases hsub : w.mem.sub_requests <;>
    simp [jabber_free_resources, emit, hsub, FREE_SET_NULL, chat_sessions_clear, calls_since,
      Effect.call]

/-- C9: in every state other than Connected `jabber_disconnect` returns the session as it
was (no global changes, no outward call).  In state Connected the history grows by the log
line and then by the stream-close `xmpp_disconnect`, which is made with the state already
Disconnecting; nothing after it is a second stream-close or a release of the connection
made while the state is Disconnecting; and when the call completes, the resources were
freed from a state `w` that had left Disconnecting: after `w` the connection, the context
and the library are released, and in the state returned the saved account, jid, password
and alternate domain are null, there is no chat session, no pending subscription request
and no connection object. -/
theorem jabber_disconnect_frame_and_order (prefs : Prefs) (ticks : List Tick) (s : Session) :
    (s.mem.jabber_conn.conn_status ≠ JABBER_CONNECTED →
      jabber_disconnect prefs ticks s = .ok s) ∧
    (s.mem.jabber_conn.conn_status = JABBER_CONNECTED →
      (∃ ext, (final (jabber_disconnect prefs ticks s)).trace =
          s.trace ++ (s.mem, .log_info "Closing connection" none) ::
            ({ s.mem with jabber_conn :=
                { s.mem.jabber_conn with conn_status := JABBER_DISCONNECTING } },
              .xmpp_disconnect) :: ext ∧
        ∀ x ∈ ext, x.2 ≠ .xmpp_disconnect ∧
          (x.2 = .xmpp_conn_release →
            x.1.jabber_conn.conn_status ≠ JABBER_DISCONNECTING)) ∧
      (∀ s', jabber_disconnect prefs ticks s = .ok s' →
        ∃ w, jabber_get_connection_status w ≠ JABBER_DISCONNECTING ∧
          s' = jabber_free_resources w ∧
          calls_since w s' = ["xmpp_conn_release", "xmpp_ctx_free", "xmpp_shutdown"] ∧
          s'.mem.saved_user =
            { account := none, jid := none, passwd := none, altdomain := none } ∧
          s'.mem.chat_sessions = [] ∧
          jabber_get_subscription_requests s' = [] ∧
          s'.mem.jabber_conn.conn = none ∧
          jabber_get_connection_status s' = jabber_get_connection_status w)) := by
  refine ⟨fun h => by simp [jabber_disconnect, h], fun h => ⟨?_, ?_⟩⟩
  · have key : ∃ ext, (final (jabber_disconnect prefs ticks s)).trace =
          s.trace ++ (s.mem, .log_info "Closing connection" none) ::
            ({ s.mem with jabber_conn :=
                { s.mem.jabber_conn with conn_status := JABBER_DISCONNECTING } },
              .xmpp_disconnect) :: ext ∧
        ext.all (fun x => !foreign_to_wait x) = true := by
      simp only [jabber_disconnect, if_pos h]
      generalize hs0 : emit Effect.xmpp_disconnect
        { mem := { (emit (.log_info "Closing connection" none) s).mem with jabber_conn :=
            { (emit (.log_info "Closing connection" none) s).mem.jabber_conn with
              conn_status := JABBER_DISCONNECTING } },
          trace := (emit (.log_info "Closing connection" none) s).trace } = s0
      have ht0 : s0.trace = s.trace ++ (s.mem, .log_info "Closing connection" none) ::
            ({ s.mem with jabber_conn :=
                { s.mem.jabber_conn with conn_status := JABBER_DISCONNECTING } },
              .xmpp_disconnect) :: [] := by
        rw [← hs0]; simp [emit]
      obtain ⟨ext, hw, aw⟩ := disconnect_wait_trace prefs ticks s0
      cases hr : disconnect_wait prefs ticks s0 with
      | error f =>
        rw [hr] at hw
        refine ⟨ext, ?_, aw⟩
        show (final (Except.error f)).trace = _
        rw [hw, ht0]; simp
      | ok w =>
        rw [hr] at hw
        have hw' : w.trace = s0.trace ++ ext := hw
        have hexit := disconnect_wait_exit prefs ticks s0 w hr
        have hexit' : w.mem.jabber_conn.conn_status ≠ JABBER_DISCONNECTING := hexit
        refine ⟨ext ++ (final (Except.ok (jabber_free_resources w))).trace.drop w.trace.length,
          ?_, ?_⟩
        · show (jabber_free_resources w).trace = _
          cases hsub : w.mem.sub_requests <;>
            simp [jabber_free_resources, emit, hsub, hw', ht0, final]
        · rw [List.all_append, aw]
          cases hsub : w.mem.sub_requests <;>
            simp [-List.all_eq_true, jabber_free_resources, emit, hsub, final,
              foreign_to_wait, hexit']
    obtain ⟨ext, he, ha⟩ := key
    refine ⟨ext, he, fun x hx => ?_⟩
    have hx' := List.all_eq_true.1 ha x hx
    obtain ⟨g, e⟩ := x
    cases e <;> simp_all [foreign_to_wait]
  · intro s' hs'
    simp only [jabber_disconnect, if_pos h] at hs'
    generalize hs0 : emit Effect.xmpp_disconnect
        { mem := { (emit (.log_info "Closing connection" none) s).mem with jabber_conn :=
            { (emit (.log_info "Closing connection" none) s).mem.jabber_conn with
              conn_status := JABBER_DISCONNECTING } },
          trace := (emit (.log_info "Closing connection" none) s).trace } = s0 at hs'
    cases hr : disconnect_wait prefs ticks s0 with
    | error f => simp [hr] at hs'
    | ok w =>
      simp [hr] at hs'
      subst hs'
      obtain ⟨h1, h2, h3, h4, h5, -, h7⟩ := free_resources_clears w
      refine ⟨w, disconnect_wait_exit prefs ticks s0 w hr, rfl, h7, h1, h2, ?_, h4, h5⟩
      unfold jabber_get_subscription_requests
      rw [h3]
      cases w.mem.sub_requests <;> rfl

/-- C9 at concrete inputs: from the Connected state `in_conversation` (credentials saved, a
chat session with `bob@host`, two pending subscription requests), with the transport
confirming the close in the second round of the wait, `jabber_disconnect` completes and
the history reads: log line, stream-close, two event-loop calls, release of the
connection, context and library; the state returned has no saved credentials, no chat
session, no pending request and no connection object.  In the state `started` the call
returns the session as it was. -/
theorem jabber_disconnect_frame_and_order_witness :
    jabber_disconnect prefs_reconnect_5 [] started = .ok started ∧
    in_conversation.mem.saved_user.jid = some "me@host" ∧
    chat_session_exists in_conversation.mem.chat_sessions "bob@host" = true ∧
    jabber_get_subscription_requests in_conversation = ["bob@host", "you@host"] ∧
    completed (jabber_disconnect prefs_reconnect_5
      [{ now := 40, events := [], connect_status := 0 },
       { now := 50, events := [XMPP_CONN_DISCONNECT], connect_status := 0 }]
      in_conversation) = true ∧
    calls_since in_conversation (final (jabber_disconnect prefs_reconnect_5
      [{ now := 40, events := [], connect_status := 0 },
       { now := 50, events := [XMPP_CONN_DISCONNECT], connect_status := 0 }] in_conversation))
      = ["log_info", "xmpp_disconnect", "xmpp_run_once", "xmpp_run_once",
         "xmpp_conn_release", "xmpp_ctx_free", "xmpp_shutdown"] ∧
    (∃ ext, (final (jabber_disconnect prefs_reconnect_5
        [{ now := 40, events := [], connect_status := 0 },
         { now := 50, events := [XMPP_CONN_DISCONNECT], connect_status := 0 }]
        in_conversation)).trace =
          in_conversation.trace ++
            (in_conversation.mem, .log_info "Closing connection" none) ::
            ({ in_conversation.mem with jabber_conn :=
                { in_conversation.mem.jabber_conn with conn_status := JABBER_DISCONNECTING } },
              .xmpp_disconnect) :: ext ∧
        ∀ x ∈ ext, x.2 ≠ .xmpp_disconnect ∧
          (x.2 = .xmpp_conn_release →
            x.1.jabber_conn.conn_status ≠ JABBER_DISCONNECTING)) ∧
    (∃ w, jabber_get_connection_status w ≠ JABBER_DISCONNECTING ∧
      disconnected_after_conversation = jabber_free_resources w ∧
      calls_since w disconnected_after_conversation =
        ["xmpp_conn_release", "xmpp_ctx_free", "xmpp_shutdown"] ∧
      disconnected_after_conversation.mem.saved_user =
        { account := none, jid := none, passwd := none, altdomain := none } ∧
      disconnected_after_conversation.mem.chat_sessions = [] ∧
      jabber_get_subscription_requests disconnected_after_conversation = [] ∧
      disconnected_after_conversation.mem.jabber_conn.conn = none ∧
      jabber_get_connection_status disconnected_after_conversation =
        jabber_get_connection_status w) ∧
    jabber_get_connection_status disconnected_after_conversation = JABBER_DISCONNECTED :=
  ⟨(jabber_disconnect_frame_and_order prefs_reconnect_5 [] started).1 (by decide),
   by decide, by decide, by decide, by decide, by decide,
   ((jabber_disconnect_frame_and_order prefs_reconnect_5
      [{ now := 40, events := [], connect_status := 0 },
       { now := 50, events := [XMPP_CONN_DISCONNECT], connect_status := 0 }] in_conversation).2
      (by decide)).1,
   ((jabber_disconnect_frame_and_order prefs_reconnect_5
      [{ now := 40, events := [], connect_status := 0 },
       { now := 50, events := [XMPP_CONN_DISCONNECT], connect_status := 0 }] in_conversation).2
      (by decide)).2 disconnected_after_conversation rfl,
   by decide⟩

/-- A recipient whose session records chat-state support has a session. -/
theorem supports_implies_exists (sessions : List ChatSession) (recipient : String)
    (h : chat_session_get_recipient_supports sessions recipient = true) :
    chat_session_exists sessions recipient = true := by
  unfold chat_session_get_recipient_supports at h
  cases hf : sessions.find? (fun c => c.recipient == recipient) with
  | none => simp [hf] at h
  | some c =>
    have hm := List.mem_of_find?_eq_some hf
    have hp := List.find?_some hf
    exact List.any_eq_true.2 ⟨c, hm, hp⟩

/-- Marking a session active keeps every session in place. -/
theorem set_active_keeps_sessions (sessions : List ChatSession) (recipient r : String) :
    chat_session_exists (chat_session_set_active sessions recipient) r =
      chat_session_exists sessions r := by
  induction sessions with
  | nil => rfl
  | cons c cs ih =>
    simp only [chat_session_exists, chat_session_set_active, List.map_cons, List.any_cons]
      at ih ⊢
    rw [ih]
    by_cases hc : c.recipient == recipient <;> simp [hc]

/-- Marking a session as sent keeps every session in place and creates none. -/
theorem set_sent_keeps_sessions (sessions : List ChatSession) (recipient r : String) :
    chat_session_exists (chat_session_set_sent sessions recipient) r =
      chat_session_exists sessions r := by
  induction sessions with
  | nil => rfl
  | cons c cs ih =>
    simp only [chat_session_exists, chat_session_set_sent, List.map_cons, List.any_cons]
      at ih ⊢
    rw [ih]
    by_cases hc : c.recipient == recipient <;> simp [hc]

/-- After `chat_session_start` the recipient has a session. -/
theorem start_creates_session (sessions : List ChatSession) (recipient : String)
    (supports : Bool) :
    chat_session_exists (chat_session_start sessions recipient supports) recipient = true := by
  simp [chat_session_exists, chat_session_start]

/-- What `jabber_send` does in a session that has a connection: one send, made from the
globals it leaves behind; a chat-state element only with chat states enabled; with chat
states enabled the recipient has a session at the moment of sending, and with chat states
disabled the globals are untouched. -/
theorem jabber_send_sends (prefs : Prefs) (msg recipient : String) (s : Session)
    (c : xmpp_conn_t) (hc : s.mem.jabber_conn.conn = some c) :
    ∃ s' st, jabber_send prefs msg recipient s = .ok s' ∧
      s'.trace = s.trace ++ [(s'.mem, .xmpp_send st)] ∧
      (stanza_contains_chat_state st = true → prefs.states = true) ∧
      (prefs.states = true → chat_session_exists s'.mem.chat_sessions recipient = true) ∧
      (prefs.states = false → s'.mem = s.mem) := by
  have hplain : stanza_contains_chat_state (stanza_create_message recipient "chat" msg none)
      = false := rfl
  by_cases hst : prefs.states = true
  · by_cases hex : chat_session_exists s.mem.chat_sessions recipient = true
    · by_cases hsup : chat_session_get_recipient_supports s.mem.chat_sessions recipient = true
      · refine ⟨emit (.xmpp_send (stanza_create_message recipient "chat" msg (some "active")))
            ({ s with mem := { s.mem with chat_sessions :=
              (chat_session_set_active s.mem.chat_sessions recipient) } }),
          stanza_create_message recipient "chat" msg (some "active"), ?_, rfl,
          fun _ => hst, fun _ => ?_, fun h => ?_⟩
        · simp [jabber_send, hst, hex, hsup, hc, emit]
        · show chat_session_exists (chat_session_set_active s.mem.chat_sessions recipient)
            recipient = true
          rw [set_active_keeps_sessions]
          exact hex
        · rw [hst] at h; exact absurd h (by decide)
      · refine ⟨emit (.xmpp_send (stanza_create_message recipient "chat" msg none)) s,
          stanza_create_message recipient "chat" msg none, ?_, rfl,
          fun _ => hst, fun _ => hex, fun h => ?_⟩
        · simp [jabber_send, hst, hex, hsup, hc, emit]
        · rw [hst] at h; exact absurd h (by decide)
    · by_cases hsup : chat_session_get_recipient_supports
          (chat_session_start s.mem.chat_sessions recipient true) recipient = true
      · refine ⟨emit (.xmpp_send (stanza_create_message recipient "chat" msg (some "active")))
            ({ s with mem := { s.mem with chat_sessions := (chat_session_set_active
              (chat_session_start s.mem.chat_sessions recipient true) recipient) } }),
          stanza_create_message recipient "chat" msg (some "active"), ?_, rfl,
          fun _ => hst, fun _ => ?_, fun h => ?_⟩
        · simp [jabber_send, hst, hex, hsup, hc, emit]
        · show chat_session_exists (chat_session_set_active
            (chat_session_start s.mem.chat_sessions recipient true) recipient) recipient = true
          rw [set_active_keeps_sessions]
          exact start_creates_session _ _ _
        · rw [hst] at h; exact absurd h (by decide)
      · refine ⟨emit (.xmpp_send (stanza_create_message recipient "chat" msg none))
            ({ s with mem := { s.mem with chat_sessions :=
              (chat_session_start s.mem.chat_sessions recipient true) } }),
          stanza_create_message recipient "chat" msg none, ?_, rfl,
          fun _ => hst, fun _ => start_creates_session _ _ _, fun h => ?_⟩
        · simp [jabber_send, hst, hex, hsup, hc, emit]
        · rw [hst] at h; exact absurd h (by decide)
  · refine ⟨emit (.xmpp_send (stanza_create_message recipient "chat" msg none)) s,
      stanza_create_message recipient "chat" msg none, ?_, rfl,
      fun h => ?_, fun h => absurd h hst, fun _ => rfl⟩
    · simp [jabber_send, hst, hc, emit]
    · rw [hplain] at h
      exact absurd h (by decide)

/-- What `jabber_send_composing`, `jabber_send_paused`, `jabber_send_inactive` and
`jabber_send_gone` do in a session that has a connection: one send of the chat-state stanza,
made from the globals as they were on entry; no chat session is created or removed. -/
theorem send_chat_state_sends (state recipient : String) (s : Session)
    (c : xmpp_conn_t) (hc : s.mem.jabber_conn.conn = some c) :
    ∃ s', send_chat_state state recipient s = .ok s' ∧
      s'.trace = s.trace ++ [(s.mem, .xmpp_send (stanza_create_chat_state recipient state))] ∧
      ∀ r, chat_session_exists s'.mem.chat_sessions r =
        chat_session_exists s.mem.chat_sessions r := by
  refine ⟨({ emit (.xmpp_send (stanza_create_chat_state recipient state)) s with
      mem := { s.mem with chat_sessions :=
        (chat_session_set_sent s.mem.chat_sessions recipient) } }),
    by simp [send_chat_state, hc, emit], rfl, fun r => ?_⟩
  exact set_sent_keeps_sessions _ _ _

/-- Without context and connection `jabber_send` sends nothing: the message builder reads
through the null context. -/
theorem jabber_send_without_connection (prefs : Prefs) (msg recipient : String) (s : Session)
    (hc : s.mem.jabber_conn.conn = none) :
    jabber_send prefs msg recipient s =
      .error (.null_read "stanza_create_message(jabber_conn.ctx, ..)") := by
  by_cases hst : prefs.states = true
  · by_cases hex : chat_session_exists s.mem.chat_sessions recipient = true
    · by_cases hsup : chat_session_get_recipient_supports s.mem.chat_sessions recipient = true
      · simp [jabber_send, hst, hex, hsup, hc]
      · simp [jabber_send, hst, hex, hsup, hc]
    · by_cases hsup : chat_session_get_recipient_supports
          (chat_session_start s.mem.chat_sessions recipient true) recipient = true
      · simp [jabber_send, hst, hex, hsup, hc]
      · simp [jabber_send, hst, hex, hsup, hc]
  · simp [jabber_send, hst, hc]

/-- C10, refuted as stated: in the connected session `logged_in` there is no chat session for
`bob@host`, yet `jabber_send_composing` sends him a stanza that carries a chat-state
element, from the state as it was on entry; there is still no session afterwards. -/
theorem chat_state_sent_without_session :
    logged_in.mem.jabber_conn.conn_status = JABBER_CONNECTED ∧
    logged_in.mem.jabber_conn.conn =
      some { jid := some "me@host", pass := some "pw", tls_disabled := false } ∧
    chat_session_exists logged_in.mem.chat_sessions "bob@host" = false ∧
    (∃ s', jabber_send_composing "bob@host" logged_in = .ok s' ∧
      s'.trace = logged_in.trace ++
        [(logged_in.mem, .xmpp_send (stanza_create_chat_state "bob@host" "composing"))] ∧
      chat_session_exists s'.mem.chat_sessions "bob@host" = false) ∧
    stanza_contains_chat_state (stanza_create_chat_state "bob@host" "composing") = true :=
  ⟨by decide, by decide, by decide, ⟨_, rfl, rfl, by decide⟩, by decide⟩

/-- C10, amended.  In a session that has a connection, `jabber_send` makes exactly one send;
the stanza carries a chat-state element only if chat states are enabled and a chat session
for the recipient exists at the moment of sending; with chat states enabled such a session
exists at the moment of sending whether or not there was one on entry (the session is
created first when there is none), and with chat states disabled nothing but the send
happens.  `jabber_send_composing`, `jabber_send_paused`, `jabber_send_inactive` and
`jabber_send_gone` each make exactly one send of a stanza that carries a chat-state element,
from the state as it was on entry: whether a chat session for the recipient exists is not
looked at, and none is created.  In a session without context and connection none of the
five sends anything: the stanza builder reads through the null context. -/
theorem chat_state_sends (prefs : Prefs) (msg recipient : String) (s : Session) :
    (∀ c, s.mem.jabber_conn.conn = some c →
      (∃ s' st, jabber_send prefs msg recipient s = .ok s' ∧
        s'.trace = s.trace ++ [(s'.mem, .xmpp_send st)] ∧
        (stanza_contains_chat_state st = true →
          prefs.states = true ∧ chat_session_exists s'.mem.chat_sessions recipient = true) ∧
        (prefs.states = true → chat_session_exists s'.mem.chat_sessions recipient = true) ∧
        (prefs.states = false → s'.mem = s.mem)) ∧
      (∃ s', jabber_send_composing recipient s = .ok s' ∧
        s'.trace =
          s.trace ++ [(s.mem, .xmpp_send (stanza_create_chat_state recipient "composing"))] ∧
        stanza_contains_chat_state (stanza_create_chat_state recipient "composing") = true ∧
        ∀ r, chat_session_exists s'.mem.chat_sessions r =
          chat_session_exists s.mem.chat_sessions r) ∧
      (∃ s', jabber_send_paused recipient s = .ok s' ∧
        s'.trace =
          s.trace ++ [(s.mem, .xmpp_send (stanza_create_chat_state recipient "paused"))] ∧
        stanza_contains_chat_state (stanza_create_chat_state recipient "paused") = true ∧
        ∀ r, chat_session_exists s'.mem.chat_sessions r =
          chat_session_exists s.mem.chat_sessions r) ∧
      (∃ s', jabber_send_inactive recipient s = .ok s' ∧
        s'.trace =
          s.trace ++ [(s.mem, .xmpp_send (stanza_create_chat_state recipient "inactive"))] ∧
        stanza_contains_chat_state (stanza_create_chat_state recipient "inactive") = true ∧
        ∀ r, chat_session_exists s'.mem.chat_sessions r =
          chat_session_exists s.mem.chat_sessions r) ∧
      (∃ s', jabber_send_gone recipient s = .ok s' ∧
        s'.trace =
          s.trace ++ [(s.mem, .xmpp_send (stanza_create_chat_state recipient "gone"))] ∧
        stanza_contains_chat_state (stanza_create_chat_state recipient "gone") = true ∧
        ∀ r, chat_session_exists s'.mem.chat_sessions r =
          chat_session_exists s.mem.chat_sessions r)) ∧
    (s.mem.jabber_conn.conn = none →
      jabber_send prefs msg recipient s =
        .error (.null_read "stanza_create_message(jabber_conn.ctx, ..)") ∧
      jabber_send_composing recipient s =
        .error (.null_read "stanza_create_chat_state(jabber_conn.ctx, ..)") ∧
      jabber_send_paused recipient s =
        .error (.null_read "stanza_create_chat_state(jabber_conn.ctx, ..)") ∧
      jabber_send_inactive recipient s =
        .error (.null_read "stanza_create_chat_state(jabber_conn.ctx, ..)") ∧
      jabber_send_gone recipient s =
        .error (.null_read "stanza_create_chat_state(jabber_conn.ctx, ..)")) := by
  refine ⟨fun c hc => ⟨?_, ?_, ?_, ?_, ?_⟩, fun hc => ⟨?_, ?_, ?_, ?_, ?_⟩⟩
  · obtain ⟨s', st, h1, h2, h3, h4, h5⟩ := jabber_send_sends prefs msg recipient s c hc
    exact ⟨s', st, h1, h2, fun h => ⟨h3 h, h4 (h3 h)⟩, h4, h5⟩
  · obtain ⟨s', h1, h2, h3⟩ := send_chat_state_sends "composing" recipient s c hc
    exact ⟨s', h1, h2, rfl, h3⟩
  · obtain ⟨s', h1, h2, h3⟩ := send_chat_state_sends "paused" recipient s c hc
    exact ⟨s', h1, h2, rfl, h3⟩
  · obtain ⟨s', h1, h2, h3⟩ := send_chat_state_sends "inactive" recipient s c hc
    exact ⟨s', h1, h2, rfl, h3⟩
  · obtain ⟨s', h1, h2, h3⟩ := send_chat_state_sends "gone" recipient s c hc
    exact ⟨s', h1, h2, rfl, h3⟩
  · exact jabber_send_without_connection prefs msg recipient s hc
  · simp only [jabber_send_composing, send_chat_state, hc]
  · simp only [jabber_send_paused, send_chat_state, hc]
  · simp only [jabber_send_inactive, send_chat_state, hc]
  · simp only [jabber_send_gone, send_chat_state, hc]

/-- C10, amended, at concrete inputs: in the connected session `logged_in`, where `bob@host`
has no chat session, `jabber_send` with chat states enabled sends him a message from a state
in which he has one, and `jabber_send_gone` sends its chat-state stanza and leaves him
without a session; in the session `started`, which has no connection, `jabber_send` stops
at the message builder. -/
theorem chat_state_sends_witness :
    chat_session_exists logged_in.mem.chat_sessions "bob@host" = false ∧
    (∃ s' st, jabber_send prefs_reconnect_5 "hello" "bob@host" logged_in = .ok s' ∧
      s'.trace = logged_in.trace ++ [(s'.mem, .xmpp_send st)] ∧
      (stanza_contains_chat_state st = true →
        prefs_reconnect_5.states = true ∧
          chat_session_exists s'.mem.chat_sessions "bob@host" = true) ∧
      (prefs_reconnect_5.states = true →
        chat_session_exists s'.mem.chat_sessions "bob@host" = true) ∧
      (prefs_reconnect_5.states = false → s'.mem = logged_in.mem)) ∧
    (∃ s', jabber_send_gone "bob@host" logged_in = .ok s' ∧
      s'.trace = logged_in.trace ++
        [(logged_in.mem, .xmpp_send (stanza_create_chat_state "bob@host" "gone"))] ∧
      stanza_contains_chat_state (stanza_create_chat_state "bob@host" "gone") = true ∧
      ∀ r, chat_session_exists s'.mem.chat_sessions r =
        chat_session_exists logged_in.mem.chat_sessions r) ∧
    jabber_send prefs_reconnect_5 "hello" "bob@host" started =
      .error (.null_read "stanza_create_message(jabber_conn.ctx, ..)") :=
  ⟨by decide,
   ((chat_state_sends prefs_reconnect_5 "hello" "bob@host" logged_in).1
      { jid := some "me@host", pass := some "pw", tls_disabled := false } (by decide)).1,
   ((chat_state_sends prefs_reconnect_5 "hello" "bob@host" logged_in).1
      { jid := some "me@host", pass := some "pw", tls_disabled := false } (by decide)).2.2.2.2,
   ((chat_state_sends prefs_reconnect_5 "hello" "bob@host" started).2 (by decide)).1⟩

/-- Connect-success in general (what holds around C3): the handler always completes and
ends in state Connected with presence Online; the reconnect timer is gone afterwards when
the reconnect interval is non-zero, and is left as it was when the interval is zero. -/
theorem connect_success_outcome (prefs : Prefs) (now : Nat) (s : Session) :
    completed (_connection_handler prefs now XMPP_CONN_CONNECT s) = true ∧
    (final (_connection_handler prefs now XMPP_CONN_CONNECT s)).mem.jabber_conn.conn_status
      = JABBER_CONNECTED ∧
    (final (_connection_handler prefs now XMPP_CONN_CONNECT s)).mem.jabber_conn.presence
      = PRESENCE_ONLINE ∧
    (final (_connection_handler prefs now XMPP_CONN_CONNECT s)).mem.reconnect_timer
      = (if prefs.reconnect ≠ 0 then none else s.mem.reconnect_timer) := by
  cases ha : s.mem.saved_user.account <;> by_cases hp : prefs.autoping = 0 <;>
    by_cases hr : prefs.reconnect = 0 <;> cases ht : s.mem.reconnect_timer <;>
    simp [_connection_handler, completed, final, emit, _jabber_roster_request,
      chat_sessions_init, hp, hr, ht, ha]

/-- Disconnect in general (what holds around C4 and C7): the handler stops at its assertion
exactly when the state is Connected, the reconnect interval is non-zero and a reconnect
timer is alive; in every other case it completes, and then the state is Disconnected and
the presence Offline. -/
theorem disconnect_event_outcome (prefs : Prefs) (now : Nat) (s : Session) :
    (assertion_failed (_connection_handler prefs now XMPP_CONN_DISCONNECT s) = true ↔
      (s.mem.jabber_conn.conn_status = JABBER_CONNECTED ∧ prefs.reconnect ≠ 0 ∧
        s.mem.reconnect_timer ≠ none)) ∧
    (completed (_connection_handler prefs now XMPP_CONN_DISCONNECT s) = true ↔
      ¬ (s.mem.jabber_conn.conn_status = JABBER_CONNECTED ∧ prefs.reconnect ≠ 0 ∧
        s.mem.reconnect_timer ≠ none)) ∧
    (completed (_connection_handler prefs now XMPP_CONN_DISCONNECT s) = true →
      (final (_connection_handler prefs now XMPP_CONN_DISCONNECT s)).mem.jabber_conn.conn_status
        = JABBER_DISCONNECTED ∧
      (final (_connection_handler prefs now XMPP_CONN_DISCONNECT s)).mem.jabber_conn.presence
        = PRESENCE_OFFLINE) := by
  by_cases hc : s.mem.jabber_conn.conn_status = JABBER_CONNECTED <;>
    by_cases hd : s.mem.jabber_conn.conn_status = JABBER_DISCONNECTING <;>
    by_cases hr : prefs.reconnect = 0 <;> cases ht : s.mem.reconnect_timer <;>
    cases hs : s.mem.sub_requests <;>
    simp [_connection_handler, completed, assertion_failed, final, emit,
      jabber_free_resources, hc, hd, hr, ht, hs]

/-- Lost connection when the assertion holds (what holds around C5): in state Connected,
with no reconnect timer alive whenever the reconnect interval is non-zero, the disconnect
event completes and raises the lost-connection notification once; with a non-zero interval
a reconnect timer is started at the current clock and the saved credentials are unchanged;
with a zero interval the saved credentials are null, the chat sessions cleared, the
subscription requests emptied, the connection released, and the timer is as before. -/
theorem lost_connection_outcome (prefs : Prefs) (now : Nat) (s : Session)
    (hc : s.mem.jabber_conn.conn_status = JABBER_CONNECTED)
    (ha : prefs.reconnect ≠ 0 → s.mem.reconnect_timer = none) :
    completed (_connection_handler prefs now XMPP_CONN_DISCONNECT s) = true ∧
    (prefs.reconnect ≠ 0 →
      calls_since s (final (_connection_handler prefs now XMPP_CONN_DISCONNECT s))
        = ["prof_handle_lost_connection", "g_timer_new"] ∧
      (final (_connection_handler prefs now XMPP_CONN_DISCONNECT s)).mem.reconnect_timer
        = some { start := now } ∧
      (final (_connection_handler prefs now XMPP_CONN_DISCONNECT s)).mem.saved_user
        = s.mem.saved_user) ∧
    (prefs.reconnect = 0 →
      calls_since s (final (_connection_handler prefs now XMPP_CONN_DISCONNECT s))
        = ["prof_handle_lost_connection", "xmpp_conn_release", "xmpp_ctx_free",
           "xmpp_shutdown"] ∧
      (final (_connection_handler prefs now XMPP_CONN_DISCONNECT s)).mem.saved_user
        = { account := none, jid := none, passwd := none, altdomain := none } ∧
      (final (_connection_handler prefs now XMPP_CONN_DISCONNECT s)).mem.chat_sessions = [] ∧
      (final (_connection_handler prefs now XMPP_CONN_DISCONNECT s)).mem.sub_requests
        = s.mem.sub_requests.map (fun _ => []) ∧
      (final (_connection_handler prefs now XMPP_CONN_DISCONNECT s)).mem.reconnect_timer
        = s.mem.reconnect_timer) := by
  by_cases hr : prefs.reconnect = 0
  · cases hs : s.mem.sub_requests <;>
      simp [_connection_handler, completed, final, calls_since, emit, jabber_free_resources,
        FREE_SET_NULL, chat_sessions_clear, Effect.call, hc, hr, hs]
  · have ht := ha hr
    simp [_connection_handler, completed, final, calls_since, emit, Effect.call, hc, hr, ht]

/-- Lost connection at a concrete input: the first drop of the connected session
`logged_in`, at clock 10 with a reconnect interval of 5 seconds. -/
theorem lost_connection_outcome_witness :
    completed (_connection_handler prefs_reconnect_5 10 XMPP_CONN_DISCONNECT logged_in)
      = true ∧
    calls_since logged_in
      (final (_connection_handler prefs_reconnect_5 10 XMPP_CONN_DISCONNECT logged_in))
        = ["prof_handle_lost_connection", "g_timer_new"] ∧
    (final (_connection_handler prefs_reconnect_5 10 XMPP_CONN_DISCONNECT
      logged_in)).mem.reconnect_timer = some { start := 10 } ∧
    (final (_connection_handler prefs_reconnect_5 10 XMPP_CONN_DISCONNECT
      logged_in)).mem.saved_user = logged_in.mem.saved_user :=
  have h := lost_connection_outcome prefs_reconnect_5 10 logged_in (by decide)
    (fun _ => by decide)
  ⟨h.1, h.2.1 (by decide)⟩

/-- Splitting always yields a first piece: the characters before the first delimiter. -/
theorem split_at_head (d : Char) (cs : List Char) :
    ∃ ts, split_at d cs = cs.takeWhile (fun c => !(c == d)) :: ts := by
  induction cs with
  | nil => exact ⟨[], rfl⟩
  | cons c cs ih =>
    obtain ⟨ts, h⟩ := ih
    by_cases hc : c = d
    · exact ⟨split_at d cs, by simp [split_at, hc]⟩
    · exact ⟨ts, by simp [split_at, hc, h]⟩

/-- Without a delimiter there is one piece. -/
theorem split_at_no_delim (d : Char) (cs : List Char) (h : d ∉ cs) :
    split_at d cs = [cs] := by
  induction cs with
  | nil => rfl
  | cons c cs ih =>
    have hc : c ≠ d := fun e => h (by simp [e])
    have hd : d ∉ cs := fun e => h (by simp [e])
    simp [split_at, hc, ih hd]

/-- The first delimiter ends the first piece. -/
theorem split_at_append (d : Char) (a b : List Char) (h : d ∉ a) :
    split_at d (a ++ d :: b) = a :: split_at d b := by
  induction a with
  | nil => simp [split_at]
  | cons c cs ih =>
    have hc : c ≠ d := fun e => h (by simp [e])
    have hd : d ∉ cs := fun e => h (by simp [e])
    simp [split_at, hc, ih hd]

/-- A list with a delimiter is what precedes the first one, the delimiter, and a rest. -/
theorem cut_at_first (d : Char) (cs : List Char) (h : d ∈ cs) :
    ∃ b, cs = cs.takeWhile (fun c => !(c == d)) ++ d :: b ∧
      (cs.dropWhile (fun c => !(c == d))).drop 1 = b ∧
      d ∉ cs.takeWhile (fun c => !(c == d)) := by
  induction cs with
  | nil => simp at h
  | cons c cs ih =>
    by_cases hc : c = d
    · exact ⟨cs, by simp [hc]⟩
    · have hd : d ∈ cs := by
        rcases List.mem_cons.1 h with e | e
        · exact absurd e.symm hc
        · exact e
      obtain ⟨b, h1, h2, h3⟩ := ih hd
      refine ⟨b, ?_, ?_, ?_⟩
      · simp [hc]
        exact h1
      · simp [hc, h2]
      · simp [hc]
        exact ⟨fun e' => hc e'.symm, by simpa using h3⟩

/-- C14, refuted as stated: for the composition of room `room@conf` and nick `a/b` the parse
succeeds with nick `a`, not `a/b`. -/
theorem room_parse_room_jid_cuts_nick :
    room_parse_room_jid ("room@conf" ++ "/" ++ "a/b") = some ("room@conf", "a") ∧
    room_parse_room_jid ("room@conf" ++ "/" ++ "a/b") ≠ some ("room@conf", "a/b") := by
  decide

/-- C14, amended: `room_parse_room_jid` fails exactly when the input contains no '/';
otherwise it succeeds with room equal to the text before the first '/' and nick equal to
the text between the first '/' and the next one (all the text after the first '/' when
there is no other).  Parsing room + "/" + nick, for a room without '/', returns the room
and the nick cut at its first '/': the nick itself when it contains none. -/
theorem room_parse_room_jid_spec (s room nick : String) :
    (room_parse_room_jid s = none ↔ '/' ∉ s.data) ∧
    ('/' ∈ s.data →
      room_parse_room_jid s =
        some (String.mk (s.data.takeWhile (fun c => !(c == '/'))),
          String.mk (((s.data.dropWhile (fun c => !(c == '/'))).drop 1).takeWhile
            (fun c => !(c == '/'))))) ∧
    ('/' ∉ room.data →
      room_parse_room_jid (room ++ "/" ++ nick) =
        some (room, String.mk (nick.data.takeWhile (fun c => !(c == '/'))))) ∧
    ('/' ∉ room.data → '/' ∉ nick.data →
      room_parse_room_jid (room ++ "/" ++ nick) = some (room, nick)) := by
  have hcomp : ∀ a b : List Char, '/' ∉ a →
      room_parse_room_jid (String.mk (a ++ '/' :: b)) =
        some (String.mk a, String.mk (b.takeWhile (fun c => !(c == '/')))) := by
    intro a b ha
    obtain ⟨ts, hts⟩ := split_at_head '/' b
    simp [room_parse_room_jid, g_strsplit, split_at_append '/' a b ha, hts]
  have hsome : '/' ∈ s.data →
      room_parse_room_jid s =
        some (String.mk (s.data.takeWhile (fun c => !(c == '/'))),
          String.mk (((s.data.dropWhile (fun c => !(c == '/'))).drop 1).takeWhile
            (fun c => !(c == '/')))) := by
    intro h
    obtain ⟨b, h1, h2, h3⟩ := cut_at_first '/' s.data h
    have hs : s = String.mk (s.data.takeWhile (fun c => !(c == '/')) ++ '/' :: b) := by
      rw [← h1]
    rw [h2]
    conv_lhs => rw [hs]
    exact hcomp _ _ h3
  have hroom : '/' ∉ room.data →
      room_parse_room_jid (room ++ "/" ++ nick) =
        some (room, String.mk (nick.data.takeWhile (fun c => !(c == '/')))) := by
    intro h
    have e : room ++ "/" ++ nick = String.mk (room.data ++ '/' :: nick.data) := by
      apply String.ext
      simp [String.data_append]
    rw [e]
    exact hcomp _ _ h
  refine ⟨⟨fun hn hm => ?_, fun hn => ?_⟩, hsome, hroom, fun h1 h2 => ?_⟩
  · rw [hsome hm] at hn
    exact absurd hn (by simp)
  · by_cases he : s.data = []
    · simp [room_parse_room_jid, g_strsplit, he]
    · simp [room_parse_room_jid, g_strsplit, he, split_at_no_delim '/' s.data hn]
  · rw [hroom h1]
    have : nick.data.takeWhile (fun c => !(c == '/')) = nick.data := by
      apply List.takeWhile_eq_self_iff.2
      intro c hc
      have : c ≠ '/' := fun e => h2 (e ▸ hc)
      simp [this]
    rw [this]

/-- C14, amended, at a concrete input: room `room@conf`, nick `nick`. -/
theorem room_parse_room_jid_spec_witness :
    room_parse_room_jid ("room@conf" ++ "/" ++ "nick") = some ("room@conf", "nick") :=
  (room_parse_room_jid_spec "room@conf/nick" "room@conf" "nick").2.2.2
    (by decide) (by decide)

/-- A key just inserted is found with its value. -/
theorem lookup_insert_same {α : Type} (t : List (String × α)) (k : String) (v : α) :
    g_hash_table_lookup (g_hash_table_insert t k v) k = some v := by
  unfold g_hash_table_insert
  by_cases h : t.any (fun e => e.1 == k) = true
  · rw [if_pos h]
    induction t with
    | nil => simp at h
    | cons e es ih =>
      by_cases he : e.1 = k
      · simp [g_hash_table_lookup, he]
      · have h' : es.any (fun e => e.1 == k) = true := by
          simpa [he] using h
        have := ih h'
        simp only [g_hash_table_lookup, List.map_cons] at this ⊢
        simp only [he, beq_iff_eq, ite_false, List.find?_cons_of_neg, not_false_eq_true]
        simpa [he] using this
  · rw [if_neg h]
    have hn : ∀ e ∈ t, ¬ (e.1 == k) = true := by
      intro e he hk
      exact h (List.any_eq_true.2 ⟨e, he, hk⟩)
    unfold g_hash_table_lookup
    rw [List.find?_append, List.find?_eq_none.2 hn]
    simp

/-- Inserting a key leaves the other keys as they were. -/
theorem lookup_insert_other {α : Type} (t : List (String × α)) (k k' : String) (v : α)
    (hk : k' ≠ k) :
    g_hash_table_lookup (g_hash_table_insert t k v) k' = g_hash_table_lookup t k' := by
  unfold g_hash_table_insert
  by_cases h : t.any (fun e => e.1 == k) = true
  · rw [if_pos h]
    clear h
    induction t with
    | nil => rfl
    | cons e es ih =>
      simp only [g_hash_table_lookup, List.map_cons] at ih ⊢
      by_cases he : e.1 = k
      · have he' : ¬ e.1 = k' := fun e' => hk (e'.symm.trans he)
        simp only [he, beq_self_eq_true, ite_true]
        rw [List.find?_cons_of_neg _ (by simpa using hk.symm),
          List.find?_cons_of_neg _ (by simpa using he')]
        exact ih
      · simp only [he, beq_iff_eq, ite_false]
        by_cases he' : e.1 = k'
        · simp [he']
        · rw [List.find?_cons_of_neg _ (by simpa using he'),
            List.find?_cons_of_neg _ (by simpa using he')]
          simpa using ih
  · rw [if_neg h]
    unfold g_hash_table_lookup
    rw [List.find?_append]
    have hb : (k == k') = false := by simpa using hk.symm
    have : List.find? (fun e => e.1 == k') [(k, v)] = none := by
      simp [List.find?, hb]
    rw [this]
    simp

/-- Replacing the value of a key in place: that key gets the new value if it was present,
the other keys keep theirs. -/
theorem lookup_map_update {α : Type} (t : List (String × α)) (k k' : String) (v : α) :
    g_hash_table_lookup (t.map (fun e => if e.1 == k then (e.1, v) else e)) k' =
      if k' = k then (g_hash_table_lookup t k).map (fun _ => v)
      else g_hash_table_lookup t k' := by
  induction t with
  | nil => simp [g_hash_table_lookup]
  | cons e es ih =>
    unfold g_hash_table_lookup at ih ⊢
    by_cases hk : k' = k <;> by_cases he : e.1 = k <;> by_cases he' : e.1 = k' <;>
      simp_all [List.find?_cons]

/-- Nothing is found in an empty table. -/
theorem lookup_nil {α : Type} (k : String) :
    g_hash_table_lookup ([] : List (String × α)) k = none := rfl

/-- C15, refuted as stated: after joining room `r` and adding the nick `bob` twice, the
roster of `r` holds `bob` twice. -/
theorem room_roster_repeats_nick :
    room_get_roster "r"
      (room_run [.join "r" "me", .add_to_roster "r" "bob", .add_to_roster "r" "bob"] none)
      = some ["bob", "bob"] ∧
    ¬ (["bob", "bob"] : List String).Nodup := by
  decide

/-- C15, amended: `room_add_to_roster` appends the nick at the end of the roster of a
registered room on every call, whether or not the nick is already there; the rosters of the
other rooms are unchanged, and for a room that is not registered nothing changes.  A room
starts with an empty roster when it is joined. -/
theorem room_add_to_roster_appends (jid nick : String) (rooms : room_table) :
    (∀ roster, room_get_roster jid rooms = some roster →
      room_get_roster jid (room_add_to_roster jid nick rooms) = some (roster ++ [nick])) ∧
    (room_get_roster jid rooms = none → room_add_to_roster jid nick rooms = rooms) ∧
    (∀ other, other ≠ jid →
      room_get_roster other (room_add_to_roster jid nick rooms) = room_get_roster other rooms) ∧
    room_get_roster jid (room_join jid nick rooms) = some [] := by
  refine ⟨?_, ?_, ?_, ?_⟩
  · intro roster h
    cases rooms with
    | none => simp [room_get_roster] at h
    | some t =>
      cases hl : g_hash_table_lookup t jid with
      | none => simp [room_get_roster, hl] at h
      | some room =>
        simp only [room_get_roster, hl, Option.some.injEq] at h
        simp only [room_add_to_roster, hl, room_get_roster]
        rw [lookup_map_update]
        simp [hl, h]
  · intro h
    cases rooms with
    | none => rfl
    | some t =>
      cases hl : g_hash_table_lookup t jid with
      | none => simp [room_add_to_roster, hl]
      | some room => simp [room_get_roster, hl] at h
  · intro other ho
    cases rooms with
    | none => rfl
    | some t =>
      cases hl : g_hash_table_lookup t jid with
      | none => simp [room_add_to_roster, hl]
      | some room =>
        simp only [room_add_to_roster, hl, room_get_roster]
        rw [lookup_map_update]
        simp [ho]
  · cases rooms <;> simp [room_join, room_get_roster, lookup_insert_same]

/-- C15, amended, at a concrete input: the nick `bob` added again to a roster that holds
it. -/
theorem room_add_to_roster_appends_witness :
    room_get_roster "r"
      (room_add_to_roster "r" "bob" (room_run [.join "r" "me", .add_to_roster "r" "bob"] none))
      = some (["bob"] ++ ["bob"]) :=
  (room_add_to_roster_appends "r" "bob"
    (room_run [.join "r" "me", .add_to_roster "r" "bob"] none)).1 ["bob"] (by decide)

/-- C16, refuted as stated: after `room_join` with a jid that contains '/', `room_is_active`
of that jid is false, and after joining `room@conf` the never joined `room@conf/x` counts
as active. -/
theorem room_join_with_slash_not_active :
    room_is_active "room@conf/x" (room_join "room@conf/x" "me" none) = .ok false ∧
    room_get_nick_for_room "room@conf/x" (room_join "room@conf" "me" none) = none ∧
    room_is_active "room@conf/x" (room_join "room@conf" "me" none) = .ok true :=
  ⟨rfl, by decide, rfl⟩

/-- C16, amended: after `room_join(jid, nick)`, `room_get_nick_for_room(jid)` is the nick,
whether or not the room was registered before, and every other registered room keeps its
nick and roster; `room_is_active(jid)` is true when the jid is not empty and contains no
'/' (the lookup uses the part of the jid before the first '/'); with no room joined, no jid
is active or has a nick. -/
theorem room_join_spec (jid nick : String) (rooms : room_table) :
    room_get_nick_for_room jid (room_join jid nick rooms) = some nick ∧
    (jid.data ≠ [] → '/' ∉ jid.data →
      room_is_active jid (room_join jid nick rooms) = .ok true) ∧
    (∀ other, other ≠ jid →
      room_get_nick_for_room other (room_join jid nick rooms)
        = room_get_nick_for_room other rooms ∧
      room_get_roster other (room_join jid nick rooms) = room_get_roster other rooms) ∧
    (∀ other, other ≠ jid → other.data ≠ [] → '/' ∉ other.data →
      room_is_active other (room_join jid nick rooms) = room_is_active other rooms) ∧
    (∀ any, room_is_active any none = .ok false ∧ room_get_nick_for_room any none = none) := by
  have hsplit : ∀ j : String, j.data ≠ [] → '/' ∉ j.data → g_strsplit j '/' = [j] := by
    intro j h1 h2
    simp [g_strsplit, h1, split_at_no_delim '/' j.data h2]
  refine ⟨?_, ?_, ?_, ?_, ?_⟩
  · cases rooms <;> simp [room_join, room_get_nick_for_room, lookup_insert_same]
  · intro h1 h2
    cases rooms <;> simp [room_join, room_is_active, hsplit jid h1 h2, lookup_insert_same]
  · intro other ho
    cases rooms with
    | none =>
      simp [room_join, room_get_nick_for_room, room_get_roster,
        lookup_insert_other _ _ _ _ ho, lookup_nil]
    | some t =>
      simp [room_join, room_get_nick_for_room, room_get_roster,
        lookup_insert_other _ _ _ _ ho]
  · intro other ho h1 h2
    cases rooms with
    | none =>
      simp [room_join, room_is_active, hsplit other h1 h2,
        lookup_insert_other _ _ _ _ ho, lookup_nil]
    | some t =>
      simp [room_join, room_is_active, hsplit other h1 h2,
        lookup_insert_other _ _ _ _ ho]
  · intro any
    exact ⟨rfl, rfl⟩

/-- C16, amended, at a concrete input: joining `room@conf` again with another nick. -/
theorem room_join_spec_witness :
    room_get_nick_for_room "room@conf"
      (room_join "room@conf" "me2" (room_join "room@conf" "me" none)) = some "me2" ∧
    room_is_active "room@conf"
      (room_join "room@conf" "me2" (room_join "room@conf" "me" none)) = .ok true :=
  ⟨(room_join_spec "room@conf" "me2" (room_join "room@conf" "me" none)).1,
   (room_join_spec "room@conf" "me2" (room_join "room@conf" "me" none)).2.1
     (by decide) (by decide)⟩

/-- C13, refuted as stated: in the connected session that has joined `room@conf`, the room is
active and not pending a nick change; `jabber_change_room_nick` sends the presence addressed
to `room@conf/me2`, and the room is still not pending right after the call. -/
theorem change_room_nick_leaves_room_unmarked :
    in_room.mem.jabber_conn.conn_status = JABBER_CONNECTED ∧
    muc_room_is_active "room@conf" in_room.mem.muc_rooms = true ∧
    muc_is_room_pending_nick_change "room@conf" in_room.mem.muc_rooms = false ∧
    (∃ s', jabber_change_room_nick "room@conf" "me2" in_room = .ok s' ∧
      s'.trace = in_room.trace ++
        [(in_room.mem, .xmpp_send (stanza_create_room_newnick_presence "room@conf/me2"))] ∧
      muc_is_room_pending_nick_change "room@conf" s'.mem.muc_rooms = false) :=
  ⟨by decide, by decide, by decide, ⟨_, rfl, rfl, by decide⟩⟩

/-- C13, amended: in a session that has a connection, `jabber_change_room_nick(room, nick)`
sends one presence, addressed to room/nick, and changes no controller state: the MUC
registry, and with it the pending-nick-change flag of every room, is after the call what it
was before.  In a session without context and connection it sends nothing: the presence
builder reads through the null context. -/
theorem jabber_change_room_nick_spec (room nick : String) (s : Session) :
    (∀ c, s.mem.jabber_conn.conn = some c →
      ∃ s', jabber_change_room_nick room nick s = .ok s' ∧
        s'.mem = s.mem ∧
        s'.trace =
          s.trace ++ [(s.mem, .xmpp_send (stanza_create_room_newnick_presence
            (room ++ "/" ++ nick)))] ∧
        xmpp_stanza_get_attribute
          (stanza_create_room_newnick_presence (room ++ "/" ++ nick)) "to"
            = some (room ++ "/" ++ nick) ∧
        (∀ r, muc_is_room_pending_nick_change r s'.mem.muc_rooms
          = muc_is_room_pending_nick_change r s.mem.muc_rooms)) ∧
    (s.mem.jabber_conn.conn = none →
      jabber_change_room_nick room nick s =
        .error (.null_read "stanza_create_room_newnick_presence(jabber_conn.ctx, ..)")) := by
  refine ⟨fun c hc => ⟨emit (.xmpp_send (stanza_create_room_newnick_presence
      (room ++ "/" ++ nick))) s, ?_, rfl, rfl, ?_, fun _ => rfl⟩, fun hc => ?_⟩
  · simp only [jabber_change_room_nick, hc]
    rfl
  · simp [stanza_create_room_newnick_presence, xmpp_stanza_get_attribute]
  · simp only [jabber_change_room_nick, hc]

/-- C13, amended, at concrete inputs: in the connected session that has joined `room@conf`
the call sends the presence to `room@conf/me2` and leaves the registry alone; in the session
`started`, which has no connection, it stops at the presence builder. -/
theorem jabber_change_room_nick_spec_witness :
    (∃ s', jabber_change_room_nick "room@conf" "me2" in_room = .ok s' ∧
      s'.mem = in_room.mem ∧
      s'.trace =
        in_room.trace ++ [(in_room.mem, .xmpp_send (stanza_create_room_newnick_presence
          ("room@conf" ++ "/" ++ "me2")))] ∧
      xmpp_stanza_get_attribute
        (stanza_create_room_newnick_presence ("room@conf" ++ "/" ++ "me2")) "to"
          = some ("room@conf" ++ "/" ++ "me2") ∧
      (∀ r, muc_is_room_pending_nick_change r s'.mem.muc_rooms
        = muc_is_room_pending_nick_change r in_room.mem.muc_rooms)) ∧
    jabber_change_room_nick "room@conf" "me2" started =
      .error (.null_read "stanza_create_room_newnick_presence(jabber_conn.ctx, ..)") :=
  ⟨(jabber_change_room_nick_spec "room@conf" "me2" in_room).1
      { jid := some "me@host", pass := some "pw", tls_disabled := false } (by decide),
   (jabber_change_room_nick_spec "room@conf" "me2" started).2 (by decide)⟩

/-- A jid that starts with a character other than '/' has as its first `strtok` token the
text before its first '/'. -/
theorem strtok_bare (jid : String) (c : Char) (cs : List Char)
    (h : jid.data = c :: cs) (hc : c ≠ '/') :
    strtok jid '/' = some (String.mk (jid.data.takeWhile (fun c => !(c == '/')))) := by
  simp [strtok, h, hc]

/-- C17, refuted as stated, in the connected session `logged_in`: for the empty jid no
stanza is sent (the null bare jid is read through), and for a jid that begins with '/' the
presence is addressed to the text after that '/', not to the jid truncated at its first
'/'. -/
theorem jabber_subscription_odd_jids :
    logged_in.mem.jabber_conn.conn_status = JABBER_CONNECTED ∧
    jabber_subscription "" PRESENCE_SUBSCRIBE logged_in =
      .error (.null_read "g_hash_table_remove(sub_requests, bare_jid)") ∧
    (∃ s', jabber_subscription "/bob@host" PRESENCE_SUBSCRIBE logged_in = .ok s' ∧
      sent_since logged_in s' =
        [.tag "presence" [("type", "subscribe"), ("to", "bob@host")] []]) ∧
    String.mk ("/bob@host".data.takeWhile (fun c => !(c == '/'))) = "" :=
  ⟨by decide, rfl,
    ⟨emit (.xmpp_send (.tag "presence" [("type", "subscribe"), ("to", "bob@host")] []))
      logged_in, rfl, rfl⟩, by decide⟩

/-- C17, amended: for every jid that starts with a character other than '/' and each action
in {subscribe, subscribed, unsubscribed}, in a session that has a connection,
`jabber_subscription` completes and sends exactly one presence stanza whose type is the
string of that action and whose to attribute is the bare JID (jid truncated at its first
'/'); afterwards the pending subscription requests do not contain that bare JID and every
other entry is as before.  In a session without context and connection nothing is sent: the
allocation of the presence reads through the null context. -/
theorem jabber_subscription_spec (jid : String) (c : Char) (cs : List Char) (s : Session)
    (action : jabber_subscr_t) (ty : String)
    (h : jid.data = c :: cs) (hc : c ≠ '/')
    (ha : (action, ty) ∈ [(PRESENCE_SUBSCRIBE, "subscribe"),
      (PRESENCE_SUBSCRIBED, "subscribed"), (PRESENCE_UNSUBSCRIBED, "unsubscribed")]) :
    (∀ k, s.mem.jabber_conn.conn = some k →
      ∃ s', jabber_subscription jid action s = .ok s' ∧
        sent_since s s' =
          [.tag "presence" [("type", ty),
            ("to", String.mk (jid.data.takeWhile (fun c => !(c == '/'))))] []] ∧
        String.mk (jid.data.takeWhile (fun c => !(c == '/')))
          ∉ jabber_get_subscription_requests s' ∧
        (∀ x, x ≠ String.mk (jid.data.takeWhile (fun c => !(c == '/'))) →
          (x ∈ jabber_get_subscription_requests s' ↔
            x ∈ jabber_get_subscription_requests s)) ∧
        jabber_get_subscription_requests s' =
          (jabber_get_subscription_requests s).filter
            (fun r => !(r == String.mk (jid.data.takeWhile (fun c => !(c == '/')))))) ∧
    (s.mem.jabber_conn.conn = none →
      jabber_subscription jid action s =
        .error (.null_read "xmpp_stanza_new(jabber_conn.ctx)")) := by
  have hb := strtok_bare jid c cs h hc
  have hty : ∀ k : String, xmpp_stanza_set_attribute
      (xmpp_stanza_set_attribute (.tag "presence" [] []) "type" ty) "to" k =
      .tag "presence" [("type", ty), ("to", k)] [] := by
    intro k
    simp [xmpp_stanza_set_attribute]
  simp only [List.mem_cons, Prod.mk.injEq, List.mem_singleton, List.not_mem_nil, or_false] at ha
  refine ⟨fun k hk => ?_, fun hk => ?_⟩
  · cases hs : s.mem.sub_requests with
    | none =>
      rcases ha with ⟨rfl, rfl⟩ | ⟨rfl, rfl⟩ | ⟨rfl, rfl⟩ <;>
        simp [jabber_subscription, hb, hs, hk, hty, emit, sent_since, sent_stanzas,
          jabber_get_subscription_requests]
    | some reqs =>
      rcases ha with ⟨rfl, rfl⟩ | ⟨rfl, rfl⟩ | ⟨rfl, rfl⟩ <;>
        simp [jabber_subscription, hb, hs, hk, hty, emit, sent_since, sent_stanzas,
          jabber_get_subscription_requests] <;>
        intro x hx _ <;> exact hx
  · cases hs : s.mem.sub_requests with
    | none =>
      rcases ha with ⟨rfl, rfl⟩ | ⟨rfl, rfl⟩ | ⟨rfl, rfl⟩ <;>
        simp [jabber_subscription, hb, hs, hk]
    | some reqs =>
      rcases ha with ⟨rfl, rfl⟩ | ⟨rfl, rfl⟩ | ⟨rfl, rfl⟩ <;>
        simp [jabber_subscription, hb, hs, hk]

/-- C17, amended, at concrete inputs: in the connected session `with_requests`, accepting the
request of `bob@host`, given with a resource, while `you@host` is pending too, sends the
presence to `bob@host` and leaves `you@host` pending; in the session `started`, which has
no connection, the call stops at the allocation of the presence. -/
theorem jabber_subscription_spec_witness :
    with_requests.mem.jabber_conn.conn_status = JABBER_CONNECTED ∧
    jabber_get_subscription_requests with_requests = ["bob@host", "you@host"] ∧
    (∃ s', jabber_subscription "bob@host/res" PRESENCE_SUBSCRIBED with_requests = .ok s' ∧
      sent_since with_requests s' =
        [.tag "presence" [("type", "subscribed"),
          ("to", String.mk ("bob@host/res".data.takeWhile (fun c => !(c == '/'))))] []] ∧
      String.mk ("bob@host/res".data.takeWhile (fun c => !(c == '/')))
        ∉ jabber_get_subscription_requests s' ∧
      (∀ x, x ≠ String.mk ("bob@host/res".data.takeWhile (fun c => !(c == '/'))) →
        (x ∈ jabber_get_subscription_requests s' ↔
          x ∈ jabber_get_subscription_requests with_requests)) ∧
      jabber_get_subscription_requests s' =
        (jabber_get_subscription_requests with_requests).filter
          (fun r => !(r == String.mk ("bob@host/res".data.takeWhile (fun c => !(c == '/')))))) ∧
    jabber_subscription "bob@host/res" PRESENCE_SUBSCRIBED started =
      .error (.null_read "xmpp_stanza_new(jabber_conn.ctx)") :=
  ⟨by decide, by decide,
   (jabber_subscription_spec "bob@host/res" 'b' "ob@host/res".data with_requests
      PRESENCE_SUBSCRIBED "subscribed" rfl (by decide) (by decide)).1
      { jid := some "me@host", pass := some "pw", tls_disabled := false } (by decide),
   (jabber_subscription_spec "bob@host/res" 'b' "ob@host/res".data started
      PRESENCE_SUBSCRIBED "subscribed" rfl (by decide) (by decide)).2 (by decide)⟩

/-- Setting an attribute twice keeps the later value only. -/
theorem set_attribute_twice (p : xmpp_stanza_t) (k v v' : String) :
    xmpp_stanza_set_attribute (xmpp_stanza_set_attribute p k v) k v' =
      xmpp_stanza_set_attribute p k v' := by
  cases p with
  | text t => rfl
  | tag n attrs cs => simp [xmpp_stanza_set_attribute, List.filter_append]

/-- Setting an attribute leaves the children alone. -/
theorem set_attribute_children (p : xmpp_stanza_t) (k v : String) :
    xmpp_stanza_children (xmpp_stanza_set_attribute p k v) = xmpp_stanza_children p := by
  cases p <;> rfl

/-- The loop of `jabber_update_presence` over the rooms: one send per room, each of the
stanza readdressed to the room, with the globals untouched. -/
theorem room_presence_loop (p : xmpp_stanza_t) (rooms : List String) :
    ∀ (q : xmpp_stanza_t) (s : Session),
      (∀ v, xmpp_stanza_set_attribute q "to" v = xmpp_stanza_set_attribute p "to" v) →
      (rooms.foldl (fun (acc : xmpp_stanza_t × Session) room =>
        let nick := muc_get_room_nick room acc.2.mem.muc_rooms
        let full_room_jid := create_full_room_jid room nick
        let presence := xmpp_stanza_set_attribute acc.1 "to" full_room_jid
        (presence, emit (.xmpp_send presence) acc.2)) (q, s)).2 =
      { mem := s.mem
        trace := s.trace ++ rooms.map (fun room =>
          (s.mem, .xmpp_send (xmpp_stanza_set_attribute p "to"
            (create_full_room_jid room (muc_get_room_nick room s.mem.muc_rooms))))) } := by
  induction rooms with
  | nil => intro q s _; simp
  | cons r rs ih =>
    intro q s hq
    simp only [List.foldl_cons]
    rw [ih]
    · simp [emit, hq]
    · intro v
      rw [set_attribute_twice]
      exact hq v

/-- What `jabber_update_presence` does when Connected: the globals take the presence, the
status message and the clamped priority, and the history grows by the send of the built
presence followed by one send per active room of that presence readdressed to the room. -/
theorem update_presence_connected (prefs : Prefs) (status : jabber_presence_t)
    (msg : Option String) (idle : Int) (s : Session)
    (h : s.mem.jabber_conn.conn_status = JABBER_CONNECTED) :
    jabber_update_presence prefs status msg idle s =
      { mem := { s.mem with jabber_conn := { s.mem.jabber_conn with
            presence := status
            priority := (if prefs.priority < JABBER_PRIORITY_MIN ∨
              prefs.priority > JABBER_PRIORITY_MAX then 0 else prefs.priority)
            status := msg } }
        trace := s.trace ++
          ({ s.mem with jabber_conn := { s.mem.jabber_conn with
              presence := status
              priority := (if prefs.priority < JABBER_PRIORITY_MIN ∨
                prefs.priority > JABBER_PRIORITY_MAX then 0 else prefs.priority)
              status := msg } },
            .xmpp_send (outgoing_presence
              (if prefs.priority < JABBER_PRIORITY_MIN ∨
                prefs.priority > JABBER_PRIORITY_MAX then 0 else prefs.priority)
              status msg idle)) ::
          (muc_get_active_room_list s.mem.muc_rooms).map (fun room =>
            ({ s.mem with jabber_conn := { s.mem.jabber_conn with
                presence := status
                priority := (if prefs.priority < JABBER_PRIORITY_MIN ∨
                  prefs.priority > JABBER_PRIORITY_MAX then 0 else prefs.priority)
                status := msg } },
              .xmpp_send (xmpp_stanza_set_attribute
                (outgoing_presence
                  (if prefs.priority < JABBER_PRIORITY_MIN ∨
                    prefs.priority > JABBER_PRIORITY_MAX then 0 else prefs.priority)
                  status msg idle) "to"
                (create_full_room_jid room (muc_get_room_nick room s.mem.muc_rooms))))) } := by
  unfold jabber_update_presence
  simp only [h, ne_eq, not_true_eq_false, if_false]
  rw [room_presence_loop (outgoing_presence
      (if prefs.priority < JABBER_PRIORITY_MIN ∨
        prefs.priority > JABBER_PRIORITY_MAX then 0 else prefs.priority) status msg idle)]
  · simp [emit, outgoing_presence, xmpp_stanza_set_attribute, xmpp_stanza_add_child]
  · intro v
    simp [outgoing_presence, xmpp_stanza_set_attribute, xmpp_stanza_add_child]
/-- A priority in the valid range is printed in full by `snprintf` into ten bytes. -/
theorem snprintf_priority (v : Int) (h1 : -128 ≤ v) (h2 : v ≤ 127) :
    snprintf_d 10 v = toString v := by
  interval_cases v <;> rfl

/-- The stanzas sent by a run of sends of one stanza per list element. -/
theorem sent_stanzas_map {α : Type} (l : List α) (g : Globals) (f : α → xmpp_stanza_t) :
    sent_stanzas (l.map (fun a => (g, Effect.xmpp_send (f a)))) = l.map f := by
  induction l with
  | nil => rfl
  | cons a as ih =>
    simp only [sent_stanzas, List.map_cons, List.filterMap_cons] at ih ⊢
    rw [ih]

/-- The built presence is a presence tag without attributes. -/
theorem outgoing_presence_tag (pri : Int) (status : jabber_presence_t) (msg : Option String)
    (idle : Int) :
    ∃ cs, outgoing_presence pri status msg idle = .tag "presence" [] cs := by
  by_cases hp : pri = 0 <;> by_cases hi : idle > 0 <;>
    simp [outgoing_presence, stanza_create_presence, xmpp_stanza_add_child, hp, hi]

/-- The stanzas `jabber_update_presence` sends when Connected: the built presence, then one
copy per active room, readdressed to the room. -/
theorem sent_since_update_presence (prefs : Prefs) (status : jabber_presence_t)
    (msg : Option String) (idle : Int) (s : Session)
    (h : s.mem.jabber_conn.conn_status = JABBER_CONNECTED) :
    sent_since s (jabber_update_presence prefs status msg idle s) =
      outgoing_presence (clamped_priority prefs) status msg idle ::
        (muc_get_active_room_list s.mem.muc_rooms).map (fun room =>
          xmpp_stanza_set_attribute
            (outgoing_presence (clamped_priority prefs) status msg idle) "to"
            (create_full_room_jid room (muc_get_room_nick room s.mem.muc_rooms))) := by
  rw [update_presence_connected prefs status msg idle s h]
  simp only [sent_since, List.drop_left, clamped_priority]
  simp only [sent_stanzas, List.filterMap_cons]
  congr 1
  exact sent_stanzas_map _ _ _

/-- The priority child of the built presence. -/
theorem outgoing_presence_priority_child (pri : Int) (status : jabber_presence_t)
    (msg : Option String) (idle : Int) :
    xmpp_stanza_get_child_by_name (outgoing_presence pri status msg idle) "priority" =
      if pri ≠ 0 then some (.tag "priority" [] [.text (snprintf_d 10 pri)]) else none := by
  by_cases hp : pri = 0 <;> by_cases hi : idle > 0 <;> cases status <;> cases msg <;>
    simp [outgoing_presence, stanza_create_presence, xmpp_stanza_add_child,
      xmpp_stanza_get_child_by_name, xmpp_stanza_children, xmpp_stanza_get_name, hp, hi,
      List.find?_cons]

/-- The clamped priority lies in the valid range. -/
theorem clamped_priority_range (prefs : Prefs) :
    -128 ≤ clamped_priority prefs ∧ clamped_priority prefs ≤ 127 := by
  unfold clamped_priority JABBER_PRIORITY_MIN JABBER_PRIORITY_MAX
  split <;> omega

/-- Reading back an attribute just set on a tag. -/
theorem get_set_attribute (n : String) (attrs : List (String × String))
    (cs : List xmpp_stanza_t) (k v : String) :
    xmpp_stanza_get_attribute (xmpp_stanza_set_attribute (.tag n attrs cs) k v) k = some v := by
  simp only [xmpp_stanza_set_attribute, xmpp_stanza_get_attribute]
  rw [List.find?_append]
  have : List.find? (fun kv => kv.1 == k)
      (List.filter (fun kv => !(kv.1 == k)) attrs) = none := by
    apply List.find?_eq_none.2
    intro x hx
    have := (List.mem_filter.1 hx).2
    simpa using this
  rw [this]
  simp

/-- Every registered room has a nick. -/
theorem listed_room_has_nick (rooms : List MucRoom) (room : String)
    (h : room ∈ muc_get_active_room_list rooms) :
    ∃ n, muc_get_room_nick room rooms = some n ∧
      create_full_room_jid room (muc_get_room_nick room rooms) = room ++ "/" ++ n := by
  obtain ⟨r, hr, rfl⟩ := List.mem_map.1 h
  cases hf : rooms.find? (fun x => x.room == r.room) with
  | none =>
    have := List.find?_eq_none.1 hf r hr
    simp at this
  | some x => exact ⟨x.nick, by simp [muc_get_room_nick, hf], by simp [muc_get_room_nick, hf, create_full_room_jid]⟩

/-- C18: when Connected, `jabber_update_presence` sends 1 + n presence stanzas, n being the
number of active rooms: first the built presence, which has no to attribute, then for each
active room one copy whose to attribute is the room composed with our nick in that room
(room/nick); the copies have the children (show, status, priority, last-activity query) of
the first.  When not Connected the session is returned as it was: nothing is sent and
presence, status and priority are unchanged. -/
theorem jabber_update_presence_sends (prefs : Prefs) (status : jabber_presence_t)
    (msg : Option String) (idle : Int) (s : Session) :
    (s.mem.jabber_conn.conn_status = JABBER_CONNECTED →
      sent_since s (jabber_update_presence prefs status msg idle s) =
        outgoing_presence (clamped_priority prefs) status msg idle ::
          (muc_get_active_room_list s.mem.muc_rooms).map (fun room =>
            xmpp_stanza_set_attribute
              (outgoing_presence (clamped_priority prefs) status msg idle) "to"
              (create_full_room_jid room (muc_get_room_nick room s.mem.muc_rooms))) ∧
      (sent_since s (jabber_update_presence prefs status msg idle s)).length =
        1 + (muc_get_active_room_list s.mem.muc_rooms).length ∧
      xmpp_stanza_get_name (outgoing_presence (clamped_priority prefs) status msg idle)
        = some "presence" ∧
      xmpp_stanza_get_attribute (outgoing_presence (clamped_priority prefs) status msg idle)
        "to" = none ∧
      (∀ v,
        xmpp_stanza_get_attribute (xmpp_stanza_set_attribute
          (outgoing_presence (clamped_priority prefs) status msg idle) "to" v) "to" = some v ∧
        xmpp_stanza_children (xmpp_stanza_set_attribute
          (outgoing_presence (clamped_priority prefs) status msg idle) "to" v) =
          xmpp_stanza_children (outgoing_presence (clamped_priority prefs) status msg idle)) ∧
      (∀ room ∈ muc_get_active_room_list s.mem.muc_rooms,
        ∃ n, muc_get_room_nick room s.mem.muc_rooms = some n ∧
          create_full_room_jid room (muc_get_room_nick room s.mem.muc_rooms)
            = room ++ "/" ++ n)) ∧
    (s.mem.jabber_conn.conn_status ≠ JABBER_CONNECTED →
      jabber_update_presence prefs status msg idle s = s) := by
  refine ⟨fun h => ?_, fun h => by simp [jabber_update_presence, h]⟩
  obtain ⟨cs, hcs⟩ := outgoing_presence_tag (clamped_priority prefs) status msg idle
  refine ⟨sent_since_update_presence prefs status msg idle s h, ?_, ?_, ?_, ?_, ?_⟩
  · rw [sent_since_update_presence prefs status msg idle s h]
    simp [Nat.add_comm]
  · rw [hcs]; rfl
  · rw [hcs]; rfl
  · intro v
    exact ⟨by rw [hcs]; exact get_set_attribute _ _ _ _ _, set_attribute_children _ _ _⟩
  · intro room hr
    exact listed_room_has_nick _ _ hr

/-- C18 at a concrete input: connected and in the room `room@conf` as `me`, an away presence
with the message `back soon` goes out twice, the second time to `room@conf/me`; before
`jabber_connect` nothing is sent. -/
theorem jabber_update_presence_sends_witness :
    (sent_since in_room
        (jabber_update_presence prefs_reconnect_5 PRESENCE_AWAY (some "back soon") 0 in_room)
      = outgoing_presence (clamped_priority prefs_reconnect_5) PRESENCE_AWAY
          (some "back soon") 0 ::
        (muc_get_active_room_list in_room.mem.muc_rooms).map (fun room =>
          xmpp_stanza_set_attribute
            (outgoing_presence (clamped_priority prefs_reconnect_5) PRESENCE_AWAY
              (some "back soon") 0) "to"
            (create_full_room_jid room (muc_get_room_nick room in_room.mem.muc_rooms)))) ∧
    (muc_get_active_room_list in_room.mem.muc_rooms).map (fun room =>
        create_full_room_jid room (muc_get_room_nick room in_room.mem.muc_rooms))
      = ["room@conf/me"] ∧
    jabber_update_presence prefs_reconnect_5 PRESENCE_AWAY (some "back soon") 0 started
      = started :=
  ⟨((jabber_update_presence_sends prefs_reconnect_5 PRESENCE_AWAY (some "back soon") 0
      in_room).1 (by decide)).1,
   by decide,
   (jabber_update_presence_sends prefs_reconnect_5 PRESENCE_AWAY (some "back soon") 0
      started).2 (by decide)⟩

/-- C19: when Connected, after `jabber_update_presence` the value of `jabber_get_priority`
is the outgoing-priority preference if it lies in [JABBER_PRIORITY_MIN,
JABBER_PRIORITY_MAX] and 0 otherwise; a presence is sent, and every presence sent carries a
priority child, whose text is the decimal representation of that value, exactly when the
value is not 0. -/
theorem jabber_update_presence_priority (prefs : Prefs) (status : jabber_presence_t)
    (msg : Option String) (idle : Int) (s : Session)
    (h : s.mem.jabber_conn.conn_status = JABBER_CONNECTED) :
    jabber_get_priority (jabber_update_presence prefs status msg idle s) =
      (if JABBER_PRIORITY_MIN ≤ prefs.priority ∧ prefs.priority ≤ JABBER_PRIORITY_MAX
        then prefs.priority else 0) ∧
    sent_since s (jabber_update_presence prefs status msg idle s) ≠ [] ∧
    (∀ p ∈ sent_since s (jabber_update_presence prefs status msg idle s),
      xmpp_stanza_get_child_by_name p "priority" =
        if jabber_get_priority (jabber_update_presence prefs status msg idle s) ≠ 0 then
          some (.tag "priority" [] [.text
            (toString (jabber_get_priority (jabber_update_presence prefs status msg idle s)))])
        else none) := by
  have hpri : jabber_get_priority (jabber_update_presence prefs status msg idle s) =
      clamped_priority prefs := by
    rw [update_presence_connected prefs status msg idle s h]
    rfl
  have hchild : xmpp_stanza_get_child_by_name
      (outgoing_presence (clamped_priority prefs) status msg idle) "priority" =
      if clamped_priority prefs ≠ 0 then
        some (.tag "priority" [] [.text (toString (clamped_priority prefs))])
      else none := by
    rw [outgoing_presence_priority_child,
      snprintf_priority _ (clamped_priority_range prefs).1 (clamped_priority_range prefs).2]
  refine ⟨?_, ?_, ?_⟩
  · rw [hpri]
    unfold clamped_priority
    by_cases h1 : prefs.priority < JABBER_PRIORITY_MIN
    · have : ¬ (JABBER_PRIORITY_MIN ≤ prefs.priority ∧ prefs.priority ≤ JABBER_PRIORITY_MAX) :=
        fun e => absurd e.1 (not_le.2 h1)
      simp [h1, this]
    · by_cases h2 : prefs.priority > JABBER_PRIORITY_MAX
      · have : ¬ (JABBER_PRIORITY_MIN ≤ prefs.priority ∧
            prefs.priority ≤ JABBER_PRIORITY_MAX) := fun e => absurd e.2 (not_le.2 h2)
        simp [h2, this]
      · have : JABBER_PRIORITY_MIN ≤ prefs.priority ∧ prefs.priority ≤ JABBER_PRIORITY_MAX :=
          ⟨not_lt.1 h1, not_lt.1 h2⟩
        simp [h1, h2, this]
  · rw [sent_since_update_presence prefs status msg idle s h]
    simp
  · intro p hp
    rw [hpri]
    rw [sent_since_update_presence prefs status msg idle s h] at hp
    rcases List.mem_cons.1 hp with rfl | hp
    · exact hchild
    · obtain ⟨room, -, rfl⟩ := List.mem_map.1 hp
      rw [← hchild]
      simp only [xmpp_stanza_get_child_by_name, set_attribute_children]

/-- C19 at a concrete input: connected, with the priority preference at 5. -/
theorem jabber_update_presence_priority_witness :
    jabber_get_priority (jabber_update_presence
        { prefs_reconnect_5 with priority := 5 } PRESENCE_ONLINE none 0 logged_in) = 5 ∧
    xmpp_stanza_get_child_by_name
        (outgoing_presence 5 PRESENCE_ONLINE none 0) "priority"
      = some (.tag "priority" [] [.text "5"]) :=
  have h := jabber_update_presence_priority { prefs_reconnect_5 with priority := 5 }
    PRESENCE_ONLINE none 0 logged_in (by decide)
  ⟨h.1.trans (by decide), rfl⟩

/-- The registered ping handlers after more history: the fold continues from what was
registered before. -/
theorem timed_handlers_append (t ext : List (Globals × Effect)) :
    timed_handlers (t ++ ext) =
      ext.foldl (fun acc x =>
        match x.2 with
        | .xmpp_conn_new => []
        | .xmpp_timed_handler_delete => []
        | .xmpp_timed_handler_add period => acc ++ [period]
        | _ => acc) (timed_handlers t) := by
  simp [timed_handlers, List.foldl_append]

/-- One call of `jabber_set_autoping` while Connected: the state stays Connected and the
ping handler is registered afresh, or not at all when the seconds are zero. -/
theorem set_autoping_once (seconds : Int) (s : Session)
    (h : s.mem.jabber_conn.conn_status = JABBER_CONNECTED) :
    (jabber_set_autoping seconds s).mem = s.mem ∧
    timed_handlers (jabber_set_autoping seconds s).trace =
      (if seconds = 0 then [] else [unsigned_long (int_mul seconds 1000)]) := by
  by_cases hz : seconds = 0
  · simp [jabber_set_autoping, h, hz, emit, timed_handlers_append]
  · simp [jabber_set_autoping, h, hz, emit, timed_handlers_append]

/-- A sequence of `jabber_set_autoping` calls while Connected: what is registered afterwards
is decided by the last call. -/
theorem set_autoping_sequence (calls : List Int) :
    ∀ s : Session, s.mem.jabber_conn.conn_status = JABBER_CONNECTED →
      (calls.foldl (fun s seconds => jabber_set_autoping seconds s) s).mem = s.mem ∧
      timed_handlers (calls.foldl (fun s seconds => jabber_set_autoping seconds s) s).trace =
        (match calls.getLast? with
          | none => timed_handlers s.trace
          | some seconds =>
            if seconds = 0 then [] else [unsigned_long (int_mul seconds 1000)]) := by
  induction calls with
  | nil => intro s _; exact ⟨rfl, rfl⟩
  | cons c cs ih =>
    intro s h
    obtain ⟨hm, ht⟩ := set_autoping_once c s h
    have h' : (jabber_set_autoping c s).mem.jabber_conn.conn_status = JABBER_CONNECTED := by
      rw [hm]; exact h
    obtain ⟨hm', ht'⟩ := ih (jabber_set_autoping c s) h'
    refine ⟨by simp only [List.foldl_cons]; rw [hm', hm], ?_⟩
    simp only [List.foldl_cons]
    rw [ht']
    cases cs with
    | nil => simp [ht]
    | cons d ds =>
      rw [List.getLast?_cons_cons]
      cases hl : (d :: ds).getLast? with
      | none => exact absurd (List.getLast?_eq_none_iff.1 hl) (by simp)
      | some x => rfl

/-- C20, the interval at a concrete input: while Connected, `jabber_set_autoping(3000000)`
registers the ping handler with the period 18446744072414584320 ms, not 3000000 * 1000 ms:
the `int` product 3000000 * 1000 wraps to -1294967296, which the parameter
`unsigned long period` receives as 18446744072414584320.  The same happens at
connect-success when the autoping preference is 3000000.  A call with 2147483 seconds still
registers 2147483000 ms. -/
theorem autoping_interval_wraps :
    logged_in.mem.jabber_conn.conn_status = JABBER_CONNECTED ∧
    int_mul 3000000 1000 = -1294967296 ∧
    timed_handlers (jabber_set_autoping 3000000 logged_in).trace = [18446744072414584320] ∧
    timed_handlers (final (_connection_handler
      { reconnect := 5, autoping := 3000000, states := true, priority := 0 } 0
      XMPP_CONN_CONNECT first_attempt)).trace = [18446744072414584320] ∧
    (18446744072414584320 : Nat) ≠ 3000000 * 1000 ∧
    timed_handlers (jabber_set_autoping 2147483 logged_in).trace = [2147483 * 1000] := by
  decide

/-- The registration of the ping handler in general: for every sequence of
`jabber_set_autoping` calls made while Connected, after a connect-success event on a fresh
connection that may itself have scheduled the autoping, at most one ping timed handler is
registered on the connection; after the calls none is registered when the seconds of the
last call are zero, and otherwise one, whose period is the 32-bit `int` product
seconds * 1000 converted to `unsigned long`, which is seconds * 1000 ms when seconds lies
between 0 and 2147483.  The ping timed handler returns 1, sends one ping iq when the state
is Connected and nothing otherwise. -/
theorem autoping_registration (prefs : Prefs) (now : Nat) (connect_status : Int)
    (j p : String) (altdomain : Option String) (s0 : Session) (calls : List Int)
    (seconds : Int) (s : Session) :
    (timed_handlers (final (_connection_handler prefs now XMPP_CONN_CONNECT
        (jabber_connect connect_status (some j) (some p) altdomain s0).2)).trace =
      (if prefs.autoping = 0 then [] else [unsigned_long (int_mul prefs.autoping 1000)])) ∧
    (s.mem.jabber_conn.conn_status = JABBER_CONNECTED →
      timed_handlers (calls.foldl (fun s sec => jabber_set_autoping sec s) s).trace =
        (match calls.getLast? with
          | none => timed_handlers s.trace
          | some sec => if sec = 0 then [] else [unsigned_long (int_mul sec 1000)])) ∧
    ((timed_handlers (calls.foldl (fun s sec => jabber_set_autoping sec s)
        (final (_connection_handler prefs now XMPP_CONN_CONNECT
          (jabber_connect connect_status (some j) (some p) altdomain s0).2))).trace).length
      ≤ 1) ∧
    (0 ≤ seconds → seconds ≤ 2147483 →
      (unsigned_long (int_mul seconds 1000) : Int) = seconds * 1000) ∧
    (s.mem.jabber_conn.conn_status = JABBER_CONNECTED →
      _ping_timed_handler s = (1, emit (.xmpp_send stanza_create_ping_iq) s)) ∧
    (s.mem.jabber_conn.conn_status ≠ JABBER_CONNECTED → _ping_timed_handler s = (1, s)) := by
  have hconn : timed_handlers (final (_connection_handler prefs now XMPP_CONN_CONNECT
        (jabber_connect connect_status (some j) (some p) altdomain s0).2)).trace =
      (if prefs.autoping = 0 then [] else [unsigned_long (int_mul prefs.autoping 1000)]) := by
    have h1 : ∃ ext, (jabber_connect connect_status (some j) (some p) altdomain s0).2.trace
        = s0.trace ++ ext ∧
        ext.foldl (fun acc x =>
          match x.2 with
          | .xmpp_conn_new => []
          | .xmpp_timed_handler_delete => []
          | .xmpp_timed_handler_add period => acc ++ [period]
          | _ => acc) (timed_handlers s0.trace) = [] := by
      cases altdomain <;> by_cases ht : s0.mem.jabber_conn.tls_disabled = true <;>
        by_cases hc : connect_status = 0 <;>
        simp [jabber_connect, emit, ht, hc]
    obtain ⟨ext, he, hf⟩ := h1
    have h2 : timed_handlers
        (jabber_connect connect_status (some j) (some p) altdomain s0).2.trace = [] := by
      rw [he, timed_handlers_append, hf]
    generalize (jabber_connect connect_status (some j) (some p) altdomain s0).2 = s1 at h2 ⊢
    cases ha : s1.mem.saved_user.account <;> by_cases hp : prefs.autoping = 0 <;>
      by_cases hr : prefs.reconnect = 0 <;> cases hti : s1.mem.reconnect_timer <;>
      simp [_connection_handler, final, emit, _jabber_roster_request, chat_sessions_init,
        hp, hr, hti, ha, timed_handlers_append, h2]
  have hconnected : (final (_connection_handler prefs now XMPP_CONN_CONNECT
        (jabber_connect connect_status (some j) (some p) altdomain
          s0).2)).mem.jabber_conn.conn_status
      = JABBER_CONNECTED := (connect_success_outcome prefs now _).2.1
  refine ⟨hconn, fun h => (set_autoping_sequence calls s h).2, ?_, ?_, ?_, ?_⟩
  · rw [(set_autoping_sequence calls _ hconnected).2, hconn]
    cases calls.getLast? with
    | none => by_cases hp : prefs.autoping = 0 <;> simp [hp]
    | some sec => by_cases hs : sec = 0 <;> simp [hs]
  · intro h1 h2
    have hm : int_mul seconds 1000 = seconds * 1000 := by
      unfold int_mul
      omega
    have hmod : seconds * 1000 % 18446744073709551616 = seconds * 1000 :=
      Int.emod_eq_of_lt (by omega) (by omega)
    unfold unsigned_long
    rw [hm, hmod]
    exact Int.toNat_of_nonneg (by omega)
  · intro h
    simp [_ping_timed_handler, h]
  · intro h
    simp [_ping_timed_handler, h]

/-- The registration of the ping handler at a concrete input: connected, then
`jabber_set_autoping` 60, 0, 45. -/
theorem autoping_registration_witness :
    timed_handlers ([60, 0, 45].foldl (fun s sec => jabber_set_autoping sec s) logged_in).trace
      = [45000] ∧
    (unsigned_long (int_mul 45 1000) : Int) = 45 * 1000 ∧
    _ping_timed_handler logged_in = (1, emit (.xmpp_send stanza_create_ping_iq) logged_in) ∧
    _ping_timed_handler started = (1, started) :=
  have h := autoping_registration prefs_reconnect_5 0 0 "me@host" "pw" none started
    [60, 0, 45] 45 logged_in
  ⟨(h.2.1 (by decide)).trans (by decide), h.2.2.2.1 (by decide) (by decide),
   h.2.2.2.2.1 (by decide), (autoping_registration prefs_reconnect_5 0 0 "me@host" "pw" none
     started [60, 0, 45] 45 started).2.2.2.2.2 (by decide)⟩

/-- C12, refuted as stated: a ping request of type get with a ping child in the ping
namespace, a from attribute and an id other than the roster id, but without a to
attribute, is answered with nothing: the session is returned as it was. -/
theorem ping_without_to_gets_no_pong :
    xmpp_stanza_get_attribute ping_request_without_to "from" = some "host" ∧
    xmpp_stanza_get_attribute ping_request_without_to "type" = some "get" ∧
    xmpp_stanza_get_attribute ping_request_without_to "id" = some "s2c1" ∧
    (xmpp_stanza_get_child_by_name ping_request_without_to "ping").bind
      (fun ping => xmpp_stanza_get_attribute ping "xmlns") = some STANZA_NS_PING ∧
    _iq_handler prefs_reconnect_5 ping_request_without_to logged_in = .ok (1, logged_in) :=
  ⟨by decide, by decide, by decide, by decide, rfl⟩

/-- The calls `_roster_handler` makes per roster item only add to the history, and no
stanza is sent by them. -/
theorem roster_items_trace (items : List xmpp_stanza_t) :
    ∀ s : Session,
      (items.foldl (fun s item =>
        let jid := xmpp_stanza_get_attribute item "jid"
        let name := xmpp_stanza_get_attribute item "name"
        let sub := xmpp_stanza_get_attribute item "subscription"
        let ask := xmpp_stanza_get_attribute item "ask"
        let pending_out := ask == some "subscribe"
        emit (.invoke "contact_list_add"
          [jid, name, some "offline", none, sub, gboolean_text pending_out]) s) s).mem = s.mem ∧
      ∃ ext, (items.foldl (fun s item =>
        let jid := xmpp_stanza_get_attribute item "jid"
        let name := xmpp_stanza_get_attribute item "name"
        let sub := xmpp_stanza_get_attribute item "subscription"
        let ask := xmpp_stanza_get_attribute item "ask"
        let pending_out := ask == some "subscribe"
        emit (.invoke "contact_list_add"
          [jid, name, some "offline", none, sub, gboolean_text pending_out]) s) s).trace
          = s.trace ++ ext ∧ sent_stanzas ext = [] := by
  induction items with
  | nil => intro s; exact ⟨rfl, [], by simp, rfl⟩
  | cons i is ih =>
    intro s
    simp only [List.foldl_cons]
    obtain ⟨hm, ext, he, hs⟩ := ih (emit (.invoke "contact_list_add"
      [xmpp_stanza_get_attribute i "jid", xmpp_stanza_get_attribute i "name", some "offline",
        none, xmpp_stanza_get_attribute i "subscription",
        gboolean_text (xmpp_stanza_get_attribute i "ask" == some "subscribe")]) s)
    refine ⟨hm, (s.mem, Effect.invoke "contact_list_add"
      [xmpp_stanza_get_attribute i "jid", xmpp_stanza_get_attribute i "name", some "offline",
        none, xmpp_stanza_get_attribute i "subscription",
        gboolean_text (xmpp_stanza_get_attribute i "ask" == some "subscribe")]) :: ext, ?_, ?_⟩
    · rw [he]; simp [emit]
    · simp only [sent_stanzas, List.filterMap_cons] at hs ⊢
      exact hs

/-- Whatever `jabber_update_presence` sends is a presence stanza. -/
theorem update_presence_sends_presences (prefs : Prefs) (status : jabber_presence_t)
    (msg : Option String) (idle : Int) (s : Session) :
    ∃ ext, (jabber_update_presence prefs status msg idle s).trace = s.trace ++ ext ∧
      ∀ p ∈ sent_stanzas ext, xmpp_stanza_get_name p = some "presence" := by
  by_cases h : s.mem.jabber_conn.conn_status = JABBER_CONNECTED
  · have hs := sent_since_update_presence prefs status msg idle s h
    rw [update_presence_connected prefs status msg idle s h] at hs ⊢
    refine ⟨_, rfl, ?_⟩
    simp only [sent_since, List.drop_left] at hs
    rw [hs]
    obtain ⟨cs, hcs⟩ := outgoing_presence_tag (clamped_priority prefs) status msg idle
    intro p hp
    rcases List.mem_cons.1 hp with rfl | hp
    · rw [hcs]; rfl
    · obtain ⟨room, -, rfl⟩ := List.mem_map.1 hp
      rw [hcs]; rfl
  · exact ⟨[], by simp [jabber_update_presence, h], by simp [sent_stanzas]⟩

/-- C12, amended: for an iq stanza whose id is not the roster id, `_iq_handler` returns 1;
if the stanza is of type get, its first ping child is in namespace urn:xmpp:ping and it
has both a from and a to attribute, exactly one stanza is sent, an iq of type result whose
to attribute is the from of the request, whose from attribute is the to of the request and
whose id is the id of the request (when it has one); in every other case nothing is sent.
For an iq stanza with the roster id, whatever is sent is a presence stanza. -/
theorem iq_handler_ping (prefs : Prefs) (stanza : xmpp_stanza_t) (s : Session) :
    (xmpp_stanza_get_attribute stanza "id" ≠ some "roster" →
    (∀ ping f t, xmpp_stanza_get_attribute stanza "type" = some "get" →
      xmpp_stanza_get_child_by_name stanza "ping" = some ping →
      xmpp_stanza_get_attribute ping "xmlns" = some STANZA_NS_PING →
      xmpp_stanza_get_attribute stanza "from" = some f →
      xmpp_stanza_get_attribute stanza "to" = some t →
      _iq_handler prefs stanza s = .ok (1, emit (.xmpp_send
        (match xmpp_stanza_get_attribute stanza "id" with
          | some i => .tag "iq" [("to", f), ("from", t), ("type", "result"), ("id", i)] []
          | none => .tag "iq" [("to", f), ("from", t), ("type", "result")] [])) s)) ∧
    (∃ s', _iq_handler prefs stanza s = .ok (1, s') ∧
      ∀ p ∈ sent_since s s',
        xmpp_stanza_get_attribute stanza "type" = some "get" ∧
        ∃ ping f t, xmpp_stanza_get_child_by_name stanza "ping" = some ping ∧
          xmpp_stanza_get_attribute ping "xmlns" = some STANZA_NS_PING ∧
          xmpp_stanza_get_attribute stanza "from" = some f ∧
          xmpp_stanza_get_attribute stanza "to" = some t)) ∧
    (xmpp_stanza_get_attribute stanza "id" = some "roster" →
      ∀ r, _iq_handler prefs stanza s = .ok r →
        ∀ p ∈ sent_since s r.2, xmpp_stanza_get_name p = some "presence") := by
  refine ⟨fun hid => ?_, fun hid r hr p hp => ?_⟩
  swap
  · simp only [_iq_handler, hid, if_true] at hr
    unfold _roster_handler at hr
    cases hty : xmpp_stanza_get_type stanza with
    | none => simp [hty] at hr
    | some type =>
      simp only [hty] at hr
      by_cases he : type = "error"
      · simp only [he, if_true, Except.ok.injEq] at hr
        rw [← hr] at hp
        simp [sent_since, sent_stanzas, emit] at hp
      · simp only [he, if_false] at hr
        cases hq : xmpp_stanza_get_child_by_name stanza "query" with
        | none => simp [hq] at hr
        | some query =>
          simp only [hq, Except.ok.injEq] at hr
          obtain ⟨hm, ext1, he1, hs1⟩ := roster_items_trace (xmpp_stanza_children query) s
          obtain ⟨ext2, he2, hs2⟩ := update_presence_sends_presences prefs PRESENCE_ONLINE
            none 0 ((xmpp_stanza_children query).foldl (fun s item =>
              let jid := xmpp_stanza_get_attribute item "jid"
              let name := xmpp_stanza_get_attribute item "name"
              let sub := xmpp_stanza_get_attribute item "subscription"
              let ask := xmpp_stanza_get_attribute item "ask"
              let pending_out := ask == some "subscribe"
              emit (.invoke "contact_list_add"
                [jid, name, some "offline", none, sub, gboolean_text pending_out]) s) s)
          rw [← hr] at hp
          simp only [sent_since] at hp
          rw [he2, he1, List.append_assoc, List.drop_left] at hp
          simp only [sent_stanzas, List.filterMap_append] at hp hs1 hs2
          rw [hs1, List.nil_append] at hp
          exact hs2 p hp
  constructor
  · intro ping f t hty hping hns hf ht
    cases hi : xmpp_stanza_get_attribute stanza "id" with
    | none =>
      simp [_iq_handler, hi, hty, hping, hns, hf, ht, xmpp_stanza_set_attribute]
    | some i =>
      have hi' : i ≠ "roster" := fun e => hid (by rw [hi, e])
      simp [_iq_handler, hi, hi', hty, hping, hns, hf, ht, xmpp_stanza_set_attribute]
  · simp only [_iq_handler, if_neg hid]
    cases hty : xmpp_stanza_get_attribute stanza "type" with
    | none => exact ⟨s, rfl, by simp [sent_since, sent_stanzas]⟩
    | some type =>
      try dsimp only
      by_cases hset : type = "set"
      · simp only [hset, if_true]
        cases hq : xmpp_stanza_get_child_by_name stanza "query" with
        | none => exact ⟨s, rfl, by simp [sent_since, sent_stanzas]⟩
        | some query =>
          try dsimp only
          cases hx : xmpp_stanza_get_attribute query "xmlns" with
          | none => exact ⟨s, rfl, by simp [sent_since, sent_stanzas]⟩
          | some xmlns =>
            try dsimp only
            by_cases hns : xmlns = XMPP_NS_ROSTER
            · cases hitem : xmpp_stanza_get_child_by_name query "item" with
              | none =>
                simp only [hns, ne_eq, not_true_eq_false, if_false]
                exact ⟨s, rfl, by simp [sent_since, sent_stanzas]⟩
              | some item =>
                try dsimp only
                by_cases hrem : xmpp_stanza_get_attribute item "subscription" = some "remove"
                · simp only [hns, ne_eq, not_true_eq_false, if_false, hrem, if_true]
                  exact ⟨_, rfl, by simp [sent_since, sent_stanzas, emit]⟩
                · simp only [hns, ne_eq, not_true_eq_false, if_false, hrem]
                  exact ⟨_, rfl, by simp [sent_since, sent_stanzas, emit]⟩
            · simp only [ne_eq, hns, not_false_eq_true, if_true]
              exact ⟨s, rfl, by simp [sent_since, sent_stanzas]⟩
      · by_cases hget : type = "get"
        · subst hget
          simp only [hset, if_false, if_true]
          cases hp : xmpp_stanza_get_child_by_name stanza "ping" with
          | none => exact ⟨s, rfl, by simp [sent_since, sent_stanzas]⟩
          | some ping =>
            try dsimp only
            cases hx : xmpp_stanza_get_attribute ping "xmlns" with
            | none => exact ⟨s, rfl, by simp [sent_since, sent_stanzas]⟩
            | some xmlns =>
              try dsimp only
              by_cases hns : xmlns = STANZA_NS_PING
              · subst hns
                cases hf : xmpp_stanza_get_attribute stanza "from" with
                | none =>
                  simp only [ne_eq, not_true_eq_false, if_false]
                  exact ⟨s, rfl, by simp [sent_since, sent_stanzas]⟩
                | some f =>
                  try dsimp only
                  cases ht : xmpp_stanza_get_attribute stanza "to" with
                  | none =>
                    simp only [ne_eq, not_true_eq_false, if_false]
                    exact ⟨s, rfl, by simp [sent_since, sent_stanzas]⟩
                  | some t =>
                    try dsimp only
                    simp only [ne_eq, not_true_eq_false, if_false]
                    refine ⟨_, rfl, fun _ _ => ?_⟩
                    simp [hx]
              · simp only [ne_eq, hns, not_false_eq_true, if_true]
                exact ⟨s, rfl, by simp [sent_since, sent_stanzas]⟩
        · simp only [hset, hget, if_false]
          exact ⟨s, rfl, by simp [sent_since, sent_stanzas]⟩

/-- C12, amended, at a concrete input: the server ping `ping_request` is answered with one
pong that carries its id. -/
theorem iq_handler_ping_witness :
    _iq_handler prefs_reconnect_5 ping_request logged_in = .ok (1, emit (.xmpp_send
      (match xmpp_stanza_get_attribute ping_request "id" with
        | some i =>
          .tag "iq" [("to", "host"), ("from", "me@host/res"), ("type", "result"), ("id", i)] []
        | none => .tag "iq" [("to", "host"), ("from", "me@host/res"), ("type", "result")] []))
      logged_in) :=
  ((iq_handler_ping prefs_reconnect_5 ping_request logged_in).1 (by decide)).1
    (.tag "ping" [("xmlns", "urn:xmpp:ping")] []) "host" "me@host/res"
    (by decide) rfl (by decide) (by decide) (by decide)

/-- C11, the code at the failing inputs: a message of type error without an error child
stops `_error_handler` at the lookup of the text child in the null error stanza; a chat
message without a from attribute stops `_chat_message_handler` at `strlen(from)`; an iq
with the roster id stops `_roster_handler` at `strcmp` on the missing type attribute, or,
with a type, at the children of the missing query child.  None of them returns 1. -/
theorem handlers_read_through_null :
    _error_handler (.tag "message" [("type", "error"), ("from", "you@host")] []) logged_in
      = .error (.null_read "xmpp_stanza_get_child_by_name(error_stanza, text)") ∧
    _chat_message_handler prefs_reconnect_5
        (.tag "message" [("type", "chat")] [.tag "body" [] [.text "hi"]]) logged_in
      = .error (.null_read "strlen(from)") ∧
    _iq_handler prefs_reconnect_5 (.tag "iq" [("id", "roster")] []) logged_in
      = .error (.null_read "strcmp(type, STANZA_TYPE_ERROR)") ∧
    _iq_handler prefs_reconnect_5 (.tag "iq" [("id", "roster"), ("type", "result")] [])
        logged_in
      = .error (.null_read "xmpp_stanza_get_children(query)") :=
  ⟨rfl, rfl, rfl, rfl⟩

/-- Every stanza without an error child stops `_error_handler`, and every stanza without a
from attribute stops `_chat_message_handler`, whatever the session and the preferences. -/
theorem unguarded_reads (prefs : Prefs) (stanza : xmpp_stanza_t) (s : Session) :
    (xmpp_stanza_get_child_by_name stanza "error" = none →
      _error_handler stanza s =
        .error (.null_read "xmpp_stanza_get_child_by_name(error_stanza, text)")) ∧
    (xmpp_stanza_get_attribute stanza "from" = none →
      _chat_message_handler prefs stanza s = .error (.null_read "strlen(from)")) := by
  constructor
  · intro h
    simp [_error_handler, h]
  · intro h
    simp [_chat_message_handler, h]

/-! ### `str_replace` and `encode_xml` -/

/-- A found needle lies inside the haystack. -/
theorem isPrefixOf_length {a b : List Char} (h : a.isPrefixOf b = true) :
    a.length ≤ b.length :=
  (List.isPrefixOf_iff_prefix.1 h).length_le

/-- Passing over `skip` characters is dropping them. -/
theorem replace_occurrences_skip (sub rep : List Char) (skip : Nat) (l : List Char) :
    replace_occurrences sub rep skip l = replace_occurrences sub rep 0 (l.drop skip) := by
  induction skip generalizing l with
  | zero => rfl
  | succ n ih =>
    cases l with
    | nil => rfl
    | cons c cs => simpa [replace_occurrences] using ih cs

/-- Passing over `skip` characters is dropping them, for the count. -/
theorem count_occurrences_skip (sub : List Char) (skip : Nat) (l : List Char) :
    count_occurrences sub skip l = count_occurrences sub 0 (l.drop skip) := by
  induction skip generalizing l with
  | zero => rfl
  | succ n ih =>
    cases l with
    | nil => rfl
    | cons c cs => simpa [count_occurrences] using ih cs

/-- Where `strstr` finds nothing, nothing is replaced. -/
theorem strstr_none (sub rep l : List Char) (h : strstr l sub = none) :
    replace_occurrences sub rep 0 l = l ∧ count_occurrences sub 0 l = 0 := by
  induction l with
  | nil => exact ⟨rfl, rfl⟩
  | cons c cs ih =>
    unfold strstr at h
    cases hp : sub.isPrefixOf (c :: cs) with
    | true => simp [hp] at h
    | false =>
      simp [hp] at h
      have := ih h
      simp [replace_occurrences, count_occurrences, hp, this.1, this.2]

/-- Where `strstr` finds the first occurrence, the text before it is kept, the occurrence
is replaced, and the scan goes on behind it. -/
theorem strstr_some (sub rep l : List Char) (off : Nat) (hs : sub ≠ [])
    (h : strstr l sub = some off) :
    off + sub.length ≤ l.length ∧
    replace_occurrences sub rep 0 l =
      l.take off ++ rep ++ replace_occurrences sub rep 0 (l.drop (off + sub.length)) ∧
    count_occurrences sub 0 l = 1 + count_occurrences sub 0 (l.drop (off + sub.length)) := by
  induction l generalizing off with
  | nil =>
    cases sub with
    | nil => exact absurd rfl hs
    | cons a as => simp [strstr] at h
  | cons c cs ih =>
    have hlen : 1 ≤ sub.length := by
      cases sub with
      | nil => exact absurd rfl hs
      | cons a as => simp
    unfold strstr at h
    cases hp : sub.isPrefixOf (c :: cs) with
    | true =>
      simp only [hp, if_true, Option.some.injEq] at h
      subst h
      have hl := isPrefixOf_length hp
      have hd : (c :: cs).drop (0 + sub.length) = cs.drop (sub.length - 1) := by
        obtain ⟨n, hn⟩ : ∃ n, sub.length = n + 1 := ⟨sub.length - 1, by omega⟩
        simp [hn]
      refine ⟨by simpa using hl, ?_, ?_⟩
      · rw [hd]
        simp [replace_occurrences, hp, replace_occurrences_skip sub rep (sub.length - 1) cs]
      · rw [hd]
        simp [count_occurrences, hp, count_occurrences_skip sub (sub.length - 1) cs]
    | false =>
      cases hc : strstr cs sub with
      | none => simp [hp, hc] at h
      | some j =>
        simp [hp, hc] at h
        subst h
        obtain ⟨h1, h2, h3⟩ := ih j hc
        have hd : (c :: cs).drop (j + 1 + sub.length) = cs.drop (j + sub.length) := by
          have : j + 1 + sub.length = (j + sub.length) + 1 := by omega
          rw [this]; rfl
        refine ⟨by simp; omega, ?_, ?_⟩
        · rw [hd]
          simp [replace_occurrences, hp, h2]
        · rw [hd]
          simp [count_occurrences, hp, h3]

/-- The loop of `str_replace` ends within one iteration more than there are characters
behind `head`, with the text behind `head` rewritten as the claim says. -/
theorem str_replace_loop_ends (sub rep : List Char) (hs : sub ≠ []) (fuel : Nat) :
    ∀ (done rest : List Char), rest.length < fuel →
      str_replace_loop sub rep fuel (done ++ rest) done.length =
        some (done ++ replace_occurrences sub rep 0 rest) := by
  induction fuel with
  | zero => intro _ _ h; exact absurd h (Nat.not_lt_zero _)
  | succ n ih =>
    intro done rest hlt
    unfold str_replace_loop
    have hdrop : (done ++ rest).drop done.length = rest := by simp
    rw [hdrop]
    cases hc : strstr rest sub with
    | none => simp [(strstr_none sub rep rest hc).1]
    | some off =>
      obtain ⟨h1, h2, _⟩ := strstr_some sub rep rest off hs hc
      have hlen : 1 ≤ sub.length := by
        cases sub with
        | nil => exact absurd rfl hs
        | cons a as => simp
      have htake : (done ++ rest).take (done.length + off) = done ++ rest.take off := by
        simp [List.take_append]
      have hdrop2 : (done ++ rest).drop (done.length + off + sub.length)
          = rest.drop (off + sub.length) := by
        rw [Nat.add_assoc, List.drop_append]
      have hfull : (rest.drop (off + sub.length)).take
          ((done ++ rest).length - sub.length - (done.length + off))
            = rest.drop (off + sub.length) := by
        apply List.take_of_length_le
        simp; omega
      have hhead : done.length + off + rep.length = (done ++ rest.take off ++ rep).length := by
        simp; omega
      simp only [htake, hdrop2, hfull]
      rw [hhead]
      have := ih (done ++ rest.take off ++ rep) (rest.drop (off + sub.length))
        (by simp; omega)
      rw [this, h2]
      simp [List.append_assoc]
/-- A string is empty exactly when it has no characters. -/
theorem string_ne_empty (s : String) (h : s ≠ "") : s.data ≠ [] := by
  intro hd
  apply h
  cases s
  simp_all

/-- Every replaced occurrence changes the length by the difference of the lengths of the
replacement and the substring. -/
theorem replace_occurrences_length (sub rep : List Char) (hs : sub ≠ []) (n : Nat) :
    ∀ l : List Char, l.length ≤ n →
      (replace_occurrences sub rep 0 l).length + count_occurrences sub 0 l * sub.length
        = l.length + count_occurrences sub 0 l * rep.length := by
  induction n with
  | zero =>
    intro l hl
    have : l = [] := List.length_eq_zero.1 (Nat.le_zero.1 hl)
    subst this
    simp [replace_occurrences, count_occurrences]
  | succ n ih =>
    intro l hl
    cases hc : strstr l sub with
    | none =>
      obtain ⟨h1, h2⟩ := strstr_none sub rep l hc
      simp [h1, h2]
    | some off =>
      obtain ⟨h1, h2, h3⟩ := strstr_some sub rep l off hs hc
      have hlen : 1 ≤ sub.length := by
        cases sub with
        | nil => exact absurd rfl hs
        | cons a as => simp
      have hrec := ih (l.drop (off + sub.length)) (by simp; omega)
      rw [h2, h3]
      simp only [List.length_append, List.length_take, List.length_drop] at hrec ⊢
      rw [Nat.add_mul, Nat.add_mul]
      have hmin : min off l.length = off := by omega
      rw [hmin]
      omega

/-- What `str_replace` returns for a non-null string, a non-empty substring and a non-null
replacement. -/
theorem str_replace_eq (s sub rep : String) (h : sub ≠ "") :
    str_replace (some s) (some sub) (some rep)
      = some (String.mk (replace_occurrences sub.data rep.data 0 s.data)) := by
  have hs := string_ne_empty sub h
  have := str_replace_loop_ends sub.data rep.data hs (s.length + 1) [] s.data
    (Nat.lt_succ_self _)
  simp only [List.nil_append, List.length_nil] at this
  unfold str_replace
  simp only [h, if_false]
  rw [this]
  rfl

/-- C29: for a non-empty substring, `str_replace` ends and returns the string with each
occurrence of the substring, found scanning left to right and never inside inserted text,
replaced by the replacement (whatever the replacement contains); the length of the result
is len(s) + k * (len(rep) - len(sub)) for the k replaced occurrences; a string in which the
substring does not occur comes back as it is.  For an empty substring, a null substring or
a null replacement it returns a copy of the string, and null for a null string. -/
theorem str_replace_spec (s sub rep : String) :
    (sub ≠ "" →
      str_replace (some s) (some sub) (some rep)
        = some (String.mk (replace_occurrences sub.data rep.data 0 s.data)) ∧
      ((replace_occurrences sub.data rep.data 0 s.data).length : Int)
        = s.length + count_occurrences sub.data 0 s.data * ((rep.length : Int) - sub.length) ∧
      (strstr s.data sub.data = none →
        str_replace (some s) (some sub) (some rep) = some s)) ∧
    str_replace (some s) (some "") (some rep) = some s ∧
    str_replace (some s) none (some rep) = some s ∧
    str_replace (some s) (some sub) none = some s ∧
    str_replace (some s) none none = some s ∧
    (∀ sub' rep' : Option String, str_replace none sub' rep' = none) := by
  refine ⟨fun h => ⟨str_replace_eq s sub rep h, ?_, ?_⟩, rfl, rfl, rfl, rfl, fun _ _ => rfl⟩
  · have := replace_occurrences_length sub.data rep.data (string_ne_empty sub h)
      s.data.length s.data (Nat.le_refl _)
    have hi : ((replace_occurrences sub.data rep.data 0 s.data).length : Int)
        + (count_occurrences sub.data 0 s.data : Int) * (sub.data.length : Int)
        = (s.data.length : Int)
          + (count_occurrences sub.data 0 s.data : Int) * (rep.data.length : Int) := by
      exact_mod_cast this
    simp only [String.length]
    rw [mul_sub]
    omega
  · intro hn
    rw [str_replace_eq s sub rep h, (strstr_none sub.data rep.data s.data hn).1]

/-- C29 at concrete strings: a replacement that contains the substring. -/
theorem str_replace_spec_witness :
    str_replace (some "abcabc") (some "bc") (some "bcbc")
      = some (String.mk (replace_occurrences "bc".data "bcbc".data 0 "abcabc".data)) ∧
    str_replace (some "abcabc") (some "bc") (some "bcbc") = some "abcbcabcbc" ∧
    count_occurrences "bc".data 0 "abcabc".data = 2 :=
  ⟨((str_replace_spec "abcabc" "bc" "bcbc").1 (by decide)).1, rfl, rfl⟩
/-- With a one-character substring, `replace_occurrences` works character by character. -/
theorem replace_one_char (c : Char) (rep l : List Char) :
    replace_occurrences [c] rep 0 l
      = (l.map (fun x => if x = c then rep else [x])).flatten := by
  induction l with
  | nil => rfl
  | cons x xs ih =>
    by_cases hx : x = c
    · subst hx
      simp [replace_occurrences, List.isPrefixOf, ih]
    · have : (c == x) = false := by simpa using fun e => hx e.symm
      simp [replace_occurrences, List.isPrefixOf, this, hx, ih]

/-- The three passes of `encode_xml` amount to putting the entity for each character. -/
theorem three_passes (l : List Char) :
    replace_occurrences ['>'] "&gt;".data 0
      (replace_occurrences ['<'] "&lt;".data 0
        (replace_occurrences ['&'] "&amp;".data 0 l)) = encode_chars l := by
  simp only [replace_one_char]
  induction l with
  | nil => rfl
  | cons x xs ih =>
    simp only [List.map_cons, List.flatten_cons, List.map_append, List.flatten_append, ih,
      encode_chars, xml_entity]
    congr 1
    by_cases h1 : x = '&'
    · subst h1; rfl
    · by_cases h2 : x = '<'
      · subst h2; rfl
      · by_cases h3 : x = '>'
        · subst h3; rfl
        · simp [h1, h2, h3]

/-- What `encode_xml` returns for a non-null string. -/
theorem encode_xml_eq (x : String) :
    encode_xml (some x) = some (String.mk (encode_chars x.data)) := by
  unfold encode_xml
  simp only []
  rw [str_replace_eq x "&" "&amp;" (by decide)]
  rw [str_replace_eq _ "<" "&lt;" (by decide)]
  rw [str_replace_eq _ ">" "&gt;" (by decide)]
  exact congrArg (fun l => some (String.mk l)) (three_passes x.data)

/-- Decoding puts back the character an entity stands for. -/
theorem decode_entity (c : Char) (rest : List Char) :
    decode_entities 0 (xml_entity c ++ rest) = c :: decode_entities 0 rest := by
  by_cases h1 : c = '&'
  · subst h1; simp [xml_entity, decode_entities, List.isPrefixOf]
  · by_cases h2 : c = '<'
    · subst h2; simp [xml_entity, decode_entities, List.isPrefixOf]
    · by_cases h3 : c = '>'
      · subst h3; simp [xml_entity, decode_entities, List.isPrefixOf]
      · have e1 : ('&' == c) = false := by simpa using fun e => h1 e.symm
        simp [xml_entity, h1, h2, h3, decode_entities, List.isPrefixOf, e1]

/-- Decoding undoes the encoding. -/
theorem decode_encode (l : List Char) : decode_entities 0 (encode_chars l) = l := by
  induction l with
  | nil => rfl
  | cons c cs ih => simp [encode_chars, decode_entity, ih]

/-- No entity holds an angle bracket. -/
theorem entity_no_bracket (c : Char) : '<' ∉ xml_entity c ∧ '>' ∉ xml_entity c := by
  by_cases h1 : c = '&'
  · subst h1; decide
  · by_cases h2 : c = '<'
    · subst h2; decide
    · by_cases h3 : c = '>'
      · subst h3; decide
      · simp only [xml_entity, h1, h2, h3, if_false, List.mem_singleton]
        exact ⟨fun e => h2 e.symm, fun e => h3 e.symm⟩

/-- The encoding holds no angle bracket. -/
theorem encode_no_bracket (l : List Char) :
    '<' ∉ encode_chars l ∧ '>' ∉ encode_chars l := by
  induction l with
  | nil => simp [encode_chars]
  | cons c cs ih =>
    have := entity_no_bracket c
    simp only [encode_chars, List.mem_append, not_or]
    exact ⟨⟨this.1, ih.1⟩, ⟨this.2, ih.2⟩⟩

/-- An ampersand is not found at a position that holds another character. -/
theorem amp_behind (a : Char) (l pre post : List Char) (ha : a ≠ '&')
    (h : a :: l = pre ++ '&' :: post) : ∃ pre', pre = a :: pre' ∧ l = pre' ++ '&' :: post := by
  cases pre with
  | nil =>
    simp only [List.nil_append, List.cons.injEq] at h
    exact absurd h.1 ha
  | cons b pre' =>
    simp only [List.cons_append, List.cons.injEq] at h
    exact ⟨pre', by rw [h.1], h.2⟩

/-- Every ampersand of the encoding begins an entity. -/
theorem encode_amp (l : List Char) :
    ∀ pre post : List Char, encode_chars l = pre ++ '&' :: post →
      "amp;".data <+: post ∨ "lt;".data <+: post ∨ "gt;".data <+: post := by
  induction l with
  | nil =>
    intro pre post h
    simp [encode_chars] at h
  | cons c cs ih =>
    intro pre post h
    by_cases h1 : c = '&'
    · subst h1
      cases pre with
      | nil =>
        simp only [encode_chars, xml_entity, if_true, List.nil_append] at h
        exact Or.inl ⟨encode_chars cs, by simpa using h⟩
      | cons b p1 =>
        simp only [encode_chars, xml_entity, if_true, List.cons_append] at h
        have h := (List.cons.inj h).2
        obtain ⟨p2, _, h⟩ := amp_behind _ _ _ _ (by decide) h
        obtain ⟨p3, _, h⟩ := amp_behind _ _ _ _ (by decide) h
        obtain ⟨p4, _, h⟩ := amp_behind _ _ _ _ (by decide) h
        obtain ⟨p5, _, h⟩ := amp_behind _ _ _ _ (by decide) h
        exact ih p5 post h
    · by_cases h2 : c = '<'
      · subst h2
        cases pre with
        | nil =>
          simp only [encode_chars, xml_entity, if_true, List.nil_append] at h
          exact Or.inr (Or.inl ⟨encode_chars cs, by simpa using h⟩)
        | cons b p1 =>
          simp only [encode_chars, xml_entity, if_true, List.cons_append] at h
          have h := (List.cons.inj h).2
          obtain ⟨p2, _, h⟩ := amp_behind _ _ _ _ (by decide) h
          obtain ⟨p3, _, h⟩ := amp_behind _ _ _ _ (by decide) h
          obtain ⟨p4, _, h⟩ := amp_behind _ _ _ _ (by decide) h
          exact ih p4 post h
      · by_cases h3 : c = '>'
        · subst h3
          cases pre with
          | nil =>
            simp only [encode_chars, xml_entity, if_true, List.nil_append] at h
            exact Or.inr (Or.inr ⟨encode_chars cs, by simpa using h⟩)
          | cons b p1 =>
            simp only [encode_chars, xml_entity, if_true, List.cons_append] at h
            have h := (List.cons.inj h).2
            obtain ⟨p2, _, h⟩ := amp_behind _ _ _ _ (by decide) h
            obtain ⟨p3, _, h⟩ := amp_behind _ _ _ _ (by decide) h
            obtain ⟨p4, _, h⟩ := amp_behind _ _ _ _ (by decide) h
            exact ih p4 post h
        · simp only [encode_chars, xml_entity, h1, h2, h3, if_false, List.singleton_append] at h
          obtain ⟨p2, _, h⟩ := amp_behind _ _ _ _ h1 h
          exact ih p2 post h

/-- A string without special characters is its own encoding. -/
theorem encode_plain (l : List Char) (h : '&' ∉ l ∧ '<' ∉ l ∧ '>' ∉ l) :
    encode_chars l = l := by
  induction l with
  | nil => rfl
  | cons c cs ih =>
    simp only [List.mem_cons, not_or] at h
    have h1 : c ≠ '&' := fun e => h.1.1 e.symm
    have h2 : c ≠ '<' := fun e => h.2.1.1 e.symm
    have h3 : c ≠ '>' := fun e => h.2.2.1 e.symm
    simp [encode_chars, xml_entity, h1, h2, h3, ih ⟨h.1.2, h.2.1.2, h.2.2.2⟩]

/-- C30: for every string x, `encode_xml(x)` is a non-null string that holds no '<' and no
'>', in which every '&' begins one of the entities `&amp;`, `&lt;`, `&gt;`, and from which
replacing those entities by '&', '<' and '>' gives back x; so `encode_xml` is injective;
and it is the identity on strings that hold none of '&', '<', '>'. -/
theorem encode_xml_spec (x : String) :
    ∃ coded : String, encode_xml (some x) = some coded ∧
      '<' ∉ coded.data ∧ '>' ∉ coded.data ∧
      (∀ pre post : List Char, coded.data = pre ++ '&' :: post →
        "amp;".data <+: post ∨ "lt;".data <+: post ∨ "gt;".data <+: post) ∧
      String.mk (decode_entities 0 coded.data) = x ∧
      (∀ y : String, encode_xml (some y) = some coded → y = x) ∧
      ('&' ∉ x.data ∧ '<' ∉ x.data ∧ '>' ∉ x.data → coded = x) := by
  refine ⟨String.mk (encode_chars x.data), encode_xml_eq x, (encode_no_bracket x.data).1,
    (encode_no_bracket x.data).2, encode_amp x.data, ?_, ?_, ?_⟩
  · simp [decode_encode]
  · intro y hy
    rw [encode_xml_eq y] at hy
    have h := congrArg (fun o => o.map (fun s => decode_entities 0 s.data)) hy
    simp only [Option.map_some', decode_encode, Option.some.injEq] at h
    cases x; cases y; simp_all
  · intro h
    simp [encode_plain x.data h]

/-! ### The idle time in the outgoing presence -/

/-- The query child of the presence `jabber_update_presence` builds: for idle > 0 it is in
the last-activity namespace and its seconds attribute is what `snprintf` left in the
10-byte buffer; for idle <= 0 there is none. -/
theorem outgoing_presence_query_child (pri : Int) (status : jabber_presence_t)
    (msg : Option String) (idle : Int) :
    xmpp_stanza_get_child_by_name (outgoing_presence pri status msg idle) "query" =
      if idle > 0 then
        some (.tag "query" [("xmlns", STANZA_NS_LASTACTIVITY), ("seconds", snprintf_d 10 idle)] [])
      else none := by
  by_cases hi : idle > 0 <;> by_cases hp : pri ≠ 0 <;> cases status <;> cases msg <;>
    simp [outgoing_presence, stanza_create_presence, xmpp_stanza_add_child,
      xmpp_stanza_get_child_by_name, xmpp_stanza_children, xmpp_stanza_get_name, hi, hp,
      List.find?_append]

/-- C26, the code at the failing input: while Connected, `jabber_update_presence` with
idle = 1000000000 sends one presence, whose last-activity query child has the seconds
attribute `100000000`: the first nine of the ten digits of idle, which is all the 10-byte
buffer `idle_str` holds. -/
theorem idle_seconds_cut_to_nine_digits :
    logged_in.mem.jabber_conn.conn_status = JABBER_CONNECTED ∧
    (sent_since logged_in
      (jabber_update_presence prefs_reconnect_5 PRESENCE_ONLINE none 1000000000 logged_in)).map
        (fun p => (xmpp_stanza_get_child_by_name p "query").map
          (fun q => (xmpp_stanza_get_attribute q "xmlns", xmpp_stanza_get_attribute q "seconds")))
      = [some (some "jabber:iq:last", some "100000000")] ∧
    toString (1000000000 : Int) = "1000000000" ∧
    snprintf_d 10 1000000000 = "100000000" := by
  refine ⟨rfl, ?_, by decide, by decide⟩
  decide

/-! ### The contact list -/

/-- Adding nothing. -/
theorem add_all_nil (cl : ContactList) : add_all [] cl = cl := rfl

/-- Adding a sequence of jids is adding the first and then the rest. -/
theorem add_all_cons (j : String) (js : List String) (cl : ContactList) :
    add_all (j :: js) cl = add_all js (contact_list_add j none none none none false cl).2 := rfl

/-- The test for a jid in `contact_list_add` is membership among the jids of the list. -/
theorem any_jid_iff (jid : String) (items : List PContact) :
    items.any (fun c => c.jid == jid) = true ↔ jid ∈ items.map p_contact_jid := by
  simp only [List.any_eq_true, beq_iff_eq, List.mem_map, p_contact_jid]

/-- An add of a jid that is in the list fails and changes nothing. -/
theorem add_present (jid : String) (name presence status subscription : Option String)
    (pending_out : Bool) (cl : ContactList)
    (h : jid ∈ (get_contact_list cl).map p_contact_jid) :
    contact_list_add jid name presence status subscription pending_out cl = (false, cl) := by
  have := (any_jid_iff jid cl.items).2 h
  simp [contact_list_add, this]

/-- An add of a jid that is not in the list succeeds and puts the contact at its place in
the order. -/
theorem add_absent (jid : String) (name presence status subscription : Option String)
    (pending_out : Bool) (cl : ContactList)
    (h : jid ∉ (get_contact_list cl).map p_contact_jid) :
    contact_list_add jid name presence status subscription pending_out cl =
      (true, { cl with items := (sorted_insert
        (p_contact_new jid name presence status subscription pending_out) cl.items) }) := by
  have : cl.items.any (fun c => c.jid == jid) = false := by
    cases hb : cl.items.any (fun c => c.jid == jid) with
    | false => rfl
    | true => exact absurd ((any_jid_iff jid cl.items).1 hb) h
  simp [contact_list_add, this]

/-- No text comes before itself. -/
theorem ordinal_lt_irrefl (a : List Char) : ordinal_lt a a = false := by
  induction a with
  | nil => rfl
  | cons c cs ih => simp [ordinal_lt, ih]

/-- The order of the texts is transitive. -/
theorem ordinal_lt_trans : ∀ a b c : List Char,
    ordinal_lt a b = true → ordinal_lt b c = true → ordinal_lt a c = true := by
  intro a
  induction a with
  | nil =>
    intro b c h1 h2
    cases b with
    | nil => simp [ordinal_lt] at h1
    | cons y ys =>
      cases c with
      | nil => simp [ordinal_lt] at h2
      | cons z zs => rfl
  | cons x xs ih =>
    intro b c h1 h2
    cases b with
    | nil => simp [ordinal_lt] at h1
    | cons y ys =>
      cases c with
      | nil => simp [ordinal_lt] at h2
      | cons z zs =>
        simp only [ordinal_lt] at h1 h2 ⊢
        by_cases hxy : x.toNat < y.toNat
        · by_cases hyz : y.toNat < z.toNat
          · have : x.toNat < z.toNat := by omega
            simp [this]
          · by_cases hzy : z.toNat < y.toNat
            · simp [hyz, hzy] at h2
            · have : x.toNat < z.toNat := by omega
              simp [this]
        · by_cases hyx : y.toNat < x.toNat
          · simp [hxy, hyx] at h1
          · simp only [hxy, hyx, if_false] at h1
            by_cases hyz : y.toNat < z.toNat
            · have : x.toNat < z.toNat := by omega
              simp [this]
            · by_cases hzy : z.toNat < y.toNat
              · simp [hyz, hzy] at h2
              · simp only [hyz, hzy, if_false] at h2
                have h3 : ¬ x.toNat < z.toNat := by omega
                have h4 : ¬ z.toNat < x.toNat := by omega
                simp only [h3, h4, if_false]
                exact ih ys zs h1 h2

/-- Two characters with the same code are the same character. -/
theorem char_of_toNat (x y : Char) (h : x.toNat = y.toNat) : x = y := by
  apply Char.ext
  apply UInt32.ext
  exact h

/-- Of two different texts one comes before the other. -/
theorem ordinal_lt_total : ∀ a b : List Char, a ≠ b →
    ordinal_lt a b = true ∨ ordinal_lt b a = true := by
  intro a
  induction a with
  | nil =>
    intro b h
    cases b with
    | nil => exact absurd rfl h
    | cons y ys => exact Or.inl rfl
  | cons x xs ih =>
    intro b h
    cases b with
    | nil => exact Or.inr rfl
    | cons y ys =>
      simp only [ordinal_lt]
      by_cases hxy : x.toNat < y.toNat
      · simp [hxy]
      · by_cases hyx : y.toNat < x.toNat
        · simp [hyx]
        · have hc : x = y := char_of_toNat x y (by omega)
          subst hc
          have hne : xs ≠ ys := fun e => h (by rw [e])
          simp only [hxy, if_false]
          exact ih ys hne

/-- Strictly ascending order of a list of jids. -/
theorem jid_before_trans (a b c : String) (h1 : jid_before a b = true)
    (h2 : jid_before b c = true) : jid_before a c = true :=
  ordinal_lt_trans _ _ _ h1 h2

/-- Of two different jids one comes before the other. -/
theorem jid_before_total (a b : String) (h : a ≠ b) :
    jid_before a b = true ∨ jid_before b a = true := by
  apply ordinal_lt_total
  intro e
  apply h
  cases a; cases b
  simp_all

/-- The contacts after a sorted insert: the new one and the old ones. -/
theorem mem_sorted_insert (c x : PContact) (l : List PContact) :
    x ∈ sorted_insert c l ↔ x = c ∨ x ∈ l := by
  induction l with
  | nil => simp [sorted_insert]
  | cons d ds ih =>
    simp only [sorted_insert]
    cases h : jid_before c.jid d.jid with
    | true => simp
    | false =>
      simp only [Bool.false_eq_true, if_false, List.mem_cons, ih]
      constructor
      · rintro (e | e | e)
        · exact Or.inr (Or.inl e)
        · exact Or.inl e
        · exact Or.inr (Or.inr e)
      · rintro (e | e | e)
        · exact Or.inr (Or.inl e)
        · exact Or.inl e
        · exact Or.inr (Or.inr e)

/-- A sorted insert of a contact whose jid is not in the list keeps the list strictly
ascending by jid. -/
theorem sorted_insert_ascending (c : PContact) (l : List PContact)
    (hs : l.Pairwise (fun a b => jid_before a.jid b.jid = true))
    (hn : ∀ d ∈ l, d.jid ≠ c.jid) :
    (sorted_insert c l).Pairwise (fun a b => jid_before a.jid b.jid = true) := by
  induction l with
  | nil => simp [sorted_insert]
  | cons d ds ih =>
    rw [List.pairwise_cons] at hs
    simp only [sorted_insert]
    by_cases h : jid_before c.jid d.jid = true
    · simp only [h, if_true]
      rw [List.pairwise_cons]
      refine ⟨?_, List.pairwise_cons.2 hs⟩
      intro x hx
      rcases List.mem_cons.1 hx with e | e
      · rw [e]; exact h
      · exact jid_before_trans _ _ _ h (hs.1 x e)
    · have hf : jid_before c.jid d.jid = false := by
        cases hb : jid_before c.jid d.jid with
        | true => exact absurd hb h
        | false => rfl
      simp only [hf, Bool.false_eq_true, if_false]
      have hdc : jid_before d.jid c.jid = true := by
        rcases jid_before_total d.jid c.jid (hn d (List.mem_cons_self _ _)) with e | e
        · exact e
        · exact absurd e h
      rw [List.pairwise_cons]
      refine ⟨?_, ih hs.2 (fun x hx => hn x (List.mem_cons_of_mem _ hx))⟩
      intro x hx
      rcases (mem_sorted_insert c x ds).1 hx with e | e
      · rw [e]; exact hdc
      · exact hs.1 x e

/-- One add keeps a strictly ascending list strictly ascending, and the jids afterwards are
the jids before and the added one. -/
theorem add_keeps_ascending (jid : String) (name presence status subscription : Option String)
    (pending_out : Bool) (cl : ContactList)
    (hs : (get_contact_list cl).Pairwise (fun a b => jid_before a.jid b.jid = true)) :
    (get_contact_list
      (contact_list_add jid name presence status subscription pending_out cl).2).Pairwise
        (fun a b => jid_before a.jid b.jid = true) ∧
    (∀ j, j ∈ (get_contact_list
        (contact_list_add jid name presence status subscription pending_out cl).2).map
          p_contact_jid ↔ j = jid ∨ j ∈ (get_contact_list cl).map p_contact_jid) := by
  by_cases hj : jid ∈ (get_contact_list cl).map p_contact_jid
  · rw [add_present jid name presence status subscription pending_out cl hj]
    refine ⟨hs, fun j => ⟨fun h => Or.inr h, ?_⟩⟩
    rintro (e | e)
    · rw [e]; exact hj
    · exact e
  · rw [add_absent jid name presence status subscription pending_out cl hj]
    constructor
    · apply sorted_insert_ascending _ _ hs
      intro d hd e
      apply hj
      exact List.mem_map.2 ⟨d, hd, e⟩
    · intro j
      simp only [get_contact_list, List.mem_map, mem_sorted_insert, p_contact_jid]
      constructor
      · rintro ⟨x, hx | hx, e⟩
        · left; rw [← e, hx]; rfl
        · exact Or.inr ⟨x, hx, e⟩
      · rintro (e | ⟨x, hx, e⟩)
        · exact ⟨_, Or.inl rfl, e.symm⟩
        · exact ⟨x, Or.inr hx, e⟩

/-- A sequence of adds keeps a strictly ascending list strictly ascending; the jids
afterwards are the jids before and the added ones, and the state of the search is not
touched. -/
theorem add_all_ascending (jids : List String) :
    ∀ cl : ContactList,
      (get_contact_list cl).Pairwise (fun a b => jid_before a.jid b.jid = true) →
      (get_contact_list (add_all jids cl)).Pairwise
        (fun a b => jid_before a.jid b.jid = true) ∧
      (∀ j, j ∈ (get_contact_list (add_all jids cl)).map p_contact_jid ↔
        j ∈ jids ∨ j ∈ (get_contact_list cl).map p_contact_jid) := by
  induction jids with
  | nil => intro cl hs; exact ⟨hs, fun j => by simp [add_all]⟩
  | cons j js ih =>
    intro cl hs
    rw [add_all_cons]
    obtain ⟨h1, h2⟩ := add_keeps_ascending j none none none none false cl hs
    obtain ⟨h3, h4⟩ := ih _ h1
    refine ⟨h3, fun x => ?_⟩
    rw [h4 x, h2 x, List.mem_cons]
    constructor
    · rintro (e | e | e)
      · exact Or.inl (Or.inr e)
      · exact Or.inl (Or.inl e)
      · exact Or.inr e
    · rintro ((e | e) | e)
      · exact Or.inr (Or.inl e)
      · exact Or.inl e
      · exact Or.inr (Or.inr e)

/-- A sequence of `contact_list_add` calls with any arguments keeps a strictly ascending
list strictly ascending; the jids afterwards are the jids before and the added ones. -/
theorem add_calls_ascending (calls : List (String × Option String × Option String ×
    Option String × Option String × Bool)) :
    ∀ cl : ContactList,
      (get_contact_list cl).Pairwise (fun a b => jid_before a.jid b.jid = true) →
      (get_contact_list (add_calls calls cl)).Pairwise
        (fun a b => jid_before a.jid b.jid = true) ∧
      (∀ j, j ∈ (get_contact_list (add_calls calls cl)).map p_contact_jid ↔
        j ∈ calls.map (fun a => a.1) ∨ j ∈ (get_contact_list cl).map p_contact_jid) := by
  induction calls with
  | nil => intro cl hs; exact ⟨hs, fun j => by simp [add_calls]⟩
  | cons c cs ih =>
    intro cl hs
    obtain ⟨h1, h2⟩ := add_keeps_ascending c.1 c.2.1 c.2.2.1 c.2.2.2.1 c.2.2.2.2.1
      c.2.2.2.2.2 cl hs
    obtain ⟨h3, h4⟩ := ih _ h1
    have e : add_calls (c :: cs) cl = add_calls cs
        (contact_list_add c.1 c.2.1 c.2.2.1 c.2.2.2.1 c.2.2.2.2.1 c.2.2.2.2.2 cl).2 := rfl
    rw [e]
    refine ⟨h3, fun x => ?_⟩
    rw [h4 x, h2 x, List.map_cons, List.mem_cons]
    constructor
    · rintro (e | e | e)
      · exact Or.inl (Or.inr e)
      · exact Or.inl (Or.inl e)
      · exact Or.inr e
    · rintro ((e | e) | e)
      · exact Or.inr (Or.inl e)
      · exact Or.inl e
      · exact Or.inr (Or.inr e)

/-- C22: for every sequence of `contact_list_add` calls on the empty list, whatever the
arguments and the order of the calls, the list returned by `get_contact_list` is strictly
ascending by jid and holds exactly the added jids; adding James, Bob, Dave yields Bob, Dave,
James, and so does adding Bob, Dave, James.  Each single add keeps a strictly ascending list
strictly ascending.  The order is strict: no jid comes before itself. -/
theorem contact_list_add_ascending (calls : List (String × Option String × Option String ×
    Option String × Option String × Bool)) :
    ((get_contact_list (add_calls calls contact_list_init)).map p_contact_jid).Pairwise
      (fun a b => jid_before a b = true) ∧
    (∀ j, j ∈ (get_contact_list (add_calls calls contact_list_init)).map p_contact_jid ↔
      j ∈ calls.map (fun a => a.1)) ∧
    (∀ (cl : ContactList) (jid : String) (name presence status subscription : Option String)
      (pending_out : Bool),
      ((get_contact_list cl).map p_contact_jid).Pairwise (fun a b => jid_before a b = true) →
      ((get_contact_list
        (contact_list_add jid name presence status subscription pending_out cl).2).map
          p_contact_jid).Pairwise (fun a b => jid_before a b = true)) ∧
    (∀ a : String, jid_before a a = false) ∧
    (get_contact_list (add_all ["James", "Bob", "Dave"] contact_list_init)).map p_contact_jid
      = ["Bob", "Dave", "James"] ∧
    (get_contact_list (add_all ["Bob", "Dave", "James"] contact_list_init)).map p_contact_jid
      = ["Bob", "Dave", "James"] := by
  have h0 : (get_contact_list contact_list_init).Pairwise
      (fun a b => jid_before a.jid b.jid = true) := List.Pairwise.nil
  obtain ⟨h1, h2⟩ := add_calls_ascending calls contact_list_init h0
  refine ⟨?_, fun j => ?_, ?_, fun a => ordinal_lt_irrefl a.data, by decide, by decide⟩
  · rw [List.pairwise_map]
    exact h1
  · rw [h2 j]
    simp [get_contact_list, contact_list_init]
  · intro cl jid name presence status subscription pending_out hs
    rw [List.pairwise_map] at hs ⊢
    exact (add_keeps_ascending jid name presence status subscription pending_out cl hs).1

/-- Where the scan finds nothing, no jid behind starts with the prefix. -/
theorem search_from_none (root : String) (l : List PContact)
    (h : search_from root l = none) : matching root l = [] := by
  induction l with
  | nil => rfl
  | cons c cs ih =>
    unfold search_from at h
    cases hp : root.data.isPrefixOf c.jid.data with
    | true => simp [hp] at h
    | false =>
      simp [hp] at h
      simp [matching, List.filter_cons, hp]
      simpa [matching] using ih h

/-- Where the scan finds a contact, it is the first match, and the matches behind it are
the other matches. -/
theorem search_from_some (root : String) (l : List PContact) (off : Nat) (jid : String)
    (h : search_from root l = some (off, jid)) :
    matching root l = jid :: matching root (l.drop (off + 1)) := by
  induction l generalizing off with
  | nil => simp [search_from] at h
  | cons c cs ih =>
    unfold search_from at h
    cases hp : root.data.isPrefixOf c.jid.data with
    | true =>
      simp [hp] at h
      obtain ⟨h1, h2⟩ := h
      subst h1; subst h2
      simp [matching, List.filter_cons, hp]
    | false =>
      cases hc : search_from root cs with
      | none => simp [hp, hc] at h
      | some r =>
        obtain ⟨i, j⟩ := r
        simp [hp, hc] at h
        obtain ⟨h1, h2⟩ := h
        subst h1; subst h2
        have := ih i hc
        simp only [matching, List.filter_cons, hp] at this ⊢
        simpa using this

/-- A scan finds something exactly when there is a match. -/
theorem search_from_of_matching (root : String) (l : List PContact) (j : String)
    (js : List String) (h : matching root l = j :: js) :
    ∃ off, search_from root l = some (off, j) := by
  cases hc : search_from root l with
  | none => rw [search_from_none root l hc] at h; cases h
  | some r =>
    obtain ⟨off, jid⟩ := r
    rw [search_from_some root l off jid hc] at h
    exact ⟨off, by rw [(List.cons.inj h).1]⟩

/-- One call in a running search: behind the q-th match comes match number (q + 1) mod m,
m being the number of matches. -/
theorem find_next (root arg : String) (cl : ContactList) (pos q : Nat)
    (hl : cl.last_found = some pos) (hs : cl.search_str = some root)
    (hq : q < (matching root cl.items).length)
    (hinv : matching root (cl.items.drop (pos + 1)) = (matching root cl.items).drop (q + 1)) :
    ∃ pos',
      contact_list_find_contact arg cl =
        ((matching root cl.items)[(q + 1) % (matching root cl.items).length]?,
         { cl with last_found := some pos' }) ∧
      matching root (cl.items.drop (pos' + 1)) =
        (matching root cl.items).drop ((q + 1) % (matching root cl.items).length + 1) := by
  unfold contact_list_find_contact
  simp only [hl, hs]
  by_cases hlast : q + 1 < (matching root cl.items).length
  · rw [Nat.mod_eq_of_lt hlast]
    have hne : matching root (cl.items.drop (pos + 1)) =
        (matching root cl.items)[q + 1] :: (matching root cl.items).drop (q + 1 + 1) := by
      rw [hinv]
      exact List.drop_eq_getElem_cons hlast
    obtain ⟨off, hoff⟩ := search_from_of_matching root _ _ _ hne
    have h2 := search_from_some root _ off _ hoff
    rw [hne] at h2
    refine ⟨pos + 1 + off, ?_, ?_⟩
    · simp [hoff, List.getElem?_eq_getElem hlast]
    · have := (List.cons.inj h2).2
      rw [List.drop_drop] at this
      have e : pos + 1 + off + 1 = pos + 1 + (off + 1) := by omega
      rw [e, ← this]
  · have hm : q + 1 = (matching root cl.items).length := by omega
    rw [hm, Nat.mod_self]
    have hnone : search_from root (cl.items.drop (pos + 1)) = none := by
      cases hc : search_from root (cl.items.drop (pos + 1)) with
      | none => rfl
      | some r =>
        obtain ⟨off, jid⟩ := r
        have := search_from_some root _ off jid hc
        rw [hinv, hm, List.drop_length] at this
        cases this
    have hpos : 0 < (matching root cl.items).length := by omega
    have hne : matching root cl.items =
        (matching root cl.items)[0] :: (matching root cl.items).drop 1 := by
      conv_lhs => rw [← List.drop_zero (matching root cl.items)]
      exact List.drop_eq_getElem_cons hpos
    obtain ⟨off, hoff⟩ := search_from_of_matching root _ _ _ hne
    have h2 := search_from_some root _ off _ hoff
    refine ⟨off, ?_, ?_⟩
    · simp [hnone, hoff, List.getElem?_eq_getElem hpos]
    · have h3 : (matching root cl.items)[0] :: (matching root cl.items).drop 1 =
          (matching root cl.items)[0] :: matching root (cl.items.drop (off + 1)) :=
        hne.symm.trans h2
      exact ((List.cons.inj h3).2).symm

/-- A chain of calls in a running search goes round the matches. -/
theorem search_chain_running (root : String) (n : Nat) :
    ∀ (arg : String) (cl : ContactList) (pos q : Nat),
      cl.last_found = some pos → cl.search_str = some root →
      q < (matching root cl.items).length →
      matching root (cl.items.drop (pos + 1)) = (matching root cl.items).drop (q + 1) →
      (search_chain n arg cl).length = n ∧
      ∀ k, k < n →
        (search_chain n arg cl)[k]? =
          (matching root cl.items)[(q + 1 + k) % (matching root cl.items).length]? := by
  induction n with
  | zero => intro _ _ _ _ _ _ _ _; exact ⟨rfl, fun k hk => absurd hk (Nat.not_lt_zero k)⟩
  | succ n ih =>
    intro arg cl pos q hl hs hq hinv
    obtain ⟨pos', h1, h2⟩ := find_next root arg cl pos q hl hs hq hinv
    have hpos : 0 < (matching root cl.items).length := by omega
    have hlt := Nat.mod_lt (q + 1) hpos
    unfold search_chain
    rw [h1, List.getElem?_eq_getElem hlt]
    simp only []
    obtain ⟨i1, i2⟩ := ih ((matching root cl.items)[(q + 1) % (matching root cl.items).length])
      { cl with last_found := some pos' } pos' ((q + 1) % (matching root cl.items).length)
      rfl hs hlt h2
    refine ⟨by simp [i1], ?_⟩
    intro k hk
    cases k with
    | zero => simp [List.getElem?_eq_getElem hlt]
    | succ k =>
      simp only [List.getElem?_cons_succ]
      rw [i2 k (by omega)]
      have hidx : ((q + 1) % (matching root cl.items).length + 1 + k)
            % (matching root cl.items).length
          = (q + 1 + (k + 1)) % (matching root cl.items).length := by
        rw [Nat.add_assoc, Nat.mod_add_mod]
        congr 1
        omega
      rw [hidx]
/-- The first call of a search: the argument becomes the root and the first match is
returned. -/
theorem find_first (search_str : String) (cl : ContactList) (h : cl.last_found = none) :
    (matching search_str cl.items = [] →
      contact_list_find_contact search_str cl
        = (none, contact_list_reset_search_attempts cl)) ∧
    (∀ j js, matching search_str cl.items = j :: js →
      ∃ off, contact_list_find_contact search_str cl =
          (some j, { cl with search_str := some search_str, last_found := some off }) ∧
        matching search_str (cl.items.drop (off + 1)) = js) := by
  unfold contact_list_find_contact
  simp only [h]
  constructor
  · intro hm
    cases hc : search_from search_str cl.items with
    | none => rfl
    | some r =>
      obtain ⟨off, jid⟩ := r
      rw [search_from_some search_str _ off jid hc] at hm
      cases hm
  · intro j js hm
    obtain ⟨off, hoff⟩ := search_from_of_matching search_str _ j js hm
    have h2 := search_from_some search_str _ off j hoff
    rw [hm] at h2
    exact ⟨off, by simp [hoff], ((List.cons.inj h2).2).symm⟩

/-- C24: starting from a reset search, a chain of n calls of `contact_list_find_contact`,
the first with a prefix and each later one with the result of the call before, returns the
contacts whose jid starts with that prefix in list order, going round them: call number
k + 1 returns match number k mod m of the m matches, so the first m calls return the
first, second, ..., m-th match.  With no match, or an empty list, the call returns null.
After `contact_list_reset_search_attempts` the next call returns the first match of its
own argument. -/
theorem find_contact_cycles (search_str : String) (cl : ContactList) (n : Nat)
    (h : cl.last_found = none) :
    (matching search_str cl.items = [] →
      (contact_list_find_contact search_str cl).1 = none) ∧
    (cl.items = [] → (contact_list_find_contact search_str cl).1 = none) ∧
    (matching search_str cl.items ≠ [] →
      (search_chain n search_str cl).length = n ∧
      (∀ k, k < n →
        (search_chain n search_str cl)[k]? =
          (matching search_str cl.items)[k % (matching search_str cl.items).length]?) ∧
      (∀ k, k < n → k < (matching search_str cl.items).length →
        (search_chain n search_str cl)[k]? = (matching search_str cl.items)[k]?)) ∧
    (∀ (running : ContactList) (arg : String),
      (contact_list_find_contact arg (contact_list_reset_search_attempts running)).1
        = (matching arg running.items).head?) := by
  have hcyc : matching search_str cl.items ≠ [] →
      (search_chain n search_str cl).length = n ∧
      (∀ k, k < n →
        (search_chain n search_str cl)[k]? =
          (matching search_str cl.items)[k % (matching search_str cl.items).length]?) := by
    intro hne
    cases n with
    | zero => exact ⟨rfl, fun k hk => absurd hk (Nat.not_lt_zero k)⟩
    | succ n =>
      cases hm : matching search_str cl.items with
      | nil => exact absurd hm hne
      | cons j js =>
        obtain ⟨off, h1, h2⟩ := (find_first search_str cl h).2 j js hm
        have hitems : ({ cl with search_str := some search_str, last_found := some off }
            : ContactList).items = cl.items := rfl
        obtain ⟨i1, i2⟩ := search_chain_running search_str n j
          { cl with search_str := some search_str, last_found := some off } off 0 rfl rfl
          (by rw [hitems, hm]; simp) (by rw [hitems, hm]; simpa using h2)
        rw [hitems, hm] at i2
        unfold search_chain
        rw [h1]
        simp only []
        refine ⟨by simp [i1], ?_⟩
        intro k hk
        cases k with
        | zero => simp
        | succ k =>
          simp only [List.getElem?_cons_succ]
          rw [i2 k (by omega)]
          congr 2
          omega
  refine ⟨fun hm => by rw [(find_first search_str cl h).1 hm], ?_, ?_, ?_⟩
  · intro he
    have hm : matching search_str cl.items = [] := by rw [he]; rfl
    rw [(find_first search_str cl h).1 hm]
  · intro hne
    obtain ⟨c1, c2⟩ := hcyc hne
    refine ⟨c1, c2, ?_⟩
    intro k hk hkm
    rw [c2 k hk, Nat.mod_eq_of_lt hkm]
  · intro running arg
    have hr : (contact_list_reset_search_attempts running).last_found = none := rfl
    have hi : (contact_list_reset_search_attempts running).items = running.items := rfl
    cases hm : matching arg running.items with
    | nil =>
      rw [(find_first arg _ hr).1 (by rw [hi]; exact hm)]
      rfl
    | cons j js =>
      obtain ⟨off, h1, _⟩ := (find_first arg _ hr).2 j js (by rw [hi]; exact hm)
      rw [h1]
      rfl

/-- C24 at the contacts of the test `find_five_times_finds_fifth`: the fifth call for Jam
returns Jamo; a sixth, seventh and eighth call would return Jamy, Jamz and Jama again. -/
theorem find_contact_cycles_witness :
    (add_all ["Jama", "Jamb", "Mike", "Dave", "Jamm", "Jamn", "Matt", "Jamo", "Jamy", "Jamz"]
      contact_list_init).last_found = none ∧
    ((search_chain 8 "Jam"
        (add_all ["Jama", "Jamb", "Mike", "Dave", "Jamm", "Jamn", "Matt", "Jamo", "Jamy", "Jamz"]
          contact_list_init)).length = 8 ∧
      (∀ k, k < 8 →
        (search_chain 8 "Jam"
          (add_all ["Jama", "Jamb", "Mike", "Dave", "Jamm", "Jamn", "Matt", "Jamo", "Jamy",
            "Jamz"] contact_list_init))[k]? =
          (matching "Jam" (add_all ["Jama", "Jamb", "Mike", "Dave", "Jamm", "Jamn", "Matt",
            "Jamo", "Jamy", "Jamz"] contact_list_init).items)[k %
              (matching "Jam" (add_all ["Jama", "Jamb", "Mike", "Dave", "Jamm", "Jamn", "Matt",
                "Jamo", "Jamy", "Jamz"] contact_list_init).items).length]?)) ∧
    search_chain 8 "Jam"
        (add_all ["Jama", "Jamb", "Mike", "Dave", "Jamm", "Jamn", "Matt", "Jamo", "Jamy", "Jamz"]
          contact_list_init)
      = ["Jama", "Jamb", "Jamm", "Jamn", "Jamo", "Jamy", "Jamz", "Jama"] :=
  ⟨rfl,
   let r := (find_contact_cycles "Jam"
      (add_all ["Jama", "Jamb", "Mike", "Dave", "Jamm", "Jamn", "Matt", "Jamo", "Jamy", "Jamz"]
        contact_list_init) 8 rfl).2.2.1 (by decide)
   ⟨r.1, r.2.1⟩,
   by decide⟩

/-! ### The command parser -/

/-- Whitespace before a token is passed over. -/
theorem scan_tokens_blank (ws l : List Char) (h : ∀ c ∈ ws, c.isWhitespace = true) :
    scan_tokens (ws ++ l) none = scan_tokens l none := by
  induction ws with
  | nil => rfl
  | cons c cs ih =>
    have hc := h c (List.mem_cons_self _ _)
    simp only [List.cons_append, scan_tokens, hc, if_true, List.append_eq]
    exact ih (fun x hx => h x (List.mem_cons_of_mem _ hx))

/-- The characters of a word extend the token being read. -/
theorem scan_tokens_word (w l t : List Char) (h : ∀ c ∈ w, c.isWhitespace = false) :
    scan_tokens (w ++ l) (some t) = scan_tokens l (some (t ++ w)) := by
  induction w generalizing t with
  | nil => simp
  | cons c cs ih =>
    have hc := h c (List.mem_cons_self _ _)
    simp only [List.cons_append, scan_tokens, hc, Bool.false_eq_true, if_false, List.append_eq]
    rw [ih _ (fun x hx => h x (List.mem_cons_of_mem _ hx))]
    simp

/-- Whitespace ends the token being read. -/
theorem scan_tokens_end (sp l t : List Char) (h : ∀ c ∈ sp, c.isWhitespace = true)
    (hne : sp ≠ []) : scan_tokens (sp ++ l) (some t) = t :: scan_tokens l none := by
  cases sp with
  | nil => exact absurd rfl hne
  | cons c cs =>
    have hc := h c (List.mem_cons_self _ _)
    simp only [List.cons_append, scan_tokens, hc, if_true, List.append_eq]
    rw [scan_tokens_blank cs l (fun x hx => h x (List.mem_cons_of_mem _ hx))]

/-- The end of the input ends the token being read, also behind trailing whitespace. -/
theorem scan_tokens_last (sp t : List Char) (h : ∀ c ∈ sp, c.isWhitespace = true) :
    scan_tokens sp (some t) = [t] := by
  cases sp with
  | nil => rfl
  | cons c cs =>
    have := scan_tokens_end (c :: cs) [] t h (by simp)
    simpa [scan_tokens] using this

/-- A word at the start of a token is read as that token. -/
theorem scan_tokens_start (w l : List Char) (hne : w ≠ [])
    (h : ∀ c ∈ w, c.isWhitespace = false) :
    scan_tokens (w ++ l) none = scan_tokens l (some w) := by
  cases w with
  | nil => exact absurd rfl hne
  | cons c cs =>
    have hc := h c (List.mem_cons_self _ _)
    simp only [List.cons_append, scan_tokens, hc, Bool.false_eq_true, if_false, List.append_eq]
    rw [scan_tokens_word cs l [c] (fun x hx => h x (List.mem_cons_of_mem _ hx))]
    simp

/-- The tokens of a command line are its words. -/
theorem scan_tokens_words (words : List (List Char × List Char))
    (hwords : ∀ p ∈ words, p.1 ≠ [] ∧ (∀ c ∈ p.1, c.isWhitespace = false) ∧
      (∀ c ∈ p.2, c.isWhitespace = true))
    (hsep : ∀ p ∈ words.dropLast, p.2 ≠ []) :
    scan_tokens (words.map (fun w => w.1 ++ w.2)).flatten none = words.map (fun p => p.1) := by
  induction words with
  | nil => rfl
  | cons p rest ih =>
    obtain ⟨h1, h2, h3⟩ := hwords p (List.mem_cons_self _ _)
    simp only [List.map_cons, List.flatten_cons, List.append_assoc]
    rw [scan_tokens_start p.1 _ h1 h2]
    cases rest with
    | nil =>
      simp only [List.map_nil, List.flatten_nil, List.append_nil]
      rw [scan_tokens_last p.2 p.1 h3]
    | cons q rest' =>
      have hp : p.2 ≠ [] := hsep p (by simp [List.dropLast])
      rw [scan_tokens_end p.2 _ p.1 h3 hp]
      rw [ih (fun x hx => hwords x (List.mem_cons_of_mem _ hx))
        (fun x hx => hsep x (by
          simp only [List.dropLast_cons₂] at hx ⊢
          exact List.mem_cons_of_mem _ hx))]

/-- Whitespace before a token is passed over, in the free-text scan. -/
theorem scan_freetext_blank (limit n : Nat) (ws l : List Char)
    (h : ∀ c ∈ ws, c.isWhitespace = true) :
    scan_tokens_freetext limit n (ws ++ l) none = scan_tokens_freetext limit n l none := by
  induction ws with
  | nil => rfl
  | cons c cs ih =>
    have hc := h c (List.mem_cons_self _ _)
    simp only [List.cons_append, scan_tokens_freetext, hc, if_true, List.append_eq]
    exact ih (fun x hx => h x (List.mem_cons_of_mem _ hx))

/-- The characters of a word extend the token being read, in the free-text scan. -/
theorem scan_freetext_word (limit n : Nat) (w l t : List Char)
    (h : ∀ c ∈ w, c.isWhitespace = false) :
    scan_tokens_freetext limit n (w ++ l) (some t)
      = scan_tokens_freetext limit n l (some (t ++ w)) := by
  induction w generalizing t with
  | nil => simp
  | cons c cs ih =>
    have hc := h c (List.mem_cons_self _ _)
    simp only [List.cons_append, scan_tokens_freetext, hc, Bool.false_eq_true, if_false, List.append_eq]
    rw [ih _ (fun x hx => h x (List.mem_cons_of_mem _ hx))]
    simp

/-- Whitespace ends the token being read, in the free-text scan. -/
theorem scan_freetext_end (limit n : Nat) (sp l t : List Char)
    (h : ∀ c ∈ sp, c.isWhitespace = true) (hne : sp ≠ []) :
    scan_tokens_freetext limit n (sp ++ l) (some t)
      = t :: scan_tokens_freetext limit n l none := by
  cases sp with
  | nil => exact absurd rfl hne
  | cons c cs =>
    have hc := h c (List.mem_cons_self _ _)
    simp only [List.cons_append, scan_tokens_freetext, hc, if_true, List.append_eq]
    rw [scan_freetext_blank limit n cs l (fun x hx => h x (List.mem_cons_of_mem _ hx))]

/-- The end of the input ends the token being read, in the free-text scan. -/
theorem scan_freetext_last (limit n : Nat) (sp t : List Char)
    (h : ∀ c ∈ sp, c.isWhitespace = true) :
    scan_tokens_freetext limit n sp (some t) = [t] := by
  cases sp with
  | nil => simp [scan_tokens_freetext]
  | cons c cs =>
    have := scan_freetext_end limit n (c :: cs) [] t h (by simp)
    simpa [scan_tokens_freetext] using this

/-- A word before the free text is read as one token, in the free-text scan. -/
theorem scan_freetext_start (limit n : Nat) (w l : List Char) (hne : w ≠ [])
    (h : ∀ c ∈ w, c.isWhitespace = false) (hn : n + 1 ≠ limit) :
    scan_tokens_freetext limit n (w ++ l) none
      = scan_tokens_freetext limit (n + 1) l (some w) := by
  cases w with
  | nil => exact absurd rfl hne
  | cons c cs =>
    have hc := h c (List.mem_cons_self _ _)
    simp only [List.cons_append, scan_tokens_freetext, hc, hn, Bool.false_eq_true, if_false, List.append_eq]
    rw [scan_freetext_word limit (n + 1) cs l [c] (fun x hx => h x (List.mem_cons_of_mem _ hx))]
    simp

/-- The words before the free text are single tokens. -/
theorem scan_freetext_words (limit : Nat) (words : List (List Char × List Char)) :
    ∀ (n : Nat) (tail : List Char), n + words.length < limit →
      (∀ p ∈ words, p.1 ≠ [] ∧ (∀ c ∈ p.1, c.isWhitespace = false) ∧
        (∀ c ∈ p.2, c.isWhitespace = true) ∧ p.2 ≠ []) →
      scan_tokens_freetext limit n ((words.map (fun w => w.1 ++ w.2)).flatten ++ tail) none
        = words.map (fun p => p.1)
          ++ scan_tokens_freetext limit (n + words.length) tail none := by
  induction words with
  | nil => intro n tail _ _; rfl
  | cons p rest ih =>
    intro n tail hn hwords
    obtain ⟨h1, h2, h3, h4⟩ := hwords p (List.mem_cons_self _ _)
    simp only [List.map_cons, List.flatten_cons, List.append_assoc, List.length_cons] at hn ⊢
    rw [scan_freetext_start limit n p.1 _ h1 h2 (by omega)]
    rw [scan_freetext_end limit (n + 1) p.2 _ p.1 h3 h4]
    rw [ih (n + 1) tail (by omega) (fun x hx => hwords x (List.mem_cons_of_mem _ hx))]
    simp only [List.cons_append]
    congr 3
    omega

/-- With fewer words than the limit, the free-text scan cuts the line as the plain scan. -/
theorem scan_freetext_few (limit : Nat) (words : List (List Char × List Char)) :
    ∀ (n : Nat), n + words.length < limit →
      (∀ p ∈ words, p.1 ≠ [] ∧ (∀ c ∈ p.1, c.isWhitespace = false) ∧
        (∀ c ∈ p.2, c.isWhitespace = true)) →
      (∀ p ∈ words.dropLast, p.2 ≠ []) →
      scan_tokens_freetext limit n (words.map (fun w => w.1 ++ w.2)).flatten none
        = words.map (fun p => p.1) := by
  induction words with
  | nil => intro _ _ _ _; rfl
  | cons p rest ih =>
    intro n hn hwords hsep
    obtain ⟨h1, h2, h3⟩ := hwords p (List.mem_cons_self _ _)
    simp only [List.map_cons, List.flatten_cons, List.append_assoc, List.length_cons] at hn ⊢
    rw [scan_freetext_start limit n p.1 _ h1 h2 (by omega)]
    cases rest with
    | nil =>
      simp only [List.map_nil, List.flatten_nil, List.append_nil]
      rw [scan_freetext_last limit (n + 1) p.2 p.1 h3]
    | cons q rest' =>
      have hp : p.2 ≠ [] := hsep p (by simp [List.dropLast])
      rw [scan_freetext_end limit (n + 1) p.2 _ p.1 h3 hp]
      rw [ih (n + 1) (by simp only [List.length_cons] at hn ⊢; omega)
        (fun x hx => hwords x (List.mem_cons_of_mem _ hx))
        (fun x hx => hsep x (by
          simp only [List.dropLast_cons₂] at hx ⊢
          exact List.mem_cons_of_mem _ hx))]

/-- Free text that ends in a character other than whitespace, followed by whitespace only,
is what is left when the trailing whitespace is dropped. -/
theorem strip_trailing_free (free trail : List Char) (z : Char)
    (hz : free.getLast? = some z) (hzw : z.isWhitespace = false)
    (ht : ∀ c ∈ trail, c.isWhitespace = true) :
    strip_trailing (free ++ trail) = free := by
  obtain ⟨init, rfl⟩ : ∃ init, free = init ++ [z] := by
    rcases List.eq_nil_or_concat free with h | ⟨init, b, h⟩
    · subst h; simp at hz
    · subst h
      simp at hz
      exact ⟨init, by rw [hz]; simp⟩
  unfold strip_trailing
  have hdrop : ∀ (a b : List Char), (∀ c ∈ a, c.isWhitespace = true) →
      (a ++ b).dropWhile Char.isWhitespace = b.dropWhile Char.isWhitespace := by
    intro a b ha
    induction a with
    | nil => rfl
    | cons c cs ih =>
      simp only [List.cons_append, List.dropWhile_cons, ha c (List.mem_cons_self _ _), if_true]
      exact ih (fun x hx => ha x (List.mem_cons_of_mem _ hx))
  simp only [List.reverse_append, List.reverse_cons, List.reverse_nil, List.nil_append,
    List.singleton_append, List.append_assoc]
  rw [hdrop trail.reverse _ (fun c hc => ht c (List.mem_reverse.1 hc))]
  simp [List.dropWhile_cons, hzw]
/-- C25: `parse_args` returns null for a null input and for an input that is empty or
only whitespace.  For a command line made of a command word and arguments, with
whitespace of any length before, between and behind them, it returns exactly the
arguments in their order when their number lies between min and max, and null when it is
less than min or greater than max (the empty vector when there are none and min = 0).
`parse_args_with_freetext` returns null for the same inputs, returns what `parse_args`
returns when there are fewer than max arguments, and for a line with max - 1 arguments
followed by free text returns those arguments and the free text, inner whitespace kept, as
the last string, if min is at most max. -/
theorem parse_args_spec (lead : List Char) (cmd : List Char × List Char)
    (args : List (List Char × List Char)) (min max : Int)
    (hlead : ∀ c ∈ lead, c.isWhitespace = true)
    (hwords : ∀ p ∈ cmd :: args, p.1 ≠ [] ∧ (∀ c ∈ p.1, c.isWhitespace = false) ∧
      (∀ c ∈ p.2, c.isWhitespace = true)) :
    parse_args none min max = none ∧
    parse_args_with_freetext none min max = none ∧
    parse_args (some (String.mk lead)) min max = none ∧
    parse_args_with_freetext (some (String.mk lead)) min max = none ∧
    ((∀ p ∈ (cmd :: args).dropLast, p.2 ≠ []) →
      parse_args (some (String.mk (command_line lead (cmd :: args)))) min max =
        (if min ≤ (args.length : Int) ∧ (args.length : Int) ≤ max then
          some (args.map (fun p => String.mk p.1))
        else none) ∧
      ((args.length : Int) < max →
        parse_args_with_freetext (some (String.mk (command_line lead (cmd :: args)))) min max
          = parse_args (some (String.mk (command_line lead (cmd :: args)))) min max)) ∧
    (∀ (free trail : List Char) (a z : Char),
      (∀ p ∈ cmd :: args, p.2 ≠ []) → (args.length : Int) + 1 = max →
      free.head? = some a → a.isWhitespace = false →
      free.getLast? = some z → z.isWhitespace = false →
      (∀ c ∈ trail, c.isWhitespace = true) →
      parse_args_with_freetext
          (some (String.mk (command_line lead (cmd :: args) ++ free ++ trail))) min max =
        (if min ≤ max then some (args.map (fun p => String.mk p.1) ++ [String.mk free])
         else none)) := by
  have hblank : scan_tokens lead none = [] := by
    have := scan_tokens_blank lead [] hlead
    simpa [scan_tokens] using this
  have hblankf : ∀ limit, scan_tokens_freetext limit 0 lead none = [] := by
    intro limit
    have := scan_freetext_blank limit 0 lead [] hlead
    simpa [scan_tokens_freetext] using this
  refine ⟨rfl, rfl, ?_, ?_, ?_, ?_⟩
  · simp [parse_args, hblank]
  · by_cases hm : 1 ≤ max <;> simp [parse_args_with_freetext, hm, hblank, hblankf]
  · intro hsep
    have hplain : scan_tokens (command_line lead (cmd :: args)) none
        = (cmd :: args).map (fun p => p.1) := by
      unfold command_line
      rw [scan_tokens_blank lead _ hlead, scan_tokens_words (cmd :: args) hwords hsep]
    constructor
    · simp [parse_args, hplain, Function.comp_def]
    · intro hlt
      have h1 : 1 ≤ max := by omega
      have hfree : scan_tokens_freetext (max.toNat + 1) 0 (command_line lead (cmd :: args)) none
          = (cmd :: args).map (fun p => p.1) := by
        unfold command_line
        rw [scan_freetext_blank _ 0 lead _ hlead]
        exact scan_freetext_few _ (cmd :: args) 0 (by simp; omega) hwords hsep
      simp [parse_args, parse_args_with_freetext, h1, hplain, hfree]
  · intro free trail a z hsep hmax ha haw hz hzw ht
    have h1 : 1 ≤ max := by omega
    have hlim : max.toNat + 1 = (cmd :: args).length + 1 := by simp; omega
    obtain ⟨fs, rfl⟩ : ∃ fs, free = a :: fs := by
      cases free with
      | nil => simp at ha
      | cons x xs => simp at ha; exact ⟨xs, by rw [ha]⟩
    have hscan : scan_tokens_freetext (max.toNat + 1) 0
        (command_line lead (cmd :: args) ++ (a :: fs) ++ trail) none
        = (cmd :: args).map (fun p => p.1) ++ [a :: fs] := by
      unfold command_line
      rw [List.append_assoc, List.append_assoc, scan_freetext_blank _ 0 lead _ hlead,
        scan_freetext_words _ (cmd :: args) 0 ((a :: fs) ++ trail) (by omega)
          (fun p hp => ⟨(hwords p hp).1, (hwords p hp).2.1, (hwords p hp).2.2, hsep p hp⟩)]
      congr 1
      have hstrip := strip_trailing_free (a :: fs) trail z hz hzw ht
      simp only [List.cons_append] at hstrip ⊢
      simp [scan_tokens_freetext, haw, hlim, hstrip]
    simp only [parse_args_with_freetext, h1, if_true, hscan]
    simp only [List.map_cons, List.cons_append, List.length_append, List.length_map,
      List.length_singleton, List.map_append, List.map_nil]
    by_cases hmm : min ≤ max
    · have : min ≤ (args.length : Int) + 1 ∧ (args.length : Int) + 1 ≤ max := by
        constructor <;> omega
      simp [this, hmm, Function.comp_def]
    · have : ¬ (min ≤ (args.length : Int) + 1 ∧ (args.length : Int) + 1 ≤ max) := by
        omega
      simp only [Nat.cast_add, Nat.cast_one, this, hmm, if_false]

/-- C25 at the lines of the tests `parse_cmd_three_args_with_spaces` and
`parse_cmd_one_arg_with_freetext`. -/
theorem parse_args_spec_witness :
    parse_args (some "  /cmd    arg1  arg2     arg3 ") 3 3 = some ["arg1", "arg2", "arg3"] ∧
    parse_args_with_freetext (some "/cmd arg1 this is some free text") 1 2
      = some ["arg1", "this is some free text"] ∧
    parse_args (some "/cmd arg1 arg2 arg3 arg4") 1 3 = none ∧
    (parse_args (some (String.mk (command_line "  ".data
        (("/cmd".data, "    ".data) ::
          [("arg1".data, "  ".data), ("arg2".data, "     ".data), ("arg3".data, " ".data)]))))
        3 3 =
      (if (3 : Int) ≤ (3 : Nat) ∧ ((3 : Nat) : Int) ≤ 3 then
        some ([("arg1".data, "  ".data), ("arg2".data, "     ".data),
          ("arg3".data, " ".data)].map (fun p => String.mk p.1))
      else none)) :=
  ⟨by decide, by decide, by decide,
   ((parse_args_spec "  ".data ("/cmd".data, "    ".data)
      [("arg1".data, "  ".data), ("arg2".data, "     ".data), ("arg3".data, " ".data)] 3 3
      (by decide) (by decide)).2.2.2.2.1 (by decide)).1⟩

/-! ### Inbound groupchat messages -/

/-- The notifications among the calls a step adds to the history. -/
theorem notified_since_emit (e : Effect) (s : Session) :
    notified_since s (emit e s) =
      if "prof_handle_".data.isPrefixOf e.call.data then [e] else [] := by
  simp only [notified_since, notifications, emit, List.drop_left]
  by_cases h : "prof_handle_".data.isPrefixOf e.call.data = true <;> simp [h]

/-- A step that adds nothing to the history raises no notification. -/
theorem notified_since_same (s s' : Session) (h : s'.trace = s.trace) :
    notified_since s s' = [] := by
  simp [notified_since, notifications, h]

/-- The text before the first '/' of room/nick is the room, for a room without '/'. -/
theorem room_part (room nick : String) (h : '/' ∉ room.data) :
    (room ++ "/" ++ nick).data.takeWhile (fun c => !(c == '/')) = room.data ∧
    ((room ++ "/" ++ nick).data.dropWhile (fun c => !(c == '/'))).drop 1 = nick.data ∧
    (room ++ "/" ++ nick).data.contains '/' = true := by
  have hall : ∀ a ∈ room.data, (!(a == '/')) = true := by
    intro a ha
    have : a ≠ '/' := fun e => h (e ▸ ha)
    simpa using this
  have hd : (room ++ "/" ++ nick).data = room.data ++ '/' :: nick.data := by
    simp [String.data_append]
  rw [hd]
  refine ⟨?_, ?_, ?_⟩
  · rw [List.takeWhile_append_of_pos hall]; simp
  · rw [List.dropWhile_append_of_pos hall]; simp
  · simp

/-- A jid room/nick of a registered room without '/' is active, is no room jid, and
parses as room and nick. -/
theorem occupant_jid (room nick : String) (rooms : List MucRoom) (h : '/' ∉ room.data)
    (hr : room ∈ muc_get_active_room_list rooms) :
    jid_is_room (room ++ "/" ++ nick) = false ∧
    parse_room_jid (room ++ "/" ++ nick) = some (room, nick) ∧
    muc_room_is_active (room ++ "/" ++ nick) rooms = true := by
  obtain ⟨h1, h2, h3⟩ := room_part room nick h
  refine ⟨by unfold jid_is_room; rw [h3]; rfl, by simp only [parse_room_jid, h3, if_true, h1, h2], ?_⟩
  obtain ⟨r, hr1, hr2⟩ := List.mem_map.1 hr
  simp only [muc_room_is_active, h1, List.any_eq_true, beq_iff_eq]
  exact ⟨r, hr1, hr2⟩

/-- C27, refuted as stated: a groupchat message with a body whose from attribute is
`room@conf`, which cannot be parsed as room/nick and names no active room, raises the
room-broadcast notification. -/
theorem groupchat_broadcast_without_nick :
    xmpp_stanza_get_attribute room_broadcast "from" = some "room@conf" ∧
    parse_room_jid "room@conf" = none ∧
    muc_room_is_active "room@conf" logged_in.mem.muc_rooms = false ∧
    (∃ s', _groupchat_message_handler room_broadcast logged_in = .ok (1, s') ∧
      notified_since logged_in s' =
        [.invoke "prof_handle_room_broadcast" [some "room@conf", some "hello"]]) :=
  ⟨rfl, rfl, rfl, _, rfl, rfl⟩

/-- C27, amended: for a groupchat message with a from attribute, `_groupchat_message_handler`
returns 1, leaves the controller state as it was and raises at most one notification.  If
the from attribute is room/nick of an active room and the message has a body, it raises
exactly one: room-history, with the timestamp, when `stanza_get_delay` finds a delay
timestamp, and the live room-message otherwise.  If the from attribute has a '/' and the
room is not active (or the jid does not parse), it raises none.  If the from attribute has
no '/', the message is a room broadcast whether or not the room is active: a subject child
with text raises room-subject, and without a subject child a body with text raises
room-broadcast. -/
theorem groupchat_message_handler_spec (stanza : xmpp_stanza_t) (s : Session) (f : String)
    (hf : xmpp_stanza_get_attribute stanza "from" = some f) :
    (∃ s', _groupchat_message_handler stanza s = .ok (1, s') ∧ s'.mem = s.mem ∧
      (notified_since s s').length ≤ 1) ∧
    (∀ room nick body, '/' ∉ room.data → f = room ++ "/" ++ nick →
      room ∈ muc_get_active_room_list s.mem.muc_rooms →
      xmpp_stanza_get_child_by_name stanza "body" = some body →
      (∀ stamp, stanza_get_delay stanza = some stamp →
        ∃ s', _groupchat_message_handler stanza s = .ok (1, s') ∧
          notified_since s s' = [.invoke "prof_handle_room_history"
            [some room, some nick, some stamp, xmpp_stanza_get_text body]]) ∧
      (stanza_get_delay stanza = none →
        ∃ s', _groupchat_message_handler stanza s = .ok (1, s') ∧
          notified_since s s' = [.invoke "prof_handle_room_message"
            [some room, some nick, xmpp_stanza_get_text body]])) ∧
    (f.data.contains '/' = true →
      parse_room_jid f = none ∨ muc_room_is_active f s.mem.muc_rooms = false →
      ∃ s', _groupchat_message_handler stanza s = .ok (1, s') ∧ notified_since s s' = []) ∧
    (f.data.contains '/' = false →
      (∀ subject message, xmpp_stanza_get_child_by_name stanza "subject" = some subject →
        xmpp_stanza_get_text subject = some message →
        ∃ s', _groupchat_message_handler stanza s = .ok (1, s') ∧
          notified_since s s' = [.invoke "prof_handle_room_subject"
            [some (get_room_from_full_jid f), some message]]) ∧
      (∀ body message, xmpp_stanza_get_child_by_name stanza "subject" = none →
        xmpp_stanza_get_child_by_name stanza "body" = some body →
        xmpp_stanza_get_text body = some message →
        ∃ s', _groupchat_message_handler stanza s = .ok (1, s') ∧
          notified_since s s' = [.invoke "prof_handle_room_broadcast"
            [some f, some message]])) := by
  refine ⟨?_, ?_, ?_, ?_⟩
  · unfold _groupchat_message_handler
    simp only [hf]
    split
    · split
      · split
        · exact ⟨_, rfl, rfl, by rw [notified_since_emit]; split <;> simp⟩
        · exact ⟨_, rfl, rfl, by rw [notified_since_same s s rfl]; simp⟩
      · split
        · split
          · exact ⟨_, rfl, rfl, by rw [notified_since_emit]; split <;> simp⟩
          · exact ⟨_, rfl, rfl, by rw [notified_since_same s s rfl]; simp⟩
        · exact ⟨_, rfl, rfl, by rw [notified_since_same s s rfl]; simp⟩
    · split
      · exact ⟨_, rfl, rfl, by rw [notified_since_emit]; split <;> simp⟩
      · split
        · exact ⟨_, rfl, rfl, by rw [notified_since_emit]; split <;> simp⟩
        · split
          · split
            · exact ⟨_, rfl, rfl, by rw [notified_since_emit]; split <;> simp⟩
            · exact ⟨_, rfl, rfl, by rw [notified_since_emit]; split <;> simp⟩
          · exact ⟨_, rfl, rfl, by rw [notified_since_same s s rfl]; simp⟩
  · intro room nick body hroom hfe hact hbody
    subst hfe
    obtain ⟨h1, h2, h3⟩ := occupant_jid room nick s.mem.muc_rooms hroom hact
    constructor
    · intro stamp hstamp
      refine ⟨emit (.invoke "prof_handle_room_history"
        [some room, some nick, some stamp, xmpp_stanza_get_text body]) s, ?_,
        by rw [notified_since_emit]; rfl⟩
      simp [_groupchat_message_handler, hf, h1, h2, h3, hbody, hstamp]
    · intro hstamp
      refine ⟨emit (.invoke "prof_handle_room_message"
        [some room, some nick, xmpp_stanza_get_text body]) s, ?_,
        by rw [notified_since_emit]; rfl⟩
      simp [_groupchat_message_handler, hf, h1, h2, h3, hbody, hstamp]
  · intro hslash hcase
    have hroom : jid_is_room f = false := by unfold jid_is_room; rw [hslash]; rfl
    unfold _groupchat_message_handler
    simp only [hf, hroom]
    rcases hcase with hp | ha
    · simp only [hp]
      exact ⟨_, rfl, by rw [notified_since_emit]; rfl⟩
    · cases hp : parse_room_jid f with
      | none => exact ⟨_, rfl, by rw [notified_since_emit]; rfl⟩
      | some rn =>
        simp only [ha]
        exact ⟨_, rfl, by rw [notified_since_emit]; rfl⟩
  · intro hslash
    have hroom : jid_is_room f = true := by unfold jid_is_room; rw [hslash]; rfl
    constructor
    · intro subject message hsub htext
      refine ⟨emit (.invoke "prof_handle_room_subject"
        [some (get_room_from_full_jid f), some message]) s, ?_,
        by rw [notified_since_emit]; rfl⟩
      simp [_groupchat_message_handler, hf, hroom, hsub, htext]
    · intro body message hsub hbody htext
      refine ⟨emit (.invoke "prof_handle_room_broadcast" [some f, some message]) s, ?_,
        by rw [notified_since_emit]; rfl⟩
      simp [_groupchat_message_handler, hf, hroom, hsub, hbody, htext]
/-! ### Inbound presence -/

/-- The notifications among the calls a step adds to the history, when the step has changed
the state before the call. -/
theorem notified_since_emit_after (e : Effect) (s s2 : Session) (h : s2.trace = s.trace) :
    notified_since s (emit e s2) =
      if "prof_handle_".data.isPrefixOf e.call.data then [e] else [] := by
  simp only [notified_since, notifications, emit, h, List.drop_left]
  by_cases h : "prof_handle_".data.isPrefixOf e.call.data = true <;> simp [h]

/-- A listed room is found in the registry. -/
theorem listed_room_found (rooms : List MucRoom) (room : String)
    (h : room ∈ muc_get_active_room_list rooms) :
    ∃ r, rooms.find? (fun x => x.room == room) = some r ∧ r.room = room := by
  obtain ⟨r, hr, rfl⟩ := List.mem_map.1 h
  cases hf : rooms.find? (fun x => x.room == r.room) with
  | none =>
    have := List.find?_eq_none.1 hf r hr
    simp at this
  | some x =>
    have := List.find?_some hf
    exact ⟨x, rfl, by simpa using this⟩

/-- A change of the rooms that keeps their jids keeps which room a jid finds. -/
theorem find_room_map (rooms : List MucRoom) (room : String) (f : MucRoom → MucRoom)
    (hf : ∀ r, (f r).room = r.room) :
    (rooms.map f).find? (fun x => x.room == room)
      = (rooms.find? (fun x => x.room == room)).map f := by
  induction rooms with
  | nil => rfl
  | cons r rs ih =>
    by_cases h : r.room = room
    · simp [List.find?_cons, hf, h]
    · simp [List.find?_cons, hf, h, ih]

/-- After an insert the key is in the table. -/
theorem insert_has_key {α : Type} (t : List (String × α)) (k : String) (v : α) :
    (g_hash_table_insert t k v).any (fun e => e.1 == k) = true := by
  unfold g_hash_table_insert
  by_cases h : t.any (fun e => e.1 == k) = true
  · rw [if_pos h]
    rw [List.any_eq_true] at h ⊢
    obtain ⟨e, he, hk⟩ := h
    exact ⟨(e.1, v), List.mem_map.2 ⟨e, he, by simp [hk]⟩, hk⟩
  · rw [if_neg h]
    simp

/-- After `muc_add_to_roster` the nick is in the roster of a registered room. -/
theorem added_nick_in_roster (rooms : List MucRoom) (room nick : String)
    (show_str status : Option String) (h : room ∈ muc_get_active_room_list rooms) :
    muc_nick_in_roster room nick (muc_add_to_roster room nick show_str status rooms) = true := by
  obtain ⟨r, hr, hrr⟩ := listed_room_found rooms room h
  unfold muc_nick_in_roster muc_add_to_roster
  simp only []
  rw [find_room_map rooms room _ (by intro x; by_cases hx : (x.room == room) = true <;> simp [hx])]
  rw [hr]
  simp only [Option.map_some', hrr, beq_self_eq_true, if_true]
  exact insert_has_key _ _ _

/-- Completing a rename keeps the rooms of the registry, and changes nothing when no
rename is staged for the nick. -/
theorem complete_roster_nick_change_rooms (rooms : List MucRoom) (room nick : String) :
    muc_get_active_room_list (muc_complete_roster_nick_change room nick rooms).2
      = muc_get_active_room_list rooms ∧
    ((muc_complete_roster_nick_change room nick rooms).1 = none →
      (muc_complete_roster_nick_change room nick rooms).2 = rooms) := by
  unfold muc_complete_roster_nick_change
  cases hf : rooms.find? (fun r => r.room == room) with
  | none => exact ⟨rfl, fun _ => rfl⟩
  | some found =>
    dsimp only
    cases hl : g_hash_table_lookup found.roster_pending_nick_changes nick with
    | none => exact ⟨rfl, fun _ => rfl⟩
    | some old =>
      dsimp only
      refine ⟨?_, fun h => by simp at h⟩
      simp only [muc_get_active_room_list, List.map_map]
      apply List.map_congr_left
      intro r _
      by_cases hx : r.room = room <;> simp [hx]

/-- C28: for an available presence (no type attribute) that is no self-presence, from an
occupant nick of a registered room: while the roster of the room has not been received the
nick is added to the roster of the room and no notification is raised; once it has been
received exactly one notification is raised: nick-change, with the old nick, when
`muc_complete_roster_nick_change` completes a staged rename to the nick (the nick is then
added to the roster), and otherwise member-online when the nick is not in the roster of the
room and member-presence when it is.  The handler returns 1, and `_presence_handler` hands
every presence from an active room that is not of type error to it. -/
theorem room_presence_member_spec (jid room nick : String) (stanza : xmpp_stanza_t)
    (s : Session) (self_jid : Option String)
    (hp : parse_room_jid jid = some (room, nick))
    (hroom : room ∈ muc_get_active_room_list s.mem.muc_rooms)
    (hself : jabber_get_jid s = .ok self_jid)
    (hns : stanza_is_muc_self_presence stanza self_jid = false)
    (ht : xmpp_stanza_get_attribute stanza "type" = none) :
    (muc_get_roster_received room s.mem.muc_rooms = false →
      ∃ s', _room_presence_handler jid stanza s = .ok (1, s') ∧
        notified_since s s' = [] ∧
        s'.mem.muc_rooms = muc_add_to_roster room nick (presence_show_str stanza)
          (presence_status_str stanza) s.mem.muc_rooms ∧
        muc_nick_in_roster room nick s'.mem.muc_rooms = true) ∧
    (muc_get_roster_received room s.mem.muc_rooms = true →
      (∀ old, (muc_complete_roster_nick_change room nick s.mem.muc_rooms).1 = some old →
        ∃ s', _room_presence_handler jid stanza s = .ok (1, s') ∧
          notified_since s s' = [.invoke "prof_handle_room_member_nick_change"
            [some room, some old, some nick]] ∧
          s'.mem.muc_rooms = muc_add_to_roster room nick (presence_show_str stanza)
            (presence_status_str stanza)
            (muc_complete_roster_nick_change room nick s.mem.muc_rooms).2 ∧
          muc_nick_in_roster room nick s'.mem.muc_rooms = true) ∧
      ((muc_complete_roster_nick_change room nick s.mem.muc_rooms).1 = none →
        muc_nick_in_roster room nick s.mem.muc_rooms = false →
        ∃ s', _room_presence_handler jid stanza s = .ok (1, s') ∧
          notified_since s s' = [.invoke "prof_handle_room_member_online"
            [some room, some nick, presence_show_str stanza, presence_status_str stanza]] ∧
          s'.mem = s.mem) ∧
      ((muc_complete_roster_nick_change room nick s.mem.muc_rooms).1 = none →
        muc_nick_in_roster room nick s.mem.muc_rooms = true →
        ∃ s', _room_presence_handler jid stanza s = .ok (1, s') ∧
          notified_since s s' = [.invoke "prof_handle_room_member_presence"
            [some room, some nick, presence_show_str stanza, presence_status_str stanza]] ∧
          s'.mem = s.mem)) ∧
    (∀ (now : Int) (conn : xmpp_conn_t) (j : String),
      s.mem.jabber_conn.conn = some conn → conn.jid = some j →
      xmpp_stanza_get_attribute stanza "from" = some jid →
      muc_room_is_active jid s.mem.muc_rooms = true →
      _presence_handler now stanza s = _room_presence_handler jid stanza s) := by
  refine ⟨?_, ?_, ?_⟩
  · intro hrec
    refine ⟨{ s with mem := { s.mem with muc_rooms :=
        (muc_add_to_roster room nick (presence_show_str stanza) (presence_status_str stanza)
          s.mem.muc_rooms) } }, ?_, notified_since_same _ _ rfl, rfl,
      added_nick_in_roster _ _ _ _ _ hroom⟩
    simp only [_room_presence_handler, hp, hself, hns, ht, hrec]
    rfl
  · intro hrec
    refine ⟨?_, ?_, ?_⟩
    · intro old hold
      refine ⟨emit (.invoke "prof_handle_room_member_nick_change"
          [some room, some old, some nick])
        { s with mem := { s.mem with muc_rooms :=
          (muc_add_to_roster room nick (presence_show_str stanza) (presence_status_str stanza)
            (muc_complete_roster_nick_change room nick s.mem.muc_rooms).2) } }, ?_, ?_, rfl,
        added_nick_in_roster _ _ _ _ _
          (by rw [(complete_roster_nick_change_rooms _ _ _).1]; exact hroom)⟩
      · simp only [_room_presence_handler, hp, hself, hns, ht, hrec, hold]
        rfl
      · rw [notified_since_emit_after]
        · rfl
        · rfl
    · intro hnone hin
      refine ⟨emit (.invoke "prof_handle_room_member_online"
          [some room, some nick, presence_show_str stanza, presence_status_str stanza]) s, ?_,
        by rw [notified_since_emit]; rfl, rfl⟩
      have h2 := (complete_roster_nick_change_rooms s.mem.muc_rooms room nick).2 hnone
      simp only [_room_presence_handler, hp, hself, hns, ht, hrec, hnone, h2, hin]
      rfl
    · intro hnone hin
      refine ⟨emit (.invoke "prof_handle_room_member_presence"
          [some room, some nick, presence_show_str stanza, presence_status_str stanza]) s, ?_,
        by rw [notified_since_emit]; rfl, rfl⟩
      have h2 := (complete_roster_nick_change_rooms s.mem.muc_rooms room nick).2 hnone
      simp only [_room_presence_handler, hp, hself, hns, ht, hrec, hnone, h2, hin]
      rfl
  · intro now conn j hconn hj hfrom hact
    simp [_presence_handler, hconn, hj, ht, hfrom, hact]
/-- C27 at a delayed message of the occupant `bob` of the joined room `room@conf`: one
room-history notification, with the stamp of the delay element. -/
theorem groupchat_message_handler_spec_witness :
    xmpp_stanza_get_attribute room_history_message "from" = some "room@conf/bob" ∧
    (∃ s', _groupchat_message_handler room_history_message in_room = .ok (1, s') ∧
      notified_since in_room s' = [.invoke "prof_handle_room_history"
        [some "room@conf", some "bob", some "2012-11-05T21:54:32Z",
         xmpp_stanza_get_text (.tag "body" [] [.text "hi"])]]) ∧
    xmpp_stanza_get_text (.tag "body" [] [.text "hi"]) = some "hi" :=
  ⟨rfl,
   ((groupchat_message_handler_spec room_history_message in_room "room@conf/bob" rfl).2.1
      "room@conf" "bob" (.tag "body" [] [.text "hi"]) (by decide) rfl (by decide) rfl).1
      "2012-11-05T21:54:32Z" rfl,
   rfl⟩

/-- C28 at the presence of `dave` in the room `room@conf`, whose roster was received and
for which the rename of `carol` to `dave` is staged: one nick-change notification, and
`dave` is in the roster afterwards. -/
theorem room_presence_member_spec_witness :
    parse_room_jid "room@conf/dave" = some ("room@conf", "dave") ∧
    stanza_is_muc_self_presence (.tag "presence" [("from", "room@conf/dave")] [])
      (some "me@host") = false ∧
    (∃ s', _room_presence_handler "room@conf/dave"
          (.tag "presence" [("from", "room@conf/dave")] []) in_room_with_roster = .ok (1, s') ∧
        notified_since in_room_with_roster s' = [.invoke "prof_handle_room_member_nick_change"
          [some "room@conf", some "carol", some "dave"]] ∧
        s'.mem.muc_rooms = muc_add_to_roster "room@conf" "dave"
          (presence_show_str (.tag "presence" [("from", "room@conf/dave")] []))
          (presence_status_str (.tag "presence" [("from", "room@conf/dave")] []))
          (muc_complete_roster_nick_change "room@conf" "dave"
            in_room_with_roster.mem.muc_rooms).2 ∧
        muc_nick_in_roster "room@conf" "dave" s'.mem.muc_rooms = true) :=
  ⟨rfl, rfl,
   ((room_presence_member_spec "room@conf/dave" "room@conf" "dave"
      (.tag "presence" [("from", "room@conf/dave")] []) in_room_with_roster (some "me@host")
      rfl (by decide) rfl rfl rfl).2.1 rfl).1 "carol" rfl⟩

/-- C21, refuted as stated: the connection is `me@host`; an available presence from
`/me@host`, whose bare jid (the text before its first '/') is empty and so another than
`me@host`, raises no notification, because `strtok` passes over the leading '/' and finds
`me@host`; and on a presence from the empty jid the handler stops at the comparison with
the null `short_from`. -/
theorem presence_from_odd_jid :
    logged_in.mem.jabber_conn.conn.bind (fun c => c.jid) = some "me@host" ∧
    bare_jid "/me@host" = "" ∧ bare_jid "me@host" = "me@host" ∧
    muc_room_is_active "/me@host" logged_in.mem.muc_rooms = false ∧
    (∃ s', _presence_handler 100 (.tag "presence" [("from", "/me@host")] []) logged_in
        = .ok (1, s') ∧ notified_since logged_in s' = []) ∧
    _presence_handler 100 (.tag "presence" [("from", "")] []) logged_in
      = .error (.null_read "strcmp(short_jid, short_from)") :=
  ⟨rfl, rfl, rfl, rfl, ⟨_, rfl, rfl⟩, rfl⟩

/-- C21, amended: the jid of the connection and the from attribute of the presence both
start with a character other than '/', and the presence is not from an active room.  For
an available presence (no type attribute) and for a presence of type unavailable:
if the bare jid of the sender (the text before the first '/') is the bare jid of the
connection, `_presence_handler` returns 1 and raises no notification; otherwise it returns
1 and raises exactly one, contact-online (with show, status and last activity) for the
available presence and contact-offline for the unavailable one.  The controller state is
as it was. -/
theorem presence_handler_contact_spec (now : Int) (stanza : xmpp_stanza_t) (s : Session)
    (conn : xmpp_conn_t) (j f : String) (c d : Char) (cs ds : List Char)
    (hconn : s.mem.jabber_conn.conn = some conn) (hj : conn.jid = some j)
    (hjc : j.data = c :: cs) (hc : c ≠ '/')
    (hf : xmpp_stanza_get_attribute stanza "from" = some f)
    (hfd : f.data = d :: ds) (hd : d ≠ '/')
    (hroom : muc_room_is_active f s.mem.muc_rooms = false) :
    (xmpp_stanza_get_attribute stanza "type" = none →
      (bare_jid f = bare_jid j →
        ∃ s', _presence_handler now stanza s = .ok (1, s') ∧ s'.mem = s.mem ∧
          notified_since s s' = []) ∧
      (bare_jid f ≠ bare_jid j →
        ∃ s', _presence_handler now stanza s = .ok (1, s') ∧ s'.mem = s.mem ∧
          notified_since s s' = [.invoke "prof_handle_contact_online"
            [some (bare_jid f), presence_show_str stanza, presence_status_str stanza,
             presence_last_activity now stanza]])) ∧
    (xmpp_stanza_get_attribute stanza "type" = some "unavailable" →
      (bare_jid f = bare_jid j →
        ∃ s', _presence_handler now stanza s = .ok (1, s') ∧ s'.mem = s.mem ∧
          notified_since s s' = []) ∧
      (bare_jid f ≠ bare_jid j →
        ∃ s', _presence_handler now stanza s = .ok (1, s') ∧ s'.mem = s.mem ∧
          notified_since s s' = [.invoke "prof_handle_contact_offline"
            [some (bare_jid f), some "offline", presence_status_str stanza]])) := by
  have hsj := strtok_bare j c cs hjc hc
  have hsf := strtok_bare f d ds hfd hd
  constructor
  · intro ht
    constructor
    · intro he
      refine ⟨s, ?_, rfl, notified_since_same s s rfl⟩
      have he' : String.mk (j.data.takeWhile (fun c => !(c == '/')))
          = String.mk (f.data.takeWhile (fun c => !(c == '/'))) := he.symm
      simp only [_presence_handler, hconn, hj, ht, hf, hroom, hsj, hsf, he']
      simp
    · intro hne
      refine ⟨emit (.invoke "prof_handle_contact_online"
        [some (bare_jid f), presence_show_str stanza, presence_status_str stanza,
         presence_last_activity now stanza]) s, ?_, rfl, by rw [notified_since_emit]; rfl⟩
      have hne' : String.mk (j.data.takeWhile (fun c => !(c == '/')))
          ≠ String.mk (f.data.takeWhile (fun c => !(c == '/'))) := fun e => hne e.symm
      simp only [_presence_handler, hconn, hj, ht, hf, hroom, hsj, hsf]
      simp only [hne', ne_eq, not_false_eq_true, if_true]
      rfl
  · intro ht
    constructor
    · intro he
      refine ⟨s, ?_, rfl, notified_since_same s s rfl⟩
      have he' : String.mk (j.data.takeWhile (fun c => !(c == '/')))
          = String.mk (f.data.takeWhile (fun c => !(c == '/'))) := he.symm
      simp only [_presence_handler, hconn, hj, ht, hf, hroom, hsj, hsf, he']
      simp
    · intro hne
      refine ⟨emit (.invoke "prof_handle_contact_offline"
        [some (bare_jid f), some "offline", presence_status_str stanza]) s, ?_, rfl,
        by rw [notified_since_emit]; rfl⟩
      have hne' : String.mk (j.data.takeWhile (fun c => !(c == '/')))
          ≠ String.mk (f.data.takeWhile (fun c => !(c == '/'))) := fun e => hne e.symm
      simp only [_presence_handler, hconn, hj, ht, hf, hroom, hsj, hsf]
      simp [hne']
      rfl

/-- C21 at the connection `me@host` and the available presence of `you@host/phone`, away:
one contact-online notification for `you@host`. -/
theorem presence_handler_contact_spec_witness :
    xmpp_stanza_get_attribute contact_presence "from" = some "you@host/phone" ∧
    bare_jid "you@host/phone" ≠ bare_jid "me@host" ∧
    (∃ s', _presence_handler 100 contact_presence logged_in = .ok (1, s') ∧
      s'.mem = logged_in.mem ∧
      notified_since logged_in s' = [.invoke "prof_handle_contact_online"
        [some (bare_jid "you@host/phone"), presence_show_str contact_presence,
         presence_status_str contact_presence, presence_last_activity 100 contact_presence]]) ∧
    bare_jid "you@host/phone" = "you@host" ∧
    presence_show_str contact_presence = some "away" :=
  ⟨rfl, by decide,
   ((presence_handler_contact_spec 100 contact_presence logged_in
      { jid := some "me@host", pass := some "pw", tls_disabled := false }
      "me@host" "you@host/phone" 'm' 'y' "e@host".data "ou@host/phone".data
      rfl rfl rfl (by decide) rfl rfl (by decide) rfl).1 rfl).2 (by decide),
   rfl, rfl⟩

/-! ### The tests of `src/tests` on the modelled modules -/

/-- The model of the contact list on the tests of test_contact_list.c that add and search
(the tests of `contact_list_update_contact` apart): the lengths of the list, the jids after
ascending adds, the show and status of a new contact and the prefix searches come out as
the tests expect. -/
theorem contact_list_tests :
    get_contact_list (after_adds []) = [] ∧
    (get_contact_list (after_adds [("James", none, none)])).length = 1 ∧
    (get_contact_list (after_adds [("James", none, none)])).map p_contact_jid = ["James"] ∧
    (get_contact_list (after_adds [("James", none, none), ("Dave", none, none)])).length
      = 2 ∧
    (get_contact_list (after_adds [("James", none, none), ("Bob", none, none),
      ("Dave", none, none)])).length = 3 ∧
    (get_contact_list (after_adds [("Bob", none, none), ("Dave", none, none),
      ("James", none, none)])).map p_contact_jid = ["Bob", "Dave", "James"] ∧
    (get_contact_list (after_adds [("James", none, none), ("James", none, none),
      ("Dave", none, none), ("Bob", none, none)])).length = 3 ∧
    (get_contact_list (after_adds [("James", none, none), ("Dave", none, none),
      ("James", none, none), ("Bob", none, none)])).length = 3 ∧
    (get_contact_list (after_adds [("James", none, none), ("Dave", none, none),
      ("Bob", none, none), ("James", none, none)])).length = 3 ∧
    (get_contact_list (after_adds [("James", some "away", none)])).map p_contact_presence
      = [some "away"] ∧
    (get_contact_list (after_adds [("James", none, none)])).map p_contact_presence
      = [some "online"] ∧
    (get_contact_list (after_adds [("James", some "", none)])).map p_contact_presence
      = [some "online"] ∧
    (get_contact_list (after_adds [("James", none, some "Gone to lunch")])).map
      p_contact_status = [some "Gone to lunch"] ∧
    (get_contact_list (after_adds [("James", none, none)])).map p_contact_status = [none] ∧
    (contact_list_find_contact "B" (after_adds [("James", none, none), ("Dave", none, none),
      ("Bob", none, none)])).1 = some "Bob" ∧
    (contact_list_find_contact "Dav" (after_adds [("James", none, none),
      ("Dave", none, none), ("Bob", none, none)])).1 = some "Dave" ∧
    (contact_list_find_contact "Ja" (after_adds [("James", none, none), ("Dave", none, none),
      ("Bob", none, none)])).1 = some "James" ∧
    (contact_list_find_contact "Mike" (after_adds [("James", none, none),
      ("Dave", none, none), ("Bob", none, none)])).1 = none ∧
    (contact_list_find_contact "James" (after_adds [])).1 = none ∧
    search_chain 2 "Jam" (after_adds [("James", none, none), ("Jamie", none, none),
      ("Bob", none, none)]) = ["James", "Jamie"] ∧
    (search_chain 5 "Jam" (after_adds [("Jama", none, none), ("Jamb", none, none),
      ("Mike", none, none), ("Dave", none, none), ("Jamm", none, none), ("Jamn", none, none),
      ("Matt", none, none), ("Jamo", none, none), ("Jamy", none, none),
      ("Jamz", none, none)]))[4]? = some "Jamo" ∧
    (contact_list_find_contact "James" (contact_list_reset_search_attempts
      (contact_list_find_contact "Jam" (after_adds [("James", none, none),
        ("Jamie", none, none), ("Bob", none, none)])).2)).1 = some "James" := by
  decide

/-- Four tests of test_contact_list.c read the contacts back in the order of the adds
(`first_and_second_elements_correct` expects James, Dave; `add_twice_at_beginning_adds_once`,
`add_twice_in_middle_adds_once` and `add_twice_at_end_adds_once` expect James, Dave, Bob).
The list modelled from the spec ("sorted-insert, not append") holds the same contacts in
ascending order instead: Dave, James and Bob, Dave, James. -/
theorem contact_list_order_tests :
    (get_contact_list (after_adds [("James", none, none), ("Dave", none, none)])).map
      p_contact_jid = ["Dave", "James"] ∧
    (get_contact_list (after_adds [("James", none, none), ("James", none, none),
      ("Dave", none, none), ("Bob", none, none)])).map p_contact_jid
        = ["Bob", "Dave", "James"] ∧
    (get_contact_list (after_adds [("James", none, none), ("Dave", none, none),
      ("James", none, none), ("Bob", none, none)])).map p_contact_jid
        = ["Bob", "Dave", "James"] ∧
    (get_contact_list (after_adds [("James", none, none), ("Dave", none, none),
      ("Bob", none, none), ("James", none, none)])).map p_contact_jid
        = ["Bob", "Dave", "James"] := by
  decide

/-- The model of the parser passes the tests of test_parser.c. -/
theorem parser_tests :
    parse_args none 1 2 = none ∧
    parse_args (some "") 1 2 = none ∧
    parse_args (some "   ") 1 2 = none ∧
    parse_args (some "/cmd") 1 2 = none ∧
    parse_args (some "/cmd   ") 1 2 = none ∧
    parse_args (some "/cmd arg1") 2 3 = none ∧
    parse_args (some "/cmd arg1 arg2 arg3 arg4") 1 3 = none ∧
    parse_args (some "/cmd arg1") 1 2 = some ["arg1"] ∧
    parse_args (some "/cmd arg1 arg2") 1 2 = some ["arg1", "arg2"] ∧
    parse_args (some "/cmd arg1 arg2 arg3") 3 3 = some ["arg1", "arg2", "arg3"] ∧
    parse_args (some "  /cmd    arg1  arg2     arg3 ") 3 3 = some ["arg1", "arg2", "arg3"] ∧
    parse_args_with_freetext (some "/cmd this is some free text") 1 1
      = some ["this is some free text"] ∧
    parse_args_with_freetext (some "/cmd arg1 this is some free text") 1 2
      = some ["arg1", "this is some free text"] ∧
    parse_args_with_freetext (some "/cmd arg1 arg2 this is some free text") 1 3
      = some ["arg1", "arg2", "this is some free text"] ∧
    parse_args (some "/cmd") 0 2 = some [] ∧
    parse_args_with_freetext (some "/cmd") 0 2 = some [] := by
  decide

/-- The dispatching handlers at stanzas of type error without an error child, and the
presence handler at a presence without a from attribute: `_message_handler` and
`_presence_handler` hand the stanza of type error to `_error_handler`, which reads through
the null error stanza; none of the calls returns 1. -/
theorem dispatch_reads_through_null :
    _message_handler prefs_reconnect_5
        (.tag "message" [("type", "error"), ("from", "you@host")] []) logged_in
      = .error (.null_read "xmpp_stanza_get_child_by_name(error_stanza, text)") ∧
    _presence_handler 100 (.tag "presence" [("type", "error"), ("from", "you@host")] [])
        logged_in
      = .error (.null_read "xmpp_stanza_get_child_by_name(error_stanza, text)") ∧
    _message_handler prefs_reconnect_5
        (.tag "message" [("type", "chat")] [.tag "body" [] [.text "hi"]]) logged_in
      = .error (.null_read "strlen(from)") ∧
    _presence_handler 100 (.tag "presence" [] []) logged_in
      = .error (.null_read "muc_room_is_active(from)") :=
  ⟨rfl, rfl, rfl, rfl⟩

end Profanity
